import Mathlib

/-!
# EEZ Studio LVGL flow runtime: timeline evaluator and update-task dispatcher

A shallow embedding of
`packages/project-editor/flow/runtime/cpp/lvgl-runtime/src/flow.cpp`.

Numeric model.  A C `float` value is the rational number (`ℚ`) it denotes; NaN,
infinities and overflow are outside the model.  The float code of
`updateTimelineProperties` is given twice.  In the definitions named `...Float`
every float operation, and the conversion of an `int32_t` to `float`, is followed
by a rounding `fl : ℚ → ℚ`, in the order in which C evaluates the expression;
`binary32` is the IEEE 754 single-precision rounding (to nearest, ties to even).
The definitions without that suffix take every float operation as exact: they are
the `...Float` definitions at the rounding that changes nothing
(`updateTimelinePropertiesFloat_exact`), and carry the properties that do not
depend on rounding (which keyframe is taken, skipping, snapping, caching).
Fixed-width integers are `Int`/`Nat`; conversions to a narrower integer type wrap
(two's complement).  `roundf` rounds half away from zero, and a float-to-integer
conversion truncates toward zero.

Toolkit model.  An `lv_obj_t` is a record of the values the LVGL getters used in
`flow.cpp` return for it; a setter stores its argument in the matching field.
Every toolkit call made by the code is also recorded in a trace, so that "no
write happens" is a statement about that trace.
-/

namespace EezFlow

/-! ## Integer conversions and rounding -/

/-- Conversion of an integer to `int16_t` (wraps modulo 2^16). -/
def toInt16 (z : Int) : Int := (z + 32768) % 65536 - 32768

/-- Conversion of an integer to `int32_t` (wraps modulo 2^32). -/
def toInt32 (z : Int) : Int := (z + 2147483648) % 4294967296 - 2147483648

/-- Conversion of an integer to `uint16_t` (reduction modulo 2^16). -/
def toUInt16 (z : Int) : Nat := (z % 65536).toNat

/-- Conversion of a float to an integer: truncation toward zero. -/
def truncf (q : ℚ) : Int := if 0 ≤ q then ⌊q⌋ else ⌈q⌉

/-- The C library `roundf`: nearest integer, halfway cases away from zero. -/
def roundf (q : ℚ) : Int := if 0 ≤ q then ⌊q + 1 / 2⌋ else ⌈q - 1 / 2⌉

/-! ## Single-precision arithmetic -/

/-- Nearest integer, a halfway case going to the even neighbour. -/
def roundHalfEven (q : ℚ) : Int :=
  if q - ⌊q⌋ < 1 / 2 then ⌊q⌋
  else if 1 / 2 < q - ⌊q⌋ then ⌊q⌋ + 1
  else if ⌊q⌋ % 2 = 0 then ⌊q⌋ else ⌊q⌋ + 1

/-- The exponent `e` of the spacing `2 ^ e` of the binary32 numbers around `q`:
24 significant bits, and the fixed spacing `2 ^ (-149)` below `2 ^ (-126)`. -/
def binary32Exponent (q : ℚ) : Int := max (Int.log 2 |q|) (-126) - 23

/-- Rounding to IEEE 754 binary32 (the C `float`), to nearest with ties to even.
Overflow is not modelled: a value past the largest float is rounded as if the
exponent range went on. -/
def binary32 (q : ℚ) : ℚ :=
  roundHalfEven (q / 2 ^ binary32Exponent q) * 2 ^ binary32Exponent q

/-- Float addition `a + b`: the exact sum, rounded. -/
def fadd (fl : ℚ → ℚ) (a b : ℚ) : ℚ := fl (a + b)

/-- Float subtraction `a - b`: the exact difference, rounded. -/
def fsub (fl : ℚ → ℚ) (a b : ℚ) : ℚ := fl (a - b)

/-- Float multiplication `a * b`: the exact product, rounded. -/
def fmul (fl : ℚ → ℚ) (a b : ℚ) : ℚ := fl (a * b)

/-- Float division `a / b`: the exact quotient, rounded. -/
def fdiv (fl : ℚ → ℚ) (a b : ℚ) : ℚ := fl (a / b)

/-- Conversion of an `int32_t` to `float`: rounded, since a float has 24
significant bits.  (An `int16_t` converts exactly and is used as it is.) -/
def int32ToFloat (fl : ℚ → ℚ) (n : Int) : ℚ := fl n

/-! ## Timeline data model (flow.cpp lines 34-126) -/

def WIDGET_TIMELINE_PROPERTY_X : Nat := 1 <<< 0
def WIDGET_TIMELINE_PROPERTY_Y : Nat := 1 <<< 1
def WIDGET_TIMELINE_PROPERTY_WIDTH : Nat := 1 <<< 2
def WIDGET_TIMELINE_PROPERTY_HEIGHT : Nat := 1 <<< 3
def WIDGET_TIMELINE_PROPERTY_OPACITY : Nat := 1 <<< 4
def WIDGET_TIMELINE_PROPERTY_SCALE : Nat := 1 <<< 5
def WIDGET_TIMELINE_PROPERTY_ROTATE : Nat := 1 <<< 6
def WIDGET_TIMELINE_PROPERTY_CP1 : Nat := 1 <<< 7
def WIDGET_TIMELINE_PROPERTY_CP2 : Nat := 1 <<< 8

def EASING_FUNC_LINEAR : Nat := 0

/-- Handle of a toolkit object (`lv_obj_t *`). -/
abbrev ObjId := Nat

/-- The struct `TimelineKeyframe`.  `start`, `end` and `opacity` are floats, the
targets `x` .. `rotate` are `int16_t`, the easing selectors `uint8_t`, the
control points `int32_t`. -/
structure TimelineKeyframe where
  start : ℚ
  end_ : ℚ
  enabledProperties : Nat
  x : Int
  xEasingFunc : Nat
  y : Int
  yEasingFunc : Nat
  width : Int
  widthEasingFunc : Nat
  height : Int
  heightEasingFunc : Nat
  opacity : ℚ
  opacityEasingFunc : Nat
  scale : Int
  scaleEasingFunc : Nat
  rotate : Int
  rotateEasingFunc : Nat
  cp1x : Int
  cp1y : Int
  cp2x : Int
  cp2y : Int

/-- The struct `WidgetTimeline`.  All seven cached base fields, `opacity`
included, are declared `int16_t` in the source. -/
structure WidgetTimeline where
  obj : ObjId
  pageIndex : Nat
  lastTimelinePosition : ℚ
  x : Int
  y : Int
  width : Int
  height : Int
  opacity : Int
  scale : Int
  rotate : Int
  timeline : List TimelineKeyframe

/-- The C test `keyframe.enabledProperties & MASK` used as a condition. -/
def hasProperty (enabledProperties mask : Nat) : Bool :=
  (enabledProperties &&& mask) != 0

/-- The ranges the field types of `TimelineKeyframe` impose on the integer
targets (`int16_t`). -/
def TimelineKeyframe.InRange (k : TimelineKeyframe) : Prop :=
  (-32768 ≤ k.x ∧ k.x < 32768) ∧ (-32768 ≤ k.y ∧ k.y < 32768) ∧
  (-32768 ≤ k.width ∧ k.width < 32768) ∧ (-32768 ≤ k.height ∧ k.height < 32768) ∧
  (-32768 ≤ k.scale ∧ k.scale < 32768) ∧ (-32768 ≤ k.rotate ∧ k.rotate < 32768)

/-! ## Toolkit objects -/

/-- The style properties read and written by the timeline evaluator. -/
inductive lv_style_prop_t where
  | LV_STYLE_X
  | LV_STYLE_Y
  | LV_STYLE_WIDTH
  | LV_STYLE_HEIGHT
  | LV_STYLE_OPA
  | LV_STYLE_TRANSFORM_ZOOM
  | LV_STYLE_TRANSFORM_ANGLE
  deriving DecidableEq, Repr

/-- The object states tested and changed by the update tasks. -/
inductive lv_state_t where
  | LV_STATE_CHECKED
  | LV_STATE_DISABLED
  deriving DecidableEq, Repr

/-- The object flags tested and changed by the update tasks. -/
inductive lv_obj_flag_t where
  | LV_OBJ_FLAG_HIDDEN
  | LV_OBJ_FLAG_CLICKABLE
  deriving DecidableEq, Repr

/-- One toolkit object as seen through the getters `flow.cpp` calls on it.
Each field is what the getter of that name returns for this object, whatever
its widget class: `barValue` is the result of `lv_bar_get_value`, `arcValue`
the result of `lv_arc_get_value`, and so on. -/
structure LvObj where
  styleX : Int
  styleY : Int
  styleWidth : Int
  styleHeight : Int
  styleOpa : Int
  styleTransformZoom : Int
  styleTransformAngle : Int
  labelText : String
  textareaText : String
  dropdownSelected : Nat
  rollerSelected : Nat
  sliderValue : Int
  sliderLeftValue : Int
  arcValue : Int
  barValue : Int
  barStartValue : Int
  stateChecked : Bool
  stateDisabled : Bool
  flagHidden : Bool
  flagClickable : Bool
  deriving DecidableEq, Repr

/-- Toolkit getter `lv_obj_get_style_prop(obj, LV_PART_MAIN, prop).num`. -/
def lv_obj_get_style_prop (o : LvObj) : lv_style_prop_t → Int
  | .LV_STYLE_X => o.styleX
  | .LV_STYLE_Y => o.styleY
  | .LV_STYLE_WIDTH => o.styleWidth
  | .LV_STYLE_HEIGHT => o.styleHeight
  | .LV_STYLE_OPA => o.styleOpa
  | .LV_STYLE_TRANSFORM_ZOOM => o.styleTransformZoom
  | .LV_STYLE_TRANSFORM_ANGLE => o.styleTransformAngle

/-- Toolkit setter `lv_obj_set_local_style_prop(obj, prop, value, LV_PART_MAIN)`. -/
def lv_obj_set_local_style_prop (o : LvObj) (prop : lv_style_prop_t) (v : Int) : LvObj :=
  match prop with
  | .LV_STYLE_X => { o with styleX := v }
  | .LV_STYLE_Y => { o with styleY := v }
  | .LV_STYLE_WIDTH => { o with styleWidth := v }
  | .LV_STYLE_HEIGHT => { o with styleHeight := v }
  | .LV_STYLE_OPA => { o with styleOpa := v }
  | .LV_STYLE_TRANSFORM_ZOOM => { o with styleTransformZoom := v }
  | .LV_STYLE_TRANSFORM_ANGLE => { o with styleTransformAngle := v }

/-- A call made by `flow.cpp` into the toolkit that changes an object (or asks
for a layout pass), as recorded in the trace. -/
inductive LvCall where
  | lv_obj_set_local_style_prop (obj : ObjId) (prop : lv_style_prop_t) (v : Int)
  | lv_obj_update_layout (obj : ObjId)
  | lv_label_set_text (obj : ObjId) (s : String)
  | lv_textarea_set_text (obj : ObjId) (s : String)
  | lv_dropdown_set_selected (obj : ObjId) (sel : Nat)
  | lv_roller_set_selected (obj : ObjId) (sel : Nat)
  | lv_slider_set_value (obj : ObjId) (v : Int)
  | lv_slider_set_left_value (obj : ObjId) (v : Int)
  | lv_arc_set_value (obj : ObjId) (v : Int)
  | lv_bar_set_value (obj : ObjId) (v : Int)
  | lv_bar_set_start_value (obj : ObjId) (v : Int)
  | lv_obj_add_state (obj : ObjId) (s : lv_state_t)
  | lv_obj_clear_state (obj : ObjId) (s : lv_state_t)
  | lv_obj_add_flag (obj : ObjId) (f : lv_obj_flag_t)
  | lv_obj_clear_flag (obj : ObjId) (f : lv_obj_flag_t)
  deriving DecidableEq, Repr

/-! ## Timeline registration (flow.cpp lines 128-191) -/

/-- The loop of `addTimelineKeyframe` over `widgetTimelines`: the keyframe is
pushed onto the first timeline whose `obj` matches; `none` when there is none. -/
def pushKeyframe (obj : ObjId) (k : TimelineKeyframe) :
    List WidgetTimeline → Option (List WidgetTimeline)
  | [] => none
  | wt :: rest =>
    if wt.obj = obj then some ({ wt with timeline := wt.timeline ++ [k] } :: rest)
    else (pushKeyframe obj k rest).map (fun r => wt :: r)

/-- The function `addTimelineKeyframe`, with the keyframe fields already
gathered in `k`.  The base fields of a new `WidgetTimeline` are left
uninitialised by the source; the model sets them to 0. -/
def addTimelineKeyframe (widgetTimelines : List WidgetTimeline) (obj : ObjId)
    (page_index : Nat) (k : TimelineKeyframe) : List WidgetTimeline :=
  match pushKeyframe obj k widgetTimelines with
  | some l => l
  | none =>
    widgetTimelines ++
      [{ obj := obj, pageIndex := page_index, lastTimelinePosition := -1,
         x := 0, y := 0, width := 0, height := 0, opacity := 0, scale := 0, rotate := 0,
         timeline := [k] }]

/-! ## Timeline evaluator (flow.cpp lines 193-361) -/

/-- The working values `x, y, w, h, opacity, scale, rotate` (floats) of
`updateTimelineProperties`. -/
structure Working where
  x : ℚ
  y : ℚ
  w : ℚ
  h : ℚ
  opacity : ℚ
  scale : ℚ
  rotate : ℚ
  deriving DecidableEq

/-- Lines 194-204: the lazy capture of the base values, run when
`lastTimelinePosition == -1`. -/
def captureBase (wt : WidgetTimeline) (o : LvObj) : WidgetTimeline :=
  if wt.lastTimelinePosition = -1 then
    { wt with
      x := toInt16 (lv_obj_get_style_prop o .LV_STYLE_X)
      y := toInt16 (lv_obj_get_style_prop o .LV_STYLE_Y)
      width := toInt16 (lv_obj_get_style_prop o .LV_STYLE_WIDTH)
      height := toInt16 (lv_obj_get_style_prop o .LV_STYLE_HEIGHT)
      opacity := toInt16 (truncf ((lv_obj_get_style_prop o .LV_STYLE_OPA : ℚ) / 255))
      scale := toInt16 (lv_obj_get_style_prop o .LV_STYLE_TRANSFORM_ZOOM)
      rotate := toInt16 (lv_obj_get_style_prop o .LV_STYLE_TRANSFORM_ANGLE)
      lastTimelinePosition := 0 }
  else wt

/-- Lines 210-216: the working values start from the cached base. -/
def baseValues (wt : WidgetTimeline) : Working :=
  { x := wt.x, y := wt.y, w := wt.width, h := wt.height,
    opacity := wt.opacity, scale := wt.scale, rotate := wt.rotate }

/-- Lines 226-230: the local progress `t` of a keyframe at a position, the
subtractions and the division taken as exact (`localProgressFloat` rounds
them). -/
def localProgress (k : TimelineKeyframe) (timelinePosition : ℚ) : ℚ :=
  if k.start = k.end_ then 1
  else (timelinePosition - k.start) / (k.end_ - k.start)

/-- Lines 235-257 (and 267-289 for y): the position blend, from the working
value `p1` toward `target` with control points `cp1`, `cp2`, every float
operation taken as exact (`blendPositionFloat` rounds them). -/
def blendPosition (enabledProperties : Nat) (t2 p1 : ℚ) (cp1 cp2 target : Int) : ℚ :=
  if hasProperty enabledProperties WIDGET_TIMELINE_PROPERTY_CP2 then
    (1 - t2) * (1 - t2) * (1 - t2) * p1 +
    3 * (1 - t2) * (1 - t2) * t2 * cp1 +
    3 * (1 - t2) * t2 * t2 * cp2 +
    t2 * t2 * t2 * target
  else if hasProperty enabledProperties WIDGET_TIMELINE_PROPERTY_CP1 then
    (1 - t2) * (1 - t2) * p1 +
    2 * (1 - t2) * t2 * cp1 +
    t2 * t2 * target
  else
    (1 - t2) * p1 + t2 * target

/-- Lines 226-306: the body run for the keyframe whose window contains the
position, every float operation taken as exact (`blendKeyframeFloat` rounds
them).  `g_easingFuncs` is the easing table `eez::g_easingFuncs`. -/
def blendKeyframe (g_easingFuncs : Nat → ℚ → ℚ) (k : TimelineKeyframe)
    (timelinePosition : ℚ) (v : Working) : Working :=
  let t := localProgress k timelinePosition
  let x :=
    if hasProperty k.enabledProperties WIDGET_TIMELINE_PROPERTY_X then
      blendPosition k.enabledProperties (g_easingFuncs k.xEasingFunc t) v.x k.cp1x k.cp2x k.x
    else v.x
  let w :=
    if hasProperty k.enabledProperties WIDGET_TIMELINE_PROPERTY_WIDTH then
      v.w + g_easingFuncs k.widthEasingFunc t * (k.width - v.w)
    else v.w
  let y :=
    if hasProperty k.enabledProperties WIDGET_TIMELINE_PROPERTY_Y then
      blendPosition k.enabledProperties (g_easingFuncs k.yEasingFunc t) v.y k.cp1y k.cp2y k.y
    else v.y
  let h :=
    if hasProperty k.enabledProperties WIDGET_TIMELINE_PROPERTY_HEIGHT then
      v.h + g_easingFuncs k.heightEasingFunc t * (k.height - v.h)
    else v.h
  let opacity :=
    if hasProperty k.enabledProperties WIDGET_TIMELINE_PROPERTY_OPACITY then
      v.opacity + g_easingFuncs k.opacityEasingFunc t * (k.opacity - v.opacity)
    else v.opacity
  let scale :=
    if hasProperty k.enabledProperties WIDGET_TIMELINE_PROPERTY_SCALE then
      v.scale + g_easingFuncs k.scaleEasingFunc t * (k.scale - v.scale)
    else v.scale
  let rotate :=
    if hasProperty k.enabledProperties WIDGET_TIMELINE_PROPERTY_ROTATE then
      v.rotate + g_easingFuncs k.rotateEasingFunc t * (k.rotate - v.rotate)
    else v.rotate
  { x := x, y := y, w := w, h := h, opacity := opacity, scale := scale, rotate := rotate }

/-- Lines 311-334: the body run for a keyframe that is neither skipped nor
active; every enabled property takes the keyframe target. -/
def snapKeyframe (k : TimelineKeyframe) (v : Working) : Working :=
  { x := if hasProperty k.enabledProperties WIDGET_TIMELINE_PROPERTY_X then k.x else v.x
    y := if hasProperty k.enabledProperties WIDGET_TIMELINE_PROPERTY_Y then k.y else v.y
    w := if hasProperty k.enabledProperties WIDGET_TIMELINE_PROPERTY_WIDTH then k.width else v.w
    h := if hasProperty k.enabledProperties WIDGET_TIMELINE_PROPERTY_HEIGHT then k.height else v.h
    opacity :=
      if hasProperty k.enabledProperties WIDGET_TIMELINE_PROPERTY_OPACITY then k.opacity
      else v.opacity
    scale :=
      if hasProperty k.enabledProperties WIDGET_TIMELINE_PROPERTY_SCALE then k.scale else v.scale
    rotate :=
      if hasProperty k.enabledProperties WIDGET_TIMELINE_PROPERTY_ROTATE then k.rotate
      else v.rotate }

/-- Lines 218-335: the loop over the keyframes, in list order, with its
`continue` (future keyframe) and `break` (active keyframe). -/
def scanKeyframes (g_easingFuncs : Nat → ℚ → ℚ) (timelinePosition : ℚ) :
    List TimelineKeyframe → Working → Working
  | [], v => v
  | k :: rest, v =>
    if timelinePosition < k.start then
      scanKeyframes g_easingFuncs timelinePosition rest v
    else if timelinePosition ≥ k.start ∧ timelinePosition ≤ k.end_ then
      blendKeyframe g_easingFuncs k timelinePosition v
    else
      scanKeyframes g_easingFuncs timelinePosition rest (snapKeyframe k v)

/-- Lines 337-358: the seven values written to the widget, in the order of the
calls. -/
def styleWrites (v : Working) : List (lv_style_prop_t × Int) :=
  [ (.LV_STYLE_X, toInt16 (roundf v.x)),
    (.LV_STYLE_Y, toInt16 (roundf v.y)),
    (.LV_STYLE_WIDTH, toInt16 (roundf v.w)),
    (.LV_STYLE_HEIGHT, toInt16 (roundf v.h)),
    (.LV_STYLE_OPA, toInt32 (roundf (v.opacity * 255))),
    (.LV_STYLE_TRANSFORM_ZOOM, toInt32 (roundf v.scale)),
    (.LV_STYLE_TRANSFORM_ANGLE, toInt32 (roundf v.rotate)) ]

/-- The state `updateTimelineProperties` leaves behind: the timeline (passed by
reference), the widget, and the toolkit calls made. -/
structure TimelineUpdate where
  widgetTimeline : WidgetTimeline
  obj : LvObj
  calls : List LvCall

/-- The function `updateTimelineProperties` (lines 193-361). -/
def updateTimelineProperties (g_easingFuncs : Nat → ℚ → ℚ) (widgetTimeline : WidgetTimeline)
    (o : LvObj) (timelinePosition : ℚ) : TimelineUpdate :=
  let wt := captureBase widgetTimeline o
  if timelinePosition = wt.lastTimelinePosition then
    { widgetTimeline := wt, obj := o, calls := [] }
  else
    let v := scanKeyframes g_easingFuncs timelinePosition wt.timeline (baseValues wt)
    let writes := styleWrites v
    { widgetTimeline := wt
      obj := writes.foldl (fun ob pv => lv_obj_set_local_style_prop ob pv.1 pv.2) o
      calls :=
        writes.map (fun pv => LvCall.lv_obj_set_local_style_prop wt.obj pv.1 pv.2) ++
          [LvCall.lv_obj_update_layout wt.obj] }

/-! ## Timeline evaluator in single precision (flow.cpp lines 193-361)

The same code with every float operation rounded by `fl`, each on its own (no
fused multiply-add, no wider intermediate precision).  The easing functions of
the table `eez::g_easingFuncs`, which is defined outside `flow.cpp`, take and
return a `float`; an `int16_t` operand converts to `float` exactly, an `int32_t` operand
(the control points, a style value) is rounded. -/

/-- Lines 194-204 with the float division of line 199 rounded:
`lv_obj_get_style_prop(...).num / 255.0f`, then the conversion to `int16_t`. -/
def captureBaseFloat (fl : ℚ → ℚ) (wt : WidgetTimeline) (o : LvObj) : WidgetTimeline :=
  if wt.lastTimelinePosition = -1 then
    { wt with
      x := toInt16 (lv_obj_get_style_prop o .LV_STYLE_X)
      y := toInt16 (lv_obj_get_style_prop o .LV_STYLE_Y)
      width := toInt16 (lv_obj_get_style_prop o .LV_STYLE_WIDTH)
      height := toInt16 (lv_obj_get_style_prop o .LV_STYLE_HEIGHT)
      opacity := toInt16 (truncf
        (fdiv fl (int32ToFloat fl (lv_obj_get_style_prop o .LV_STYLE_OPA)) 255))
      scale := toInt16 (lv_obj_get_style_prop o .LV_STYLE_TRANSFORM_ZOOM)
      rotate := toInt16 (lv_obj_get_style_prop o .LV_STYLE_TRANSFORM_ANGLE)
      lastTimelinePosition := 0 }
  else wt

/-- Lines 226-230: `t = start == end ? 1 : (position - start) / (end - start)`,
two float subtractions and a float division. -/
def localProgressFloat (fl : ℚ → ℚ) (k : TimelineKeyframe) (timelinePosition : ℚ) : ℚ :=
  if k.start = k.end_ then 1
  else fdiv fl (fsub fl timelinePosition k.start) (fsub fl k.end_ k.start)

/-- Lines 235-257 (and 267-289 for y) in float arithmetic.  C evaluates each
product and each sum from left to right, `1 - t2` is a float subtraction, and
the `int32_t` control points are converted to `float` when multiplied. -/
def blendPositionFloat (fl : ℚ → ℚ) (enabledProperties : Nat) (t2 p1 : ℚ)
    (cp1 cp2 target : Int) : ℚ :=
  if hasProperty enabledProperties WIDGET_TIMELINE_PROPERTY_CP2 then
    fadd fl
      (fadd fl
        (fadd fl
          (fmul fl (fmul fl (fmul fl (fsub fl 1 t2) (fsub fl 1 t2)) (fsub fl 1 t2)) p1)
          (fmul fl (fmul fl (fmul fl (fmul fl 3 (fsub fl 1 t2)) (fsub fl 1 t2)) t2)
            (int32ToFloat fl cp1)))
        (fmul fl (fmul fl (fmul fl (fmul fl 3 (fsub fl 1 t2)) t2) t2) (int32ToFloat fl cp2)))
      (fmul fl (fmul fl (fmul fl t2 t2) t2) target)
  else if hasProperty enabledProperties WIDGET_TIMELINE_PROPERTY_CP1 then
    fadd fl
      (fadd fl
        (fmul fl (fmul fl (fsub fl 1 t2) (fsub fl 1 t2)) p1)
        (fmul fl (fmul fl (fmul fl 2 (fsub fl 1 t2)) t2) (int32ToFloat fl cp1)))
      (fmul fl (fmul fl t2 t2) target)
  else
    fadd fl (fmul fl (fsub fl 1 t2) p1) (fmul fl t2 target)

/-- Lines 226-306 in float arithmetic: `value += e(t) * (target - value)` is a
float subtraction, a float multiplication and a float addition. -/
def blendKeyframeFloat (fl : ℚ → ℚ) (g_easingFuncs : Nat → ℚ → ℚ) (k : TimelineKeyframe)
    (timelinePosition : ℚ) (v : Working) : Working :=
  let t := localProgressFloat fl k timelinePosition
  let x :=
    if hasProperty k.enabledProperties WIDGET_TIMELINE_PROPERTY_X then
      blendPositionFloat fl k.enabledProperties (g_easingFuncs k.xEasingFunc t) v.x
        k.cp1x k.cp2x k.x
    else v.x
  let w :=
    if hasProperty k.enabledProperties WIDGET_TIMELINE_PROPERTY_WIDTH then
      fadd fl v.w (fmul fl (g_easingFuncs k.widthEasingFunc t) (fsub fl k.width v.w))
    else v.w
  let y :=
    if hasProperty k.enabledProperties WIDGET_TIMELINE_PROPERTY_Y then
      blendPositionFloat fl k.enabledProperties (g_easingFuncs k.yEasingFunc t) v.y
        k.cp1y k.cp2y k.y
    else v.y
  let h :=
    if hasProperty k.enabledProperties WIDGET_TIMELINE_PROPERTY_HEIGHT then
      fadd fl v.h (fmul fl (g_easingFuncs k.heightEasingFunc t) (fsub fl k.height v.h))
    else v.h
  let opacity :=
    if hasProperty k.enabledProperties WIDGET_TIMELINE_PROPERTY_OPACITY then
      fadd fl v.opacity
        (fmul fl (g_easingFuncs k.opacityEasingFunc t) (fsub fl k.opacity v.opacity))
    else v.opacity
  let scale :=
    if hasProperty k.enabledProperties WIDGET_TIMELINE_PROPERTY_SCALE then
      fadd fl v.scale (fmul fl (g_easingFuncs k.scaleEasingFunc t) (fsub fl k.scale v.scale))
    else v.scale
  let rotate :=
    if hasProperty k.enabledProperties WIDGET_TIMELINE_PROPERTY_ROTATE then
      fadd fl v.rotate
        (fmul fl (g_easingFuncs k.rotateEasingFunc t) (fsub fl k.rotate v.rotate))
    else v.rotate
  { x := x, y := y, w := w, h := h, opacity := opacity, scale := scale, rotate := rotate }

/-- Lines 218-335 in float arithmetic.  The comparisons are exact, and the
snapped targets are `int16_t` values or the float `keyframe.opacity`, so only the
active keyframe rounds. -/
def scanKeyframesFloat (fl : ℚ → ℚ) (g_easingFuncs : Nat → ℚ → ℚ) (timelinePosition : ℚ) :
    List TimelineKeyframe → Working → Working
  | [], v => v
  | k :: rest, v =>
    if timelinePosition < k.start then
      scanKeyframesFloat fl g_easingFuncs timelinePosition rest v
    else if timelinePosition ≥ k.start ∧ timelinePosition ≤ k.end_ then
      blendKeyframeFloat fl g_easingFuncs k timelinePosition v
    else
      scanKeyframesFloat fl g_easingFuncs timelinePosition rest (snapKeyframe k v)

/-- Lines 337-358 in float arithmetic: `opacity * 255.0f` is a float
multiplication. -/
def styleWritesFloat (fl : ℚ → ℚ) (v : Working) : List (lv_style_prop_t × Int) :=
  [ (.LV_STYLE_X, toInt16 (roundf v.x)),
    (.LV_STYLE_Y, toInt16 (roundf v.y)),
    (.LV_STYLE_WIDTH, toInt16 (roundf v.w)),
    (.LV_STYLE_HEIGHT, toInt16 (roundf v.h)),
    (.LV_STYLE_OPA, toInt32 (roundf (fmul fl v.opacity 255))),
    (.LV_STYLE_TRANSFORM_ZOOM, toInt32 (roundf v.scale)),
    (.LV_STYLE_TRANSFORM_ANGLE, toInt32 (roundf v.rotate)) ]

/-- The function `updateTimelineProperties` (lines 193-361) in float
arithmetic. -/
def updateTimelinePropertiesFloat (fl : ℚ → ℚ) (g_easingFuncs : Nat → ℚ → ℚ)
    (widgetTimeline : WidgetTimeline) (o : LvObj) (timelinePosition : ℚ) : TimelineUpdate :=
  let wt := captureBaseFloat fl widgetTimeline o
  if timelinePosition = wt.lastTimelinePosition then
    { widgetTimeline := wt, obj := o, calls := [] }
  else
    let v := scanKeyframesFloat fl g_easingFuncs timelinePosition wt.timeline (baseValues wt)
    let writes := styleWritesFloat fl v
    { widgetTimeline := wt
      obj := writes.foldl (fun ob pv => lv_obj_set_local_style_prop ob pv.1 pv.2) o
      calls :=
        writes.map (fun pv => LvCall.lv_obj_set_local_style_prop wt.obj pv.1 pv.2) ++
          [LvCall.lv_obj_update_layout wt.obj] }

/-! ## Update tasks and the event guard (flow.cpp lines 389-618, flow.h lines 9-21) -/

/-- The enum `UpdateTaskType`: the eleven kinds declared in `flow.h`, and the two
selection kinds that `doUpdateTasks` in `flow.cpp` also dispatches on. -/
inductive UpdateTaskType where
  | UPDATE_TASK_TYPE_LABEL_TEXT
  | UPDATE_TASK_TYPE_TEXTAREA_TEXT
  | UPDATE_TASK_TYPE_DROPDOWN_SELECTED
  | UPDATE_TASK_TYPE_ROLLER_SELECTED
  | UPDATE_TASK_TYPE_SLIDER_VALUE
  | UPDATE_TASK_TYPE_SLIDER_VALUE_LEFT
  | UPDATE_TASK_TYPE_ARC_VALUE
  | UPDATE_TASK_TYPE_BAR_VALUE
  | UPDATE_TASK_TYPE_BAR_VALUE_START
  | UPDATE_TASK_TYPE_CHECKED_STATE
  | UPDATE_TASK_TYPE_DISABLED_STATE
  | UPDATE_TASK_TYPE_HIDDEN_FLAG
  | UPDATE_TASK_TYPE_CLICKABLE_FLAG
  deriving DecidableEq, Repr

/-- The struct `UpdateTask` (lines 526-532). -/
structure UpdateTask where
  updateTaskType : UpdateTaskType
  obj : ObjId
  page_index : Nat
  component_index : Nat
  property_index : Nat
  deriving DecidableEq, Repr

/-- The struct `FlowEventCallbackData` carried as `user_data` of an event. -/
structure FlowEventCallbackData where
  page_index : Nat
  component_index : Nat
  output_or_property_index : Nat
  deriving DecidableEq, Repr

/-- Event codes: `LV_EVENT_VALUE_CHANGED`, or any other code. -/
inductive lv_event_code_t where
  | LV_EVENT_VALUE_CHANGED
  | LV_EVENT_OTHER (code : Nat)
  deriving DecidableEq, Repr

/-- The parts of `lv_event_t` the handlers read. -/
structure lv_event_t where
  code : lv_event_code_t
  target : ObjId
  user_data : FlowEventCallbackData
  deriving DecidableEq, Repr

/-- A call forwarded into the flow engine, as recorded in the trace. -/
inductive FlowCall where
  | assignStringProperty (page_index component_index property_index : Nat) (value : String)
  | assignIntegerProperty (page_index component_index property_index : Nat) (value : Int)
  | assignBooleanProperty (page_index component_index property_index : Nat) (value : Bool)
  | flowPropagateValue (page_index component_index output_index : Nat)
  deriving DecidableEq, Repr

/-- The flow evaluator entry points used by `doUpdateTasks` (declared in
`eez/flow/lvgl_api.h`); each returns a value for a (page, component, property)
triple. -/
structure FlowEvaluator where
  evalTextProperty : Nat → Nat → Nat → String
  evalIntegerProperty : Nat → Nat → Nat → Int
  evalBooleanProperty : Nat → Nat → Nat → Bool

/-- The condition `!g_updateTask || g_updateTask->obj != ta` of the
value-changed handlers. -/
def guardAllows (g_updateTask : Option UpdateTask) (ta : ObjId) : Bool :=
  match g_updateTask with
  | none => true
  | some t => t.obj != ta

/-- The handler `flow_event_callback` (lines 391-394). -/
def flow_event_callback (e : lv_event_t) : List FlowCall :=
  [FlowCall.flowPropagateValue e.user_data.page_index e.user_data.component_index
    e.user_data.output_or_property_index]

/-- The handler `flow_event_textarea_text_changed_callback` (lines 396-406). -/
def flow_event_textarea_text_changed_callback (g_updateTask : Option UpdateTask)
    (objs : ObjId → LvObj) (e : lv_event_t) : List FlowCall :=
  if e.code = .LV_EVENT_VALUE_CHANGED then
    if guardAllows g_updateTask e.target then
      [FlowCall.assignStringProperty e.user_data.page_index e.user_data.component_index
        e.user_data.output_or_property_index (objs e.target).textareaText]
    else []
  else []

/-- The handler `flow_event_checked_state_changed_callback` (lines 408-418). -/
def flow_event_checked_state_changed_callback (g_updateTask : Option UpdateTask)
    (objs : ObjId → LvObj) (e : lv_event_t) : List FlowCall :=
  if e.code = .LV_EVENT_VALUE_CHANGED then
    if guardAllows g_updateTask e.target then
      [FlowCall.assignBooleanProperty e.user_data.page_index e.user_data.component_index
        e.user_data.output_or_property_index (objs e.target).stateChecked]
    else []
  else []

/-- The handler `flow_event_arc_value_changed_callback` (lines 420-430). -/
def flow_event_arc_value_changed_callback (g_updateTask : Option UpdateTask)
    (objs : ObjId → LvObj) (e : lv_event_t) : List FlowCall :=
  if e.code = .LV_EVENT_VALUE_CHANGED then
    if guardAllows g_updateTask e.target then
      [FlowCall.assignIntegerProperty e.user_data.page_index e.user_data.component_index
        e.user_data.output_or_property_index (objs e.target).arcValue]
    else []
  else []

/-- The handler `flow_event_bar_value_changed_callback` (lines 432-442). -/
def flow_event_bar_value_changed_callback (g_updateTask : Option UpdateTask)
    (objs : ObjId → LvObj) (e : lv_event_t) : List FlowCall :=
  if e.code = .LV_EVENT_VALUE_CHANGED then
    if guardAllows g_updateTask e.target then
      [FlowCall.assignIntegerProperty e.user_data.page_index e.user_data.component_index
        e.user_data.output_or_property_index (objs e.target).barValue]
    else []
  else []

/-- The handler `flow_event_bar_value_start_changed_callback` (lines 444-454). -/
def flow_event_bar_value_start_changed_callback (g_updateTask : Option UpdateTask)
    (objs : ObjId → LvObj) (e : lv_event_t) : List FlowCall :=
  if e.code = .LV_EVENT_VALUE_CHANGED then
    if guardAllows g_updateTask e.target then
      [FlowCall.assignIntegerProperty e.user_data.page_index e.user_data.component_index
        e.user_data.output_or_property_index (objs e.target).barStartValue]
    else []
  else []

/-- The handler `flow_event_dropdown_selected_changed_callback` (lines 456-466). -/
def flow_event_dropdown_selected_changed_callback (g_updateTask : Option UpdateTask)
    (objs : ObjId → LvObj) (e : lv_event_t) : List FlowCall :=
  if e.code = .LV_EVENT_VALUE_CHANGED then
    if guardAllows g_updateTask e.target then
      [FlowCall.assignIntegerProperty e.user_data.page_index e.user_data.component_index
        e.user_data.output_or_property_index (objs e.target).dropdownSelected]
    else []
  else []

/-- The handler `flow_event_roller_selected_changed_callback` (lines 468-478). -/
def flow_event_roller_selected_changed_callback (g_updateTask : Option UpdateTask)
    (objs : ObjId → LvObj) (e : lv_event_t) : List FlowCall :=
  if e.code = .LV_EVENT_VALUE_CHANGED then
    if guardAllows g_updateTask e.target then
      [FlowCall.assignIntegerProperty e.user_data.page_index e.user_data.component_index
        e.user_data.output_or_property_index (objs e.target).rollerSelected]
    else []
  else []

/-- The handler `flow_event_slider_value_changed_callback` (lines 480-490). -/
def flow_event_slider_value_changed_callback (g_updateTask : Option UpdateTask)
    (objs : ObjId → LvObj) (e : lv_event_t) : List FlowCall :=
  if e.code = .LV_EVENT_VALUE_CHANGED then
    if guardAllows g_updateTask e.target then
      [FlowCall.assignIntegerProperty e.user_data.page_index e.user_data.component_index
        e.user_data.output_or_property_index (objs e.target).sliderValue]
    else []
  else []

/-- The handler `flow_event_slider_value_left_changed_callback` (lines 492-502). -/
def flow_event_slider_value_left_changed_callback (g_updateTask : Option UpdateTask)
    (objs : ObjId → LvObj) (e : lv_event_t) : List FlowCall :=
  if e.code = .LV_EVENT_VALUE_CHANGED then
    if guardAllows g_updateTask e.target then
      [FlowCall.assignIntegerProperty e.user_data.page_index e.user_data.component_index
        e.user_data.output_or_property_index (objs e.target).sliderLeftValue]
    else []
  else []

/-- The handler `flow_event_checked_callback` (lines 504-510); it does not read
`g_updateTask`. -/
def flow_event_checked_callback (objs : ObjId → LvObj) (e : lv_event_t) : List FlowCall :=
  if e.code = .LV_EVENT_VALUE_CHANGED ∧ (objs e.target).stateChecked = true then
    flow_event_callback e
  else []

/-- The handler `flow_event_unchecked_callback` (lines 512-518); it does not read
`g_updateTask`. -/
def flow_event_unchecked_callback (objs : ObjId → LvObj) (e : lv_event_t) : List FlowCall :=
  if e.code = .LV_EVENT_VALUE_CHANGED ∧ ¬ (objs e.target).stateChecked = true then
    flow_event_callback e
  else []

/-- The event handlers defined in `flow.cpp` that forward into the flow. -/
inductive FlowEventHandler where
  | flow_event_callback
  | flow_event_textarea_text_changed_callback
  | flow_event_checked_state_changed_callback
  | flow_event_arc_value_changed_callback
  | flow_event_bar_value_changed_callback
  | flow_event_bar_value_start_changed_callback
  | flow_event_dropdown_selected_changed_callback
  | flow_event_roller_selected_changed_callback
  | flow_event_slider_value_changed_callback
  | flow_event_slider_value_left_changed_callback
  | flow_event_checked_callback
  | flow_event_unchecked_callback
  deriving DecidableEq, Repr

/-- Running a registered handler on an event, with the current value of the
global `g_updateTask` and the current toolkit objects. -/
def FlowEventHandler.run (h : FlowEventHandler) (g_updateTask : Option UpdateTask)
    (objs : ObjId → LvObj) (e : lv_event_t) : List FlowCall :=
  match h with
  | .flow_event_callback => EezFlow.flow_event_callback e
  | .flow_event_textarea_text_changed_callback =>
    EezFlow.flow_event_textarea_text_changed_callback g_updateTask objs e
  | .flow_event_checked_state_changed_callback =>
    EezFlow.flow_event_checked_state_changed_callback g_updateTask objs e
  | .flow_event_arc_value_changed_callback =>
    EezFlow.flow_event_arc_value_changed_callback g_updateTask objs e
  | .flow_event_bar_value_changed_callback =>
    EezFlow.flow_event_bar_value_changed_callback g_updateTask objs e
  | .flow_event_bar_value_start_changed_callback =>
    EezFlow.flow_event_bar_value_start_changed_callback g_updateTask objs e
  | .flow_event_dropdown_selected_changed_callback =>
    EezFlow.flow_event_dropdown_selected_changed_callback g_updateTask objs e
  | .flow_event_roller_selected_changed_callback =>
    EezFlow.flow_event_roller_selected_changed_callback g_updateTask objs e
  | .flow_event_slider_value_changed_callback =>
    EezFlow.flow_event_slider_value_changed_callback g_updateTask objs e
  | .flow_event_slider_value_left_changed_callback =>
    EezFlow.flow_event_slider_value_left_changed_callback g_updateTask objs e
  | .flow_event_checked_callback => EezFlow.flow_event_checked_callback objs e
  | .flow_event_unchecked_callback => EezFlow.flow_event_unchecked_callback objs e

/-- The nine value-changed handlers, which read `g_updateTask`. -/
def FlowEventHandler.isValueBinding : FlowEventHandler → Bool
  | .flow_event_callback => false
  | .flow_event_checked_callback => false
  | .flow_event_unchecked_callback => false
  | _ => true

/-- The toolkit side of event delivery: the handlers registered on each object
(with their `user_data`), and which toolkit calls send
`LV_EVENT_VALUE_CHANGED` to the object synchronously, from inside the call. -/
structure Toolkit where
  eventCallbacks : ObjId → List (FlowEventHandler × FlowEventCallbackData)
  firesValueChanged : LvCall → Bool

/-- The object a toolkit call acts on. -/
def LvCall.target : LvCall → ObjId
  | .lv_obj_set_local_style_prop obj _ _ => obj
  | .lv_obj_update_layout obj => obj
  | .lv_label_set_text obj _ => obj
  | .lv_textarea_set_text obj _ => obj
  | .lv_dropdown_set_selected obj _ => obj
  | .lv_roller_set_selected obj _ => obj
  | .lv_slider_set_value obj _ => obj
  | .lv_slider_set_left_value obj _ => obj
  | .lv_arc_set_value obj _ => obj
  | .lv_bar_set_value obj _ => obj
  | .lv_bar_set_start_value obj _ => obj
  | .lv_obj_add_state obj _ => obj
  | .lv_obj_clear_state obj _ => obj
  | .lv_obj_add_flag obj _ => obj
  | .lv_obj_clear_flag obj _ => obj

/-- The effect of a toolkit call on the object it acts on: the setter stores
its argument in the field its getter reads. -/
def LvCall.apply (c : LvCall) (o : LvObj) : LvObj :=
  match c with
  | .lv_obj_set_local_style_prop _ prop v => EezFlow.lv_obj_set_local_style_prop o prop v
  | .lv_obj_update_layout _ => o
  | .lv_label_set_text _ s => { o with labelText := s }
  | .lv_textarea_set_text _ s => { o with textareaText := s }
  | .lv_dropdown_set_selected _ sel => { o with dropdownSelected := sel }
  | .lv_roller_set_selected _ sel => { o with rollerSelected := sel }
  | .lv_slider_set_value _ v => { o with sliderValue := v }
  | .lv_slider_set_left_value _ v => { o with sliderLeftValue := v }
  | .lv_arc_set_value _ v => { o with arcValue := v }
  | .lv_bar_set_value _ v => { o with barValue := v }
  | .lv_bar_set_start_value _ v => { o with barStartValue := v }
  | .lv_obj_add_state _ .LV_STATE_CHECKED => { o with stateChecked := true }
  | .lv_obj_add_state _ .LV_STATE_DISABLED => { o with stateDisabled := true }
  | .lv_obj_clear_state _ .LV_STATE_CHECKED => { o with stateChecked := false }
  | .lv_obj_clear_state _ .LV_STATE_DISABLED => { o with stateDisabled := false }
  | .lv_obj_add_flag _ .LV_OBJ_FLAG_HIDDEN => { o with flagHidden := true }
  | .lv_obj_add_flag _ .LV_OBJ_FLAG_CLICKABLE => { o with flagClickable := true }
  | .lv_obj_clear_flag _ .LV_OBJ_FLAG_HIDDEN => { o with flagHidden := false }
  | .lv_obj_clear_flag _ .LV_OBJ_FLAG_CLICKABLE => { o with flagClickable := false }

/-- The globals the update-task dispatcher works on (`updateTasks`,
`g_updateTask`), the toolkit objects, and the two traces. -/
structure Runtime where
  objs : ObjId → LvObj
  g_updateTask : Option UpdateTask
  updateTasks : List UpdateTask
  lvCalls : List LvCall
  flowCalls : List FlowCall

/-- The events the toolkit delivers from inside call `c`: one
`LV_EVENT_VALUE_CHANGED` per handler registered on the target, each handler
seeing the guard and the objects as they are at that moment. -/
def deliverValueChanged (tk : Toolkit) (g_updateTask : Option UpdateTask)
    (objs : ObjId → LvObj) (c : LvCall) : List FlowCall :=
  if tk.firesValueChanged c then
    (tk.eventCallbacks c.target).flatMap (fun hd =>
      hd.1.run g_updateTask objs
        { code := .LV_EVENT_VALUE_CHANGED, target := c.target, user_data := hd.2 })
  else []

/-- One toolkit call made by the dispatcher: the object is updated, the call is
recorded, and the handlers the toolkit invokes from inside the call run. -/
def toolkitCall (tk : Toolkit) (st : Runtime) (c : LvCall) : Runtime :=
  let objs := Function.update st.objs c.target (c.apply (st.objs c.target))
  { st with
    objs := objs
    lvCalls := st.lvCalls ++ [c]
    flowCalls := st.flowCalls ++ deliverValueChanged tk st.g_updateTask objs c }

/-- The function `addUpdateTask` (lines 536-544). -/
def addUpdateTask (st : Runtime) (updateTaskType : UpdateTaskType) (obj : ObjId)
    (page_index component_index property_index : Nat) : Runtime :=
  { st with
    updateTasks := st.updateTasks ++
      [{ updateTaskType := updateTaskType, obj := obj, page_index := page_index,
         component_index := component_index, property_index := property_index }] }

/-- Lines 550-614: the dispatch on the task kind, run with `g_updateTask` already
set.  An integer evaluates to `int32_t`; the two selection kinds convert it to
`uint16_t`. -/
def applyUpdateTask (ev : FlowEvaluator) (tk : Toolkit) (st : Runtime) (updateTask : UpdateTask) :
    Runtime :=
  let o := st.objs updateTask.obj
  let p := updateTask.page_index
  let c := updateTask.component_index
  let i := updateTask.property_index
  match updateTask.updateTaskType with
  | .UPDATE_TASK_TYPE_LABEL_TEXT =>
    let new_val := ev.evalTextProperty p c i
    let cur_val := o.labelText
    if new_val ≠ cur_val then toolkitCall tk st (.lv_label_set_text updateTask.obj new_val) else st
  | .UPDATE_TASK_TYPE_TEXTAREA_TEXT =>
    let new_val := ev.evalTextProperty p c i
    let cur_val := o.textareaText
    if new_val ≠ cur_val then toolkitCall tk st (.lv_textarea_set_text updateTask.obj new_val)
    else st
  | .UPDATE_TASK_TYPE_DROPDOWN_SELECTED =>
    let new_val := toUInt16 (ev.evalIntegerProperty p c i)
    let cur_val := o.dropdownSelected
    if new_val ≠ cur_val then toolkitCall tk st (.lv_dropdown_set_selected updateTask.obj new_val)
    else st
  | .UPDATE_TASK_TYPE_ROLLER_SELECTED =>
    let new_val := toUInt16 (ev.evalIntegerProperty p c i)
    let cur_val := o.rollerSelected
    if new_val ≠ cur_val then toolkitCall tk st (.lv_roller_set_selected updateTask.obj new_val)
    else st
  | .UPDATE_TASK_TYPE_SLIDER_VALUE =>
    let new_val := ev.evalIntegerProperty p c i
    let cur_val := o.sliderValue
    if new_val ≠ cur_val then toolkitCall tk st (.lv_slider_set_value updateTask.obj new_val)
    else st
  | .UPDATE_TASK_TYPE_SLIDER_VALUE_LEFT =>
    let new_val := ev.evalIntegerProperty p c i
    let cur_val := o.sliderLeftValue
    if new_val ≠ cur_val then toolkitCall tk st (.lv_slider_set_left_value updateTask.obj new_val)
    else st
  | .UPDATE_TASK_TYPE_ARC_VALUE =>
    let new_val := ev.evalIntegerProperty p c i
    let cur_val := o.barValue
    if new_val ≠ cur_val then toolkitCall tk st (.lv_arc_set_value updateTask.obj new_val) else st
  | .UPDATE_TASK_TYPE_BAR_VALUE =>
    let new_val := ev.evalIntegerProperty p c i
    let cur_val := o.barValue
    if new_val ≠ cur_val then toolkitCall tk st (.lv_bar_set_value updateTask.obj new_val) else st
  | .UPDATE_TASK_TYPE_BAR_VALUE_START =>
    let new_val := ev.evalIntegerProperty p c i
    let cur_val := o.barStartValue
    if new_val ≠ cur_val then toolkitCall tk st (.lv_bar_set_start_value updateTask.obj new_val)
    else st
  | .UPDATE_TASK_TYPE_CHECKED_STATE =>
    let new_val := ev.evalBooleanProperty p c i
    let cur_val := o.stateChecked
    if new_val ≠ cur_val then
      if new_val then toolkitCall tk st (.lv_obj_add_state updateTask.obj .LV_STATE_CHECKED)
      else toolkitCall tk st (.lv_obj_clear_state updateTask.obj .LV_STATE_CHECKED)
    else st
  | .UPDATE_TASK_TYPE_DISABLED_STATE =>
    let new_val := ev.evalBooleanProperty p c i
    let cur_val := o.stateDisabled
    if new_val ≠ cur_val then
      if new_val then toolkitCall tk st (.lv_obj_add_state updateTask.obj .LV_STATE_DISABLED)
      else toolkitCall tk st (.lv_obj_clear_state updateTask.obj .LV_STATE_DISABLED)
    else st
  | .UPDATE_TASK_TYPE_HIDDEN_FLAG =>
    let new_val := ev.evalBooleanProperty p c i
    let cur_val := o.flagHidden
    if new_val ≠ cur_val then
      if new_val then toolkitCall tk st (.lv_obj_add_flag updateTask.obj .LV_OBJ_FLAG_HIDDEN)
      else toolkitCall tk st (.lv_obj_clear_flag updateTask.obj .LV_OBJ_FLAG_HIDDEN)
    else st
  | .UPDATE_TASK_TYPE_CLICKABLE_FLAG =>
    let new_val := ev.evalBooleanProperty p c i
    let cur_val := o.flagClickable
    if new_val ≠ cur_val then
      if new_val then toolkitCall tk st (.lv_obj_add_flag updateTask.obj .LV_OBJ_FLAG_CLICKABLE)
      else toolkitCall tk st (.lv_obj_clear_flag updateTask.obj .LV_OBJ_FLAG_CLICKABLE)
    else st

/-- Lines 548-615: one iteration of the loop of `doUpdateTasks`: set the guard,
apply the task, clear the guard. -/
def doUpdateTask (ev : FlowEvaluator) (tk : Toolkit) (st : Runtime) (updateTask : UpdateTask) :
    Runtime :=
  let st1 := applyUpdateTask ev tk { st with g_updateTask := some updateTask } updateTask
  { st1 with g_updateTask := none }

/-- The function `doUpdateTasks` (lines 546-618): the loop over `updateTasks`
in vector order.  The vector itself is not modified. -/
def doUpdateTasks (ev : FlowEvaluator) (tk : Toolkit) (st : Runtime) : Runtime :=
  st.updateTasks.foldl (doUpdateTask ev tk) st

/-! ## Statement vocabulary and example data -/

/-- The widget shows the targets of keyframe `k`: every style property enabled
in `k` holds the keyframe target, opacity scaled to the 0..255 range as in
line 351. -/
def TimelineKeyframe.TargetsWritten (k : TimelineKeyframe) (o : LvObj) : Prop :=
  (hasProperty k.enabledProperties WIDGET_TIMELINE_PROPERTY_X = true → o.styleX = k.x) ∧
  (hasProperty k.enabledProperties WIDGET_TIMELINE_PROPERTY_Y = true → o.styleY = k.y) ∧
  (hasProperty k.enabledProperties WIDGET_TIMELINE_PROPERTY_WIDTH = true →
    o.styleWidth = k.width) ∧
  (hasProperty k.enabledProperties WIDGET_TIMELINE_PROPERTY_HEIGHT = true →
    o.styleHeight = k.height) ∧
  (hasProperty k.enabledProperties WIDGET_TIMELINE_PROPERTY_OPACITY = true →
    o.styleOpa = toInt32 (roundf (k.opacity * 255))) ∧
  (hasProperty k.enabledProperties WIDGET_TIMELINE_PROPERTY_SCALE = true →
    o.styleTransformZoom = k.scale) ∧
  (hasProperty k.enabledProperties WIDGET_TIMELINE_PROPERTY_ROTATE = true →
    o.styleTransformAngle = k.rotate)

/-- An easing table in which every entry is the linear easing `t ↦ t` (entry
`EASING_FUNC_LINEAR` of `eez::g_easingFuncs`). -/
def linearEasing : Nat → ℚ → ℚ := fun _ t => t

/-- A toolkit object with every value 0, empty texts, no state and no flag. -/
def blankObj : LvObj :=
  { styleX := 0, styleY := 0, styleWidth := 0, styleHeight := 0, styleOpa := 0,
    styleTransformZoom := 0, styleTransformAngle := 0, labelText := "", textareaText := "",
    dropdownSelected := 0, rollerSelected := 0, sliderValue := 0, sliderLeftValue := 0,
    arcValue := 0, barValue := 0, barStartValue := 0, stateChecked := false,
    stateDisabled := false, flagHidden := false, flagClickable := false }

/-- A keyframe over the window [0, 0] that enables nothing, every target 0 and
every easing linear. -/
def blankKeyframe : TimelineKeyframe :=
  { start := 0, end_ := 0, enabledProperties := 0,
    x := 0, xEasingFunc := EASING_FUNC_LINEAR, y := 0, yEasingFunc := EASING_FUNC_LINEAR,
    width := 0, widthEasingFunc := EASING_FUNC_LINEAR,
    height := 0, heightEasingFunc := EASING_FUNC_LINEAR,
    opacity := 0, opacityEasingFunc := EASING_FUNC_LINEAR,
    scale := 0, scaleEasingFunc := EASING_FUNC_LINEAR,
    rotate := 0, rotateEasingFunc := EASING_FUNC_LINEAR,
    cp1x := 0, cp1y := 0, cp2x := 0, cp2y := 0 }

/-- The timeline `addTimelineKeyframe` registers for widget 1 on page 0, holding
the given keyframes: not yet evaluated (`lastTimelinePosition == -1`). -/
def registeredTimeline (keyframes : List TimelineKeyframe) : WidgetTimeline :=
  { obj := 1, pageIndex := 0, lastTimelinePosition := -1,
    x := 0, y := 0, width := 0, height := 0, opacity := 0, scale := 0, rotate := 0,
    timeline := keyframes }

/-- A keyframe over [0, 10] moving x to 100. -/
def overlapFirstKeyframe : TimelineKeyframe :=
  { blankKeyframe with
    start := 0, end_ := 10, enabledProperties := WIDGET_TIMELINE_PROPERTY_X, x := 100 }

/-- A keyframe over [0, 1] moving x to 7; it overlaps `overlapFirstKeyframe`. -/
def overlapFinalKeyframe : TimelineKeyframe :=
  { blankKeyframe with
    start := 0, end_ := 1, enabledProperties := WIDGET_TIMELINE_PROPERTY_X, x := 7 }

/-- One keyframe over [-1, 0] moving x to 100. -/
def endsAtZeroKeyframe : TimelineKeyframe :=
  { blankKeyframe with
    start := -1, end_ := 0, enabledProperties := WIDGET_TIMELINE_PROPERTY_X, x := 100 }

/-- One instantaneous keyframe at time 0 (start == end == 0) moving x to 100. -/
def instantAtZeroKeyframe : TimelineKeyframe :=
  { blankKeyframe with
    start := 0, end_ := 0, enabledProperties := WIDGET_TIMELINE_PROPERTY_X, x := 100 }

/-- One instantaneous keyframe at time 2 (start == end == 2) moving x to 100. -/
def instantAtTwoKeyframe : TimelineKeyframe :=
  { blankKeyframe with
    start := 2, end_ := 2, enabledProperties := WIDGET_TIMELINE_PROPERTY_X, x := 100 }

/-- One keyframe over [1, 2] fading opacity to 1. -/
def fadeLaterKeyframe : TimelineKeyframe :=
  { blankKeyframe with
    start := 1, end_ := 2, enabledProperties := WIDGET_TIMELINE_PROPERTY_OPACITY, opacity := 1 }

/-- A widget whose opacity style is 128 (half transparent). -/
def halfOpaqueObj : LvObj := { blankObj with styleOpa := 128 }

/-- The scenario keyframe of the opacity fade: window [0, 1], only OPACITY
enabled, target opacity 1, linear easing. -/
def fadeKeyframe : TimelineKeyframe :=
  { blankKeyframe with
    start := 0, end_ := 1, enabledProperties := WIDGET_TIMELINE_PROPERTY_OPACITY, opacity := 1 }

/-- First keyframe of the quadratic Bezier scenario: window [0, 1/2], target
x = 100, control point cp1x = 50, only X and CP1 set, linear easing. -/
def bezierFirstKeyframe : TimelineKeyframe :=
  { blankKeyframe with
    start := 0, end_ := 1 / 2,
    enabledProperties := WIDGET_TIMELINE_PROPERTY_X ||| WIDGET_TIMELINE_PROPERTY_CP1,
    x := 100, cp1x := 50 }

/-- Second keyframe of the quadratic Bezier scenario: window [1/2, 1], target
x = 0, control point cp1x = 50, only X and CP1 set, linear easing. -/
def bezierSecondKeyframe : TimelineKeyframe :=
  { blankKeyframe with
    start := 1 / 2, end_ := 1,
    enabledProperties := WIDGET_TIMELINE_PROPERTY_X ||| WIDGET_TIMELINE_PROPERTY_CP1,
    x := 0, cp1x := 50 }

/-- The scalar blend law at an active keyframe `k` reached with working values
`v`, the result being `r`: each enabled scalar property moves from its incoming
value toward the keyframe target by its own eased progress. -/
def ScalarBlend (g_easingFuncs : Nat → ℚ → ℚ) (k : TimelineKeyframe) (t : ℚ) (v r : Working) :
    Prop :=
  (hasProperty k.enabledProperties WIDGET_TIMELINE_PROPERTY_WIDTH = true →
    r.w = v.w + g_easingFuncs k.widthEasingFunc t * (k.width - v.w)) ∧
  (hasProperty k.enabledProperties WIDGET_TIMELINE_PROPERTY_HEIGHT = true →
    r.h = v.h + g_easingFuncs k.heightEasingFunc t * (k.height - v.h)) ∧
  (hasProperty k.enabledProperties WIDGET_TIMELINE_PROPERTY_OPACITY = true →
    r.opacity = v.opacity + g_easingFuncs k.opacityEasingFunc t * (k.opacity - v.opacity)) ∧
  (hasProperty k.enabledProperties WIDGET_TIMELINE_PROPERTY_SCALE = true →
    r.scale = v.scale + g_easingFuncs k.scaleEasingFunc t * (k.scale - v.scale)) ∧
  (hasProperty k.enabledProperties WIDGET_TIMELINE_PROPERTY_ROTATE = true →
    r.rotate = v.rotate + g_easingFuncs k.rotateEasingFunc t * (k.rotate - v.rotate))

/-- The Bezier law for one coordinate: from incoming value `c` to `target` with
eased progress `t2` and control points `cp1`, `cp2`; cubic when the CP2 bit is
set, else quadratic when the CP1 bit is set, else the linear blend. -/
def BezierLaw (enabledProperties : Nat) (t2 c : ℚ) (cp1 cp2 target : Int) (r : ℚ) : Prop :=
  (hasProperty enabledProperties WIDGET_TIMELINE_PROPERTY_CP2 = true →
    r = (1 - t2) ^ 3 * c + 3 * (1 - t2) ^ 2 * t2 * cp1 + 3 * (1 - t2) * t2 ^ 2 * cp2 +
      t2 ^ 3 * target) ∧
  (hasProperty enabledProperties WIDGET_TIMELINE_PROPERTY_CP2 = false →
    hasProperty enabledProperties WIDGET_TIMELINE_PROPERTY_CP1 = true →
    r = (1 - t2) ^ 2 * c + 2 * (1 - t2) * t2 * cp1 + t2 ^ 2 * target) ∧
  (hasProperty enabledProperties WIDGET_TIMELINE_PROPERTY_CP2 = false →
    hasProperty enabledProperties WIDGET_TIMELINE_PROPERTY_CP1 = false →
    r = (1 - t2) * c + t2 * target)

/-- The position blend law at an active keyframe `k` reached with working values
`v`, the result being `r`: x and y each follow `BezierLaw` when enabled. -/
def PositionBlend (g_easingFuncs : Nat → ℚ → ℚ) (k : TimelineKeyframe) (t : ℚ) (v r : Working) :
    Prop :=
  (hasProperty k.enabledProperties WIDGET_TIMELINE_PROPERTY_X = true →
    BezierLaw k.enabledProperties (g_easingFuncs k.xEasingFunc t) v.x k.cp1x k.cp2x k.x r.x) ∧
  (hasProperty k.enabledProperties WIDGET_TIMELINE_PROPERTY_Y = true →
    BezierLaw k.enabledProperties (g_easingFuncs k.yEasingFunc t) v.y k.cp1y k.cp2y k.y r.y)

/-- A toolkit with no handler registered that sends no event from its setters. -/
def quietToolkit : Toolkit :=
  { eventCallbacks := fun _ => [], firesValueChanged := fun _ => false }

/-- An evaluator for which every text is "on", every integer 5 and every
boolean true. -/
def constEvaluator : FlowEvaluator :=
  { evalTextProperty := fun _ _ _ => "on"
    evalIntegerProperty := fun _ _ _ => 5
    evalBooleanProperty := fun _ _ _ => true }

/-- An arc showing value 5.  `lv_bar_get_value` applied to an arc reads the
first four bytes of the arc data (rotation 0, indicator start angle 135), that
is 135 * 65536. -/
def arcObj : LvObj := { blankObj with arcValue := 5, barValue := 8847360 }

/-- A slider showing value 5. -/
def sliderObj : LvObj := { blankObj with sliderValue := 5 }

/-- The dispatcher state with a single queued task on widget 1, every widget
being `o`, the guard empty and both traces empty. -/
def singleTaskRuntime (o : LvObj) (kind : UpdateTaskType) : Runtime :=
  addUpdateTask
    { objs := fun _ => o, g_updateTask := none, updateTasks := [], lvCalls := [], flowCalls := [] }
    kind 1 0 0 0

/-- A toolkit that re-fires `LV_EVENT_VALUE_CHANGED` synchronously from every
setter, with two handlers registered on widget 1: the checked-state binding
(property 1) and the CHECKED event handler (output 2). -/
def refiringToolkit : Toolkit :=
  { eventCallbacks := fun obj =>
      if obj = 1 then
        [(FlowEventHandler.flow_event_checked_state_changed_callback,
            { page_index := 0, component_index := 0, output_or_property_index := 1 }),
         (FlowEventHandler.flow_event_checked_callback,
            { page_index := 0, component_index := 0, output_or_property_index := 2 })]
      else []
    firesValueChanged := fun _ => true }

/-- The event behaviour of LVGL for the setters used here: only
`lv_textarea_set_text` sends `LV_EVENT_VALUE_CHANGED` from inside the call.
Widget 1 is a textarea with two handlers registered: the text binding
(property 1) and the UNCHECKED event handler (output 2). -/
def textareaToolkit : Toolkit :=
  { eventCallbacks := fun obj =>
      if obj = 1 then
        [(FlowEventHandler.flow_event_textarea_text_changed_callback,
            { page_index := 0, component_index := 0, output_or_property_index := 1 }),
         (FlowEventHandler.flow_event_unchecked_callback,
            { page_index := 0, component_index := 0, output_or_property_index := 2 })]
      else []
    firesValueChanged := fun c =>
      match c with
      | .lv_textarea_set_text _ _ => true
      | _ => false }

/-! ## Keyframe construction and the animation driver (flow.cpp lines 128-385) -/

/-- Conversion of an integer to `unsigned` (reduction modulo 2^32). -/
def toUInt32 (z : Int) : Nat := (z % 4294967296).toNat

/-- Lines 142-173 of `addTimelineKeyframe`: the keyframe built from the
arguments.  The `opacity` argument is an `int16_t`, stored in the float field. -/
def makeTimelineKeyframe (start end_ : ℚ) (enabledProperties : Nat)
    (x : Int) (xEasingFunc : Nat) (y : Int) (yEasingFunc : Nat)
    (width : Int) (widthEasingFunc : Nat) (height : Int) (heightEasingFunc : Nat)
    (opacity : Int) (opacityEasingFunc : Nat) (scale : Int) (scaleEasingFunc : Nat)
    (rotate : Int) (rotateEasingFunc : Nat) (cp1x cp1y cp2x cp2y : Int) : TimelineKeyframe :=
  { start := start, end_ := end_, enabledProperties := enabledProperties,
    x := x, xEasingFunc := xEasingFunc, y := y, yEasingFunc := yEasingFunc,
    width := width, widthEasingFunc := widthEasingFunc,
    height := height, heightEasingFunc := heightEasingFunc,
    opacity := opacity, opacityEasingFunc := opacityEasingFunc,
    scale := scale, scaleEasingFunc := scaleEasingFunc,
    rotate := rotate, rotateEasingFunc := rotateEasingFunc,
    cp1x := cp1x, cp1y := cp1y, cp2x := cp2x, cp2y := cp2y }

/-- What a loop over `widgetTimelines` leaves behind: the timelines (updated in
place), the toolkit objects and the trace of toolkit calls. -/
structure TimelinePass where
  widgetTimelines : List WidgetTimeline
  objs : ObjId → LvObj
  lvCalls : List LvCall

/-- Lines 377-380: the loop of `setTimelinePosition`, which calls
`updateTimelineProperties` on every timeline in vector order. -/
def setTimelinePositionLoop (g_easingFuncs : Nat → ℚ → ℚ) (timelinePosition : ℚ) :
    List WidgetTimeline → (ObjId → LvObj) → List LvCall → TimelinePass
  | [], objs, lvCalls => { widgetTimelines := [], objs := objs, lvCalls := lvCalls }
  | wt :: rest, objs, lvCalls =>
    let r := updateTimelineProperties g_easingFuncs wt (objs wt.obj) timelinePosition
    let pass := setTimelinePositionLoop g_easingFuncs timelinePosition rest
      (Function.update objs wt.obj r.obj) (lvCalls ++ r.calls)
    { pass with widgetTimelines := r.widgetTimeline :: pass.widgetTimelines }

/-- Lines 367-372: the loop of `doAnimate`, which calls
`updateTimelineProperties` on the timelines whose `pageIndex` is the given one. -/
def doAnimateLoop (g_easingFuncs : Nat → ℚ → ℚ) (pageIndex : Nat) (timelinePosition : ℚ) :
    List WidgetTimeline → (ObjId → LvObj) → List LvCall → TimelinePass
  | [], objs, lvCalls => { widgetTimelines := [], objs := objs, lvCalls := lvCalls }
  | wt :: rest, objs, lvCalls =>
    if wt.pageIndex = pageIndex then
      let r := updateTimelineProperties g_easingFuncs wt (objs wt.obj) timelinePosition
      let pass := doAnimateLoop g_easingFuncs pageIndex timelinePosition rest
        (Function.update objs wt.obj r.obj) (lvCalls ++ r.calls)
      { pass with widgetTimelines := r.widgetTimeline :: pass.widgetTimelines }
    else
      let pass := doAnimateLoop g_easingFuncs pageIndex timelinePosition rest objs lvCalls
      { pass with widgetTimelines := wt :: pass.widgetTimelines }

/-- The globals of the animation driver (`widgetTimelines`, `currentPageId`), the
toolkit objects and the trace of toolkit calls. -/
structure AnimationState where
  widgetTimelines : List WidgetTimeline
  currentPageId : Int
  objs : ObjId → LvObj
  lvCalls : List LvCall

/-- The function `doAnimate` (lines 363-374).  `timelinePositionOf pageIndex` is
`getPageFlowState(g_mainAssets, pageIndex)->timelinePosition`, owned by the flow
engine.  `currentPageId - 1` is converted to `unsigned`. -/
def doAnimate (g_easingFuncs : Nat → ℚ → ℚ) (timelinePositionOf : Nat → ℚ)
    (st : AnimationState) : AnimationState :=
  if st.currentPageId ≠ -1 then
    let pageIndex := toUInt32 (st.currentPageId - 1)
    let pass := doAnimateLoop g_easingFuncs pageIndex (timelinePositionOf pageIndex)
      st.widgetTimelines st.objs st.lvCalls
    { st with widgetTimelines := pass.widgetTimelines, objs := pass.objs, lvCalls := pass.lvCalls }
  else st

/-- The function `setTimelinePosition` (lines 376-381). -/
def setTimelinePosition (g_easingFuncs : Nat → ℚ → ℚ) (st : AnimationState)
    (timelinePosition : ℚ) : AnimationState :=
  let pass := setTimelinePositionLoop g_easingFuncs timelinePosition
    st.widgetTimelines st.objs st.lvCalls
  { st with widgetTimelines := pass.widgetTimelines, objs := pass.objs, lvCalls := pass.lvCalls }

/-- The function `clearTimeline` (lines 383-385). -/
def clearTimeline (st : AnimationState) : AnimationState :=
  { st with widgetTimelines := [] }

/-- The effect of `replacePageHook` (lines 646-652) on `currentPageId`. -/
def replacePageHook (st : AnimationState) (pageId : Int) : AnimationState :=
  { st with currentPageId := toInt16 pageId }

/-- A call into the animation driver that can follow the first evaluation of a
timeline: a tick (`doAnimate`, with the timeline positions the flow engine
holds at that tick), a scrub, a keyframe registration or a page change. -/
inductive TimelineCall where
  | doAnimate (timelinePositionOf : Nat → ℚ)
  | setTimelinePosition (timelinePosition : ℚ)
  | addTimelineKeyframe (obj : ObjId) (page_index : Nat) (k : TimelineKeyframe)
  | replacePageHook (pageId : Int)

/-- Running one call of the animation driver. -/
def TimelineCall.run (g_easingFuncs : Nat → ℚ → ℚ) (st : AnimationState) :
    TimelineCall → AnimationState
  | .doAnimate timelinePositionOf => EezFlow.doAnimate g_easingFuncs timelinePositionOf st
  | .setTimelinePosition p => EezFlow.setTimelinePosition g_easingFuncs st p
  | .addTimelineKeyframe obj page_index k =>
    { st with widgetTimelines := EezFlow.addTimelineKeyframe st.widgetTimelines obj page_index k }
  | .replacePageHook pageId => EezFlow.replacePageHook st pageId

/-- Running a sequence of calls of the animation driver, in order. -/
def runTimelineCalls (g_easingFuncs : Nat → ℚ → ℚ) (st : AnimationState)
    (calls : List TimelineCall) : AnimationState :=
  calls.foldl (TimelineCall.run g_easingFuncs) st

/-- The seven cached base fields of a timeline. -/
def WidgetTimeline.base (wt : WidgetTimeline) : Int × Int × Int × Int × Int × Int × Int :=
  (wt.x, wt.y, wt.width, wt.height, wt.opacity, wt.scale, wt.rotate)

/-- The target of the last keyframe, in list order, that enables a property
(`enabled`), or `base` when no keyframe enables it. -/
def lastTarget (mask : Nat) (target : TimelineKeyframe → ℚ) (keyframes : List TimelineKeyframe)
    (base : ℚ) : ℚ :=
  match (keyframes.filter (fun k => hasProperty k.enabledProperties mask)).getLast? with
  | some k => target k
  | none => base

/-! ## Vocabulary for the update tasks -/

/-- A value bound by an update task: a text, an integer or a boolean. -/
inductive PropertyValue where
  | text (s : String)
  | integer (v : Int)
  | boolean (b : Bool)
  deriving DecidableEq, Repr

/-- The value an update task obtains from the flow, after the conversion its
branch applies (`uint16_t` for the two selection kinds). -/
def UpdateTask.evaluated (ev : FlowEvaluator) (t : UpdateTask) : PropertyValue :=
  match t.updateTaskType with
  | .UPDATE_TASK_TYPE_LABEL_TEXT =>
    .text (ev.evalTextProperty t.page_index t.component_index t.property_index)
  | .UPDATE_TASK_TYPE_TEXTAREA_TEXT =>
    .text (ev.evalTextProperty t.page_index t.component_index t.property_index)
  | .UPDATE_TASK_TYPE_DROPDOWN_SELECTED =>
    .integer (toUInt16 (ev.evalIntegerProperty t.page_index t.component_index t.property_index))
  | .UPDATE_TASK_TYPE_ROLLER_SELECTED =>
    .integer (toUInt16 (ev.evalIntegerProperty t.page_index t.component_index t.property_index))
  | .UPDATE_TASK_TYPE_SLIDER_VALUE =>
    .integer (ev.evalIntegerProperty t.page_index t.component_index t.property_index)
  | .UPDATE_TASK_TYPE_SLIDER_VALUE_LEFT =>
    .integer (ev.evalIntegerProperty t.page_index t.component_index t.property_index)
  | .UPDATE_TASK_TYPE_ARC_VALUE =>
    .integer (ev.evalIntegerProperty t.page_index t.component_index t.property_index)
  | .UPDATE_TASK_TYPE_BAR_VALUE =>
    .integer (ev.evalIntegerProperty t.page_index t.component_index t.property_index)
  | .UPDATE_TASK_TYPE_BAR_VALUE_START =>
    .integer (ev.evalIntegerProperty t.page_index t.component_index t.property_index)
  | .UPDATE_TASK_TYPE_CHECKED_STATE =>
    .boolean (ev.evalBooleanProperty t.page_index t.component_index t.property_index)
  | .UPDATE_TASK_TYPE_DISABLED_STATE =>
    .boolean (ev.evalBooleanProperty t.page_index t.component_index t.property_index)
  | .UPDATE_TASK_TYPE_HIDDEN_FLAG =>
    .boolean (ev.evalBooleanProperty t.page_index t.component_index t.property_index)
  | .UPDATE_TASK_TYPE_CLICKABLE_FLAG =>
    .boolean (ev.evalBooleanProperty t.page_index t.component_index t.property_index)

/-- The widget property a task kind writes, read through the getter that
matches its setter. -/
def UpdateTaskType.boundProperty : UpdateTaskType → LvObj → PropertyValue
  | .UPDATE_TASK_TYPE_LABEL_TEXT, o => .text o.labelText
  | .UPDATE_TASK_TYPE_TEXTAREA_TEXT, o => .text o.textareaText
  | .UPDATE_TASK_TYPE_DROPDOWN_SELECTED, o => .integer o.dropdownSelected
  | .UPDATE_TASK_TYPE_ROLLER_SELECTED, o => .integer o.rollerSelected
  | .UPDATE_TASK_TYPE_SLIDER_VALUE, o => .integer o.sliderValue
  | .UPDATE_TASK_TYPE_SLIDER_VALUE_LEFT, o => .integer o.sliderLeftValue
  | .UPDATE_TASK_TYPE_ARC_VALUE, o => .integer o.arcValue
  | .UPDATE_TASK_TYPE_BAR_VALUE, o => .integer o.barValue
  | .UPDATE_TASK_TYPE_BAR_VALUE_START, o => .integer o.barStartValue
  | .UPDATE_TASK_TYPE_CHECKED_STATE, o => .boolean o.stateChecked
  | .UPDATE_TASK_TYPE_DISABLED_STATE, o => .boolean o.stateDisabled
  | .UPDATE_TASK_TYPE_HIDDEN_FLAG, o => .boolean o.flagHidden
  | .UPDATE_TASK_TYPE_CLICKABLE_FLAG, o => .boolean o.flagClickable

/-- The current value `cur_val` the branch of a task kind reads before deciding
to write; it is the bound property except in the arc branch, which reads
`lv_bar_get_value` (line 576). -/
def UpdateTaskType.comparedProperty : UpdateTaskType → LvObj → PropertyValue
  | .UPDATE_TASK_TYPE_ARC_VALUE, o => .integer o.barValue
  | kind, o => kind.boundProperty o

/-- Modelled from the spec: the flow evaluator capability
"evaluateText/Integer/Boolean(page, component, property) -> value, fails with
EvaluationError"; the evaluator is not part of `flow.cpp`.  `none` is the
failure.  The entry points `evalTextProperty`, `evalIntegerProperty` and
`evalBooleanProperty` called by `doUpdateTasks` return a plain value, so on a
failure they return some value too: `onErrorText`, `onErrorInteger`,
`onErrorBoolean`. -/
structure FallibleEvaluator where
  evaluateText : Nat → Nat → Nat → Option String
  evaluateInteger : Nat → Nat → Nat → Option Int
  evaluateBoolean : Nat → Nat → Nat → Option Bool
  onErrorText : String
  onErrorInteger : Int
  onErrorBoolean : Bool

/-- The entry points `doUpdateTasks` calls, for a fallible evaluator. -/
def FallibleEvaluator.entryPoints (fe : FallibleEvaluator) : FlowEvaluator :=
  { evalTextProperty := fun p c i => (fe.evaluateText p c i).getD fe.onErrorText
    evalIntegerProperty := fun p c i => (fe.evaluateInteger p c i).getD fe.onErrorInteger
    evalBooleanProperty := fun p c i => (fe.evaluateBoolean p c i).getD fe.onErrorBoolean }

/-- Evaluating the flow property bound by task `t` fails. -/
def FallibleEvaluator.fails (fe : FallibleEvaluator) (t : UpdateTask) : Prop :=
  match t.evaluated fe.entryPoints with
  | .text _ => fe.evaluateText t.page_index t.component_index t.property_index = none
  | .integer _ => fe.evaluateInteger t.page_index t.component_index t.property_index = none
  | .boolean _ => fe.evaluateBoolean t.page_index t.component_index t.property_index = none

/-- The value a task is applied with when its evaluation fails: the value the
entry point returns on error, converted as its branch converts it. -/
def FallibleEvaluator.onErrorValue (fe : FallibleEvaluator) : UpdateTaskType → PropertyValue
  | .UPDATE_TASK_TYPE_LABEL_TEXT => .text fe.onErrorText
  | .UPDATE_TASK_TYPE_TEXTAREA_TEXT => .text fe.onErrorText
  | .UPDATE_TASK_TYPE_DROPDOWN_SELECTED => .integer (toUInt16 fe.onErrorInteger)
  | .UPDATE_TASK_TYPE_ROLLER_SELECTED => .integer (toUInt16 fe.onErrorInteger)
  | .UPDATE_TASK_TYPE_SLIDER_VALUE => .integer fe.onErrorInteger
  | .UPDATE_TASK_TYPE_SLIDER_VALUE_LEFT => .integer fe.onErrorInteger
  | .UPDATE_TASK_TYPE_ARC_VALUE => .integer fe.onErrorInteger
  | .UPDATE_TASK_TYPE_BAR_VALUE => .integer fe.onErrorInteger
  | .UPDATE_TASK_TYPE_BAR_VALUE_START => .integer fe.onErrorInteger
  | .UPDATE_TASK_TYPE_CHECKED_STATE => .boolean fe.onErrorBoolean
  | .UPDATE_TASK_TYPE_DISABLED_STATE => .boolean fe.onErrorBoolean
  | .UPDATE_TASK_TYPE_HIDDEN_FLAG => .boolean fe.onErrorBoolean
  | .UPDATE_TASK_TYPE_CLICKABLE_FLAG => .boolean fe.onErrorBoolean

/-! ## Example data for the dispatcher -/

/-- An evaluator for which every text is "off", every integer 0 and every
boolean false. -/
def offEvaluator : FlowEvaluator :=
  { evalTextProperty := fun _ _ _ => "off"
    evalIntegerProperty := fun _ _ _ => 0
    evalBooleanProperty := fun _ _ _ => false }

/-- An evaluator whose integer value is given by the property index. -/
def propertyEvaluator (value : Nat → Int) : FlowEvaluator :=
  { evalTextProperty := fun _ _ _ => "on"
    evalIntegerProperty := fun _ _ i => value i
    evalBooleanProperty := fun _ _ _ => true }

/-- The dispatcher state with two queued tasks of one kind on widget 1, bound to
properties 0 and 1 in that order, every widget being `o`. -/
def twoTaskRuntime (o : LvObj) (kind : UpdateTaskType) : Runtime :=
  addUpdateTask
    (addUpdateTask
      { objs := fun _ => o, g_updateTask := none, updateTasks := [], lvCalls := [],
        flowCalls := [] }
      kind 1 0 0 0)
    kind 1 0 0 1

/-- An arc for which `lv_bar_get_value` reads 7 (rotation 7, indicator start
angle 0). -/
def rotatedArcObj : LvObj := { blankObj with arcValue := 0, barValue := 7 }

/-- A fallible evaluator for which every evaluation fails, the entry points
returning "", 0 and false on error. -/
def failingEvaluator : FallibleEvaluator :=
  { evaluateText := fun _ _ _ => none
    evaluateInteger := fun _ _ _ => none
    evaluateBoolean := fun _ _ _ => none
    onErrorText := ""
    onErrorInteger := 0
    onErrorBoolean := false }

/-! ## Example data for the animation driver -/

/-- The registry after `addTimelineKeyframe` has been called once, for widget 1
on page 0, with a fade over [0, 1] toward opacity 1. -/
def oneTimelineRegistry : List WidgetTimeline :=
  addTimelineKeyframe [] 1 0
    (makeTimelineKeyframe 0 1 WIDGET_TIMELINE_PROPERTY_OPACITY 0 0 0 0 0 0 0 0 1 0 0 0 0 0
      0 0 0 0)

/-- A keyframe over [5, 6] moving x to 100. -/
def futureKeyframe : TimelineKeyframe :=
  { blankKeyframe with
    start := 5, end_ := 6, enabledProperties := WIDGET_TIMELINE_PROPERTY_X, x := 100 }

/-- A keyframe over [0, 1] moving x to 7. -/
def pastKeyframe : TimelineKeyframe :=
  { blankKeyframe with
    start := 0, end_ := 1, enabledProperties := WIDGET_TIMELINE_PROPERTY_X, x := 7 }

/-- The driver state with the one-timeline registry, page 1 active (page index
0), every widget blank and no toolkit call made yet. -/
def animationStart : AnimationState :=
  { widgetTimelines := oneTimelineRegistry, currentPageId := 1, objs := fun _ => blankObj,
    lvCalls := [] }

/-- A timeline for widget 1 whose base has been captured (x = 10, opacity 1),
holding the fade keyframe. -/
def capturedTimeline : WidgetTimeline :=
  { registeredTimeline [fadeKeyframe] with lastTimelinePosition := 0, x := 10, opacity := 1 }

/-- The driver state holding `capturedTimeline`, page 1 active. -/
def capturedState : AnimationState :=
  { widgetTimelines := [capturedTimeline], currentPageId := 1, objs := fun _ => blankObj,
    lvCalls := [] }

/-! ## Dispatcher start state and call sequences -/

/-- The dispatcher globals at program start: `g_updateTask` is a static pointer
without initialiser, so it starts as the null pointer; `updateTasks` starts as
the empty vector; no call has been made. -/
def initialRuntime (objs : ObjId → LvObj) : Runtime :=
  { objs := objs, g_updateTask := none, updateTasks := [], lvCalls := [], flowCalls := [] }

/-- A call into the update-task dispatcher: a registration, or a drain with the
flow values of that tick. -/
inductive DispatcherCall where
  | addUpdateTask (updateTaskType : UpdateTaskType) (obj : ObjId)
      (page_index component_index property_index : Nat)
  | doUpdateTasks (ev : FlowEvaluator)

/-- Running one call of the dispatcher. -/
def DispatcherCall.run (tk : Toolkit) (st : Runtime) : DispatcherCall → Runtime
  | .addUpdateTask kind obj p c i => EezFlow.addUpdateTask st kind obj p c i
  | .doUpdateTasks ev => EezFlow.doUpdateTasks ev tk st

/-- Running a sequence of calls of the dispatcher, in order. -/
def runDispatcherCalls (tk : Toolkit) (st : Runtime) (calls : List DispatcherCall) : Runtime :=
  calls.foldl (DispatcherCall.run tk) st

/-- A dropdown whose selection is 3. -/
def dropdownObj : LvObj := { blankObj with dropdownSelected := 3 }

/-! ## The index-to-object registry (flow.cpp lines 664-673) -/

/-- The map `indexToObject` (`std::map<int, lv_obj_t *>`): at most one object per
index. -/
abbrev IndexToObject := Int → Option ObjId

/-- The map `indexToObject` at program start: empty. -/
def emptyIndexToObject : IndexToObject := fun _ => none

/-- The function `setObjectIndex` (lines 666-668): `std::map::insert`, which
inserts the pair only when the index has no entry yet. -/
def setObjectIndex (indexToObject : IndexToObject) (obj : ObjId) (index : Int) : IndexToObject :=
  fun j =>
    if j = index then
      match indexToObject index with
      | some first => some first
      | none => some obj
    else indexToObject j

/-- The function `getLvglObjectFromIndex` (lines 670-673): the object stored
under the index.  For an index without entry the source dereferences the end
iterator, which has no defined result: `none`. -/
def getLvglObjectFromIndex (indexToObject : IndexToObject) (index : Int) : Option ObjId :=
  indexToObject index

/-- A sequence of `setObjectIndex(obj, index)` calls, in order, on a registry. -/
def setObjectIndexAll (indexToObject : IndexToObject) (registrations : List (ObjId × Int)) :
    IndexToObject :=
  registrations.foldl (fun m r => setObjectIndex m r.1 r.2) indexToObject

/-! ## Further example data -/

/-- A keyframe whose start (2) is after its end (1), moving x to 9. -/
def reversedKeyframe : TimelineKeyframe :=
  { blankKeyframe with
    start := 2, end_ := 1, enabledProperties := WIDGET_TIMELINE_PROPERTY_X, x := 9 }


/-- A keyframe over [0, 12] widening to 54, linear easing. -/
def wideKeyframe : TimelineKeyframe :=
  { blankKeyframe with
    start := 0, end_ := 12, enabledProperties := WIDGET_TIMELINE_PROPERTY_WIDTH, width := 54 }

/-- A keyframe over [0, 10] moving x to 8 by the linear blend (no control
point), linear easing. -/
def shiftKeyframe : TimelineKeyframe :=
  { blankKeyframe with
    start := 0, end_ := 10, enabledProperties := WIDGET_TIMELINE_PROPERTY_X, x := 8 }

/-- A toolkit object placed at x = 3, every other value 0. -/
def shiftedObj : LvObj := { blankObj with styleX := 3 }

/-- A keyframe over [0, 1] moving y to 100 by the quadratic Bezier whose control
point is the largest `int32_t`, linear easing. -/
def controlPointKeyframe : TimelineKeyframe :=
  { blankKeyframe with
    start := 0, end_ := 1,
    enabledProperties := WIDGET_TIMELINE_PROPERTY_Y ||| WIDGET_TIMELINE_PROPERTY_CP1,
    y := 100, cp1y := 2147483647 }

/-! ## The blend laws in single precision -/

/-- The scalar blend law in float arithmetic at an active keyframe `k` reached
with working values `v`, the result being `r`: each enabled scalar property
becomes `v + e(t) * (g - v)` with the subtraction, the multiplication and the
addition each rounded by `fl`. -/
def ScalarBlendFloat (fl : ℚ → ℚ) (g_easingFuncs : Nat → ℚ → ℚ) (k : TimelineKeyframe) (t : ℚ)
    (v r : Working) : Prop :=
  (hasProperty k.enabledProperties WIDGET_TIMELINE_PROPERTY_WIDTH = true →
    r.w = fl (v.w + fl (g_easingFuncs k.widthEasingFunc t * fl (k.width - v.w)))) ∧
  (hasProperty k.enabledProperties WIDGET_TIMELINE_PROPERTY_HEIGHT = true →
    r.h = fl (v.h + fl (g_easingFuncs k.heightEasingFunc t * fl (k.height - v.h)))) ∧
  (hasProperty k.enabledProperties WIDGET_TIMELINE_PROPERTY_OPACITY = true →
    r.opacity =
      fl (v.opacity + fl (g_easingFuncs k.opacityEasingFunc t * fl (k.opacity - v.opacity)))) ∧
  (hasProperty k.enabledProperties WIDGET_TIMELINE_PROPERTY_SCALE = true →
    r.scale = fl (v.scale + fl (g_easingFuncs k.scaleEasingFunc t * fl (k.scale - v.scale)))) ∧
  (hasProperty k.enabledProperties WIDGET_TIMELINE_PROPERTY_ROTATE = true →
    r.rotate =
      fl (v.rotate + fl (g_easingFuncs k.rotateEasingFunc t * fl (k.rotate - v.rotate))))

/-- The Bezier law for one coordinate in float arithmetic: the polynomial of
`BezierLaw` with `u = fl (1 - t2)`, each product and each sum taken from left to
right and rounded by `fl`, the control points rounded to float. -/
def BezierLawFloat (fl : ℚ → ℚ) (enabledProperties : Nat) (t2 c : ℚ) (cp1 cp2 target : Int)
    (r : ℚ) : Prop :=
  (hasProperty enabledProperties WIDGET_TIMELINE_PROPERTY_CP2 = true →
    r = fl (fl (fl (fl (fl (fl (fl (1 - t2) * fl (1 - t2)) * fl (1 - t2)) * c) +
          fl (fl (fl (fl (3 * fl (1 - t2)) * fl (1 - t2)) * t2) * fl cp1)) +
          fl (fl (fl (fl (3 * fl (1 - t2)) * t2) * t2) * fl cp2)) +
          fl (fl (fl (t2 * t2) * t2) * target))) ∧
  (hasProperty enabledProperties WIDGET_TIMELINE_PROPERTY_CP2 = false →
    hasProperty enabledProperties WIDGET_TIMELINE_PROPERTY_CP1 = true →
    r = fl (fl (fl (fl (fl (1 - t2) * fl (1 - t2)) * c) +
          fl (fl (fl (2 * fl (1 - t2)) * t2) * fl cp1)) +
          fl (fl (t2 * t2) * target))) ∧
  (hasProperty enabledProperties WIDGET_TIMELINE_PROPERTY_CP2 = false →
    hasProperty enabledProperties WIDGET_TIMELINE_PROPERTY_CP1 = false →
    r = fl (fl (fl (1 - t2) * c) + fl (t2 * target)))

/-- The position blend law in float arithmetic at an active keyframe `k` reached
with working values `v`, the result being `r`: x and y each follow
`BezierLawFloat` when enabled. -/
def PositionBlendFloat (fl : ℚ → ℚ) (g_easingFuncs : Nat → ℚ → ℚ) (k : TimelineKeyframe)
    (t : ℚ) (v r : Working) : Prop :=
  (hasProperty k.enabledProperties WIDGET_TIMELINE_PROPERTY_X = true →
    BezierLawFloat fl k.enabledProperties (g_easingFuncs k.xEasingFunc t) v.x
      k.cp1x k.cp2x k.x r.x) ∧
  (hasProperty k.enabledProperties WIDGET_TIMELINE_PROPERTY_Y = true →
    BezierLawFloat fl k.enabledProperties (g_easingFuncs k.yEasingFunc t) v.y
      k.cp1y k.cp2y k.y r.y)
/-! ## Numeric lemmas -/

theorem roundf_intCast (z : Int) : roundf (z : ℚ) = z := by
  unfold roundf
  split
  · rw [Int.floor_eq_iff]; constructor <;> norm_num
  · rw [Int.ceil_eq_iff]; constructor <;> norm_num

theorem toInt16_of_range (z : Int) (h : -32768 ≤ z ∧ z < 32768) : toInt16 z = z := by
  unfold toInt16; omega

theorem toInt32_of_range (z : Int) (h : -2147483648 ≤ z ∧ z < 2147483648) : toInt32 z = z := by
  unfold toInt32; omega

/-! ## The keyframe scan -/

theorem scanKeyframes_cons_active (ease : Nat → ℚ → ℚ) (p : ℚ) (k : TimelineKeyframe)
    (post : List TimelineKeyframe) (v : Working) (hk : k.start ≤ p ∧ p ≤ k.end_) :
    scanKeyframes ease p (k :: post) v = blendKeyframe ease k p v := by
  have h1 : ¬ p < k.start := not_lt.mpr hk.1
  simp [scanKeyframes, h1, hk.1, hk.2]

theorem scanKeyframes_append (ease : Nat → ℚ → ℚ) (p : ℚ) (pre rest : List TimelineKeyframe)
    (hpre : ∀ kf ∈ pre, ¬ (kf.start ≤ p ∧ p ≤ kf.end_)) (v : Working) :
    scanKeyframes ease p (pre ++ rest) v = scanKeyframes ease p rest (scanKeyframes ease p pre v) := by
  induction pre generalizing v with
  | nil => simp [scanKeyframes]
  | cons kf pre ih =>
    have hkf : ¬ (kf.start ≤ p ∧ p ≤ kf.end_) := hpre kf (List.mem_cons_self _ _)
    have hrest : ∀ kf2 ∈ pre, ¬ (kf2.start ≤ p ∧ p ≤ kf2.end_) :=
      fun kf2 h2 => hpre kf2 (List.mem_cons_of_mem _ h2)
    by_cases hlt : p < kf.start
    · simp [scanKeyframes, hlt, ih hrest]
    · have hnw : ¬ (p ≥ kf.start ∧ p ≤ kf.end_) := hkf
      simp only [List.cons_append, scanKeyframes, hlt, hnw, if_false]
      exact ih hrest _

theorem scanKeyframes_easing_irrelevant (ease ease2 : Nat → ℚ → ℚ) (p : ℚ)
    (pre : List TimelineKeyframe)
    (hpre : ∀ kf ∈ pre, ¬ (kf.start ≤ p ∧ p ≤ kf.end_)) (v : Working) :
    scanKeyframes ease2 p pre v = scanKeyframes ease p pre v := by
  induction pre generalizing v with
  | nil => simp [scanKeyframes]
  | cons kf pre ih =>
    have hkf : ¬ (p ≥ kf.start ∧ p ≤ kf.end_) := hpre kf (List.mem_cons_self _ _)
    have hrest : ∀ kf2 ∈ pre, ¬ (kf2.start ≤ p ∧ p ≤ kf2.end_) :=
      fun kf2 h2 => hpre kf2 (List.mem_cons_of_mem _ h2)
    by_cases hlt : p < kf.start
    · simp [scanKeyframes, hlt, ih hrest]
    · simp only [scanKeyframes, hlt, hkf, if_false]
      exact ih hrest _

theorem scanKeyframes_active_irrelevant_tail (ease : Nat → ℚ → ℚ) (p : ℚ)
    (pre post post2 : List TimelineKeyframe) (k : TimelineKeyframe)
    (hk : k.start ≤ p ∧ p ≤ k.end_) (v : Working) :
    scanKeyframes ease p (pre ++ k :: post) v = scanKeyframes ease p (pre ++ k :: post2) v := by
  induction pre generalizing v with
  | nil =>
    simp only [List.nil_append]
    rw [scanKeyframes_cons_active ease p k post v hk, scanKeyframes_cons_active ease p k post2 v hk]
  | cons kf pre ih =>
    simp only [List.cons_append, scanKeyframes]
    split
    · exact ih _
    · split
      · rfl
      · exact ih _

/-- C1. Once a keyframe whose window contains the position is reached, the
keyframes after it in the list have no effect on what `updateTimelineProperties`
writes: replacing the rest of the list by any other list (so changing or
removing later keyframes) leaves the resulting widget and the toolkit calls
unchanged.  When it is the first such keyframe, the working values are that
keyframe's blend applied to the values carried through the earlier keyframes,
and those earlier keyframes consult no easing function (none is blended). -/
theorem updateTimelineProperties_first_active_wins (ease : Nat → ℚ → ℚ)
    (wt : WidgetTimeline) (o : LvObj) (p : ℚ)
    (pre post post2 : List TimelineKeyframe) (k : TimelineKeyframe)
    (hk : k.start ≤ p ∧ p ≤ k.end_)
    (hfirst : ∀ kf ∈ pre, ¬ (kf.start ≤ p ∧ p ≤ kf.end_)) :
    (updateTimelineProperties ease { wt with timeline := pre ++ k :: post } o p).obj =
      (updateTimelineProperties ease { wt with timeline := pre ++ k :: post2 } o p).obj ∧
    (updateTimelineProperties ease { wt with timeline := pre ++ k :: post } o p).calls =
      (updateTimelineProperties ease { wt with timeline := pre ++ k :: post2 } o p).calls ∧
    (∀ v : Working, scanKeyframes ease p (pre ++ k :: post) v =
      blendKeyframe ease k p (scanKeyframes ease p pre v)) ∧
    (∀ (ease2 : Nat → ℚ → ℚ) (v : Working),
      scanKeyframes ease2 p pre v = scanKeyframes ease p pre v) := by
  have hscan : ∀ v : Working, scanKeyframes ease p (pre ++ k :: post) v =
      scanKeyframes ease p (pre ++ k :: post2) v :=
    scanKeyframes_active_irrelevant_tail ease p pre post post2 k hk
  refine ⟨?_, ?_, ?_, ?_⟩
  · unfold updateTimelineProperties captureBase
    by_cases h : wt.lastTimelinePosition = -1 <;>
      simp only [h, if_true, if_false, hscan, baseValues] <;> split <;> rfl
  · unfold updateTimelineProperties captureBase
    by_cases h : wt.lastTimelinePosition = -1 <;>
      simp only [h, if_true, if_false, hscan, baseValues] <;> split <;> rfl
  · intro v
    rw [scanKeyframes_append ease p pre (k :: post) hfirst v,
      scanKeyframes_cons_active ease p k post _ hk]
  · intro ease2 v
    exact scanKeyframes_easing_irrelevant ease ease2 p pre hfirst v

/-! ## What the evaluator writes -/

theorem captureBase_timeline (wt : WidgetTimeline) (o : LvObj) :
    (captureBase wt o).timeline = wt.timeline := by
  unfold captureBase; split <;> rfl

theorem updateTimelineProperties_obj (ease : Nat → ℚ → ℚ) (wt : WidgetTimeline) (o : LvObj)
    (p : ℚ) (hne : p ≠ (captureBase wt o).lastTimelinePosition) :
    (updateTimelineProperties ease wt o p).obj =
      { o with
        styleX := toInt16 (roundf
          (scanKeyframes ease p wt.timeline (baseValues (captureBase wt o))).x)
        styleY := toInt16 (roundf
          (scanKeyframes ease p wt.timeline (baseValues (captureBase wt o))).y)
        styleWidth := toInt16 (roundf
          (scanKeyframes ease p wt.timeline (baseValues (captureBase wt o))).w)
        styleHeight := toInt16 (roundf
          (scanKeyframes ease p wt.timeline (baseValues (captureBase wt o))).h)
        styleOpa := toInt32 (roundf
          ((scanKeyframes ease p wt.timeline (baseValues (captureBase wt o))).opacity * 255))
        styleTransformZoom := toInt32 (roundf
          (scanKeyframes ease p wt.timeline (baseValues (captureBase wt o))).scale)
        styleTransformAngle := toInt32 (roundf
          (scanKeyframes ease p wt.timeline (baseValues (captureBase wt o))).rotate) } := by
  unfold updateTimelineProperties
  simp only [hne, if_false, captureBase_timeline]
  simp [styleWrites, lv_obj_set_local_style_prop]

theorem updateTimelineProperties_calls_length (ease : Nat → ℚ → ℚ) (wt : WidgetTimeline)
    (o : LvObj) (p : ℚ) (hne : p ≠ (captureBase wt o).lastTimelinePosition) :
    (updateTimelineProperties ease wt o p).calls.length = 8 := by
  unfold updateTimelineProperties
  simp only [hne, if_false]
  simp [styleWrites]

theorem blendPosition_one (enabled : Nat) (p1 : ℚ) (cp1 cp2 target : Int) :
    blendPosition enabled 1 p1 cp1 cp2 target = target := by
  unfold blendPosition
  split
  · ring
  · split <;> ring

theorem blendKeyframe_full (ease : Nat → ℚ → ℚ) (k : TimelineKeyframe) (p : ℚ) (v : Working)
    (hease : ∀ i, ease i 1 = 1) (ht : localProgress k p = 1) :
    blendKeyframe ease k p v = snapKeyframe k v := by
  unfold blendKeyframe snapKeyframe
  simp only [ht, hease, blendPosition_one]
  congr 1 <;> split <;> first | rfl | ring

theorem localProgress_at_end (k : TimelineKeyframe) (hse : k.start ≤ k.end_) :
    localProgress k k.end_ = 1 := by
  unfold localProgress
  split
  · rfl
  · rename_i hne
    have : k.end_ - k.start ≠ 0 := fun h => hne (by linarith)
    exact div_self this

theorem snapKeyframe_targetsWritten (k : TimelineKeyframe) (v : Working) (o : LvObj)
    (hrange : k.InRange) :
    k.TargetsWritten
      { o with
        styleX := toInt16 (roundf (snapKeyframe k v).x)
        styleY := toInt16 (roundf (snapKeyframe k v).y)
        styleWidth := toInt16 (roundf (snapKeyframe k v).w)
        styleHeight := toInt16 (roundf (snapKeyframe k v).h)
        styleOpa := toInt32 (roundf ((snapKeyframe k v).opacity * 255))
        styleTransformZoom := toInt32 (roundf (snapKeyframe k v).scale)
        styleTransformAngle := toInt32 (roundf (snapKeyframe k v).rotate) } := by
  obtain ⟨hx, hy, hw, hh, hs, hr⟩ := hrange
  unfold TimelineKeyframe.TargetsWritten snapKeyframe
  refine ⟨?_, ?_, ?_, ?_, ?_, ?_, ?_⟩ <;> intro hp <;> simp only [hp, if_true, roundf_intCast]
  · exact toInt16_of_range _ hx
  · exact toInt16_of_range _ hy
  · exact toInt16_of_range _ hw
  · exact toInt16_of_range _ hh
  · exact toInt32_of_range _ ⟨by omega, by omega⟩
  · exact toInt32_of_range _ ⟨by omega, by omega⟩

theorem scanKeyframes_last_elapsed (ease : Nat → ℚ → ℚ) (k : TimelineKeyframe) (p : ℚ)
    (v : Working) (hease : ∀ i, ease i 1 = 1) (hse : k.start ≤ k.end_) (hp : k.end_ ≤ p) :
    scanKeyframes ease p [k] v = snapKeyframe k v := by
  have h1 : ¬ p < k.start := not_lt.mpr (le_trans hse hp)
  by_cases hle : p ≤ k.end_
  · have hpe : p = k.end_ := le_antisymm hle hp
    rw [scanKeyframes_cons_active ease p k [] v ⟨le_trans hse hp, hle⟩]
    apply blendKeyframe_full ease k p v hease
    rw [hpe]; exact localProgress_at_end k hse
  · have hnw : ¬ (p ≥ k.start ∧ p ≤ k.end_) := fun h => hle h.2
    simp only [scanKeyframes, h1, hnw, if_false]

/-! ## Claims on the timeline evaluator -/

/-- C2 (counterexample). The claim fails in two ways.  With the overlapping
keyframes [0,10] x→100 and [0,1] x→7 (linear easing, base x = 0), position 5 is
past the end of the final keyframe, yet the first keyframe is the active one and
x is written as 50, not 7.  And with the single keyframe [-1,0] x→100 on a
timeline not evaluated before, position 0 is at the final keyframe's end, yet
the call returns before the scan and the widget keeps x = 0. -/
theorem updateTimelineProperties_final_target_counterexample :
    (∀ i, linearEasing i 1 = 1) ∧
    (overlapFinalKeyframe.end_ ≤ 5 ∧
      (updateTimelineProperties linearEasing
        (registeredTimeline [overlapFirstKeyframe, overlapFinalKeyframe]) blankObj 5).obj.styleX
        = 50 ∧
      ¬ overlapFinalKeyframe.TargetsWritten (updateTimelineProperties linearEasing
        (registeredTimeline [overlapFirstKeyframe, overlapFinalKeyframe]) blankObj 5).obj) ∧
    (endsAtZeroKeyframe.end_ ≤ 0 ∧
      (updateTimelineProperties linearEasing (registeredTimeline [endsAtZeroKeyframe])
        blankObj 0).calls = [] ∧
      ¬ endsAtZeroKeyframe.TargetsWritten (updateTimelineProperties linearEasing
        (registeredTimeline [endsAtZeroKeyframe]) blankObj 0).obj) := by
  have hx : (updateTimelineProperties linearEasing
      (registeredTimeline [overlapFirstKeyframe, overlapFinalKeyframe]) blankObj 5).obj.styleX
      = 50 := by
    rw [updateTimelineProperties_obj _ _ _ _ (by simp [captureBase, registeredTimeline])]
    have h5 : roundf (50 : ℚ) = 50 := by exact_mod_cast roundf_intCast 50
    norm_num [registeredTimeline, overlapFirstKeyframe, scanKeyframes, blendKeyframe,
      blankKeyframe, hasProperty, WIDGET_TIMELINE_PROPERTY_X, localProgress, blendPosition,
      WIDGET_TIMELINE_PROPERTY_CP1, WIDGET_TIMELINE_PROPERTY_CP2, linearEasing, baseValues,
      captureBase, lv_obj_get_style_prop, blankObj, toInt16, h5]
  have h0 : (updateTimelineProperties linearEasing (registeredTimeline [endsAtZeroKeyframe])
      blankObj 0).obj.styleX = 0 := by
    simp [updateTimelineProperties, captureBase, registeredTimeline, blankObj]
  refine ⟨fun _ => rfl, ⟨?_, hx, ?_⟩, ⟨?_, ?_, ?_⟩⟩
  · norm_num [overlapFinalKeyframe]
  · intro h
    have h7 := h.1 (by decide)
    rw [hx] at h7
    simp [overlapFinalKeyframe] at h7
  · norm_num [endsAtZeroKeyframe]
  · simp [updateTimelineProperties, captureBase, registeredTimeline]
  · intro h
    have h100 := h.1 (by decide)
    rw [h0] at h100
    simp [endsAtZeroKeyframe] at h100

/-- C2 (amended). For a timeline whose final keyframe `k` has `start ≤ end`, and
a position at or past `k.end` that differs from the cached last position (so
the call does not return early) and lies in the window of no earlier keyframe
of the list, `updateTimelineProperties` leaves every property enabled by `k`
equal to the target of `k` (opacity scaled to 0..255), provided every easing
function maps 1 to 1. -/
theorem updateTimelineProperties_final_target (ease : Nat → ℚ → ℚ) (wt : WidgetTimeline)
    (o : LvObj) (p : ℚ) (pre : List TimelineKeyframe) (k : TimelineKeyframe)
    (htl : wt.timeline = pre ++ [k])
    (hease : ∀ i, ease i 1 = 1)
    (hrange : k.InRange)
    (hse : k.start ≤ k.end_)
    (hp : k.end_ ≤ p)
    (hpre : ∀ kf ∈ pre, ¬ (kf.start ≤ p ∧ p ≤ kf.end_))
    (hne : p ≠ (captureBase wt o).lastTimelinePosition) :
    k.TargetsWritten (updateTimelineProperties ease wt o p).obj := by
  rw [updateTimelineProperties_obj ease wt o p hne, htl,
    scanKeyframes_append ease p pre [k] hpre, scanKeyframes_last_elapsed ease k p _ hease hse hp]
  exact snapKeyframe_targetsWritten k _ o hrange

/-- C2 (witness): the amended statement at the single keyframe [-1,0] x→100,
position 1, on a timeline not evaluated before. -/
theorem updateTimelineProperties_final_target_witness :
    endsAtZeroKeyframe.TargetsWritten
      (updateTimelineProperties linearEasing (registeredTimeline [endsAtZeroKeyframe])
        blankObj 1).obj :=
  updateTimelineProperties_final_target linearEasing (registeredTimeline [endsAtZeroKeyframe])
    blankObj 1 [] endsAtZeroKeyframe rfl (fun _ => rfl)
    (by simp [TimelineKeyframe.InRange, endsAtZeroKeyframe, blankKeyframe])
    (by norm_num [endsAtZeroKeyframe])
    (by norm_num [endsAtZeroKeyframe])
    (by simp)
    (by simp [captureBase, registeredTimeline])

/-- C3 (failing input). A widget with opacity 128 and a timeline whose only
keyframe starts at 1: evaluating at position 1/2, before every keyframe, writes
opacity 0, because the captured base opacity 128/255 is stored in an `int16_t`
field and truncates to 0. -/
theorem updateTimelineProperties_base_opacity_truncated :
    (∀ kf ∈ (registeredTimeline [fadeLaterKeyframe]).timeline, (1 / 2 : ℚ) < kf.start) ∧
    halfOpaqueObj.styleOpa = 128 ∧
    (captureBase (registeredTimeline [fadeLaterKeyframe]) halfOpaqueObj).opacity = 0 ∧
    (updateTimelineProperties linearEasing (registeredTimeline [fadeLaterKeyframe])
      halfOpaqueObj (1 / 2)).obj.styleOpa = 0 := by
  have htr : truncf ((128 : ℚ) / 255) = 0 := by
    unfold truncf
    rw [if_pos (by norm_num), Int.floor_eq_iff]
    constructor <;> norm_num
  have h0 : roundf (0 : ℚ) = 0 := by exact_mod_cast roundf_intCast 0
  refine ⟨?_, rfl, ?_, ?_⟩
  · norm_num [registeredTimeline, fadeLaterKeyframe]
  · simp [captureBase, registeredTimeline, lv_obj_get_style_prop, halfOpaqueObj, blankObj, htr,
      toInt16]
  · rw [updateTimelineProperties_obj _ _ _ _ (by simp [captureBase, registeredTimeline])]
    norm_num [registeredTimeline, fadeLaterKeyframe, scanKeyframes, baseValues, captureBase,
      lv_obj_get_style_prop, halfOpaqueObj, blankObj, htr, toInt16, toInt32, h0]

/-- C4 (counterexample). On a timeline not evaluated before, with the single
instantaneous keyframe start == end == 0 that moves x to 100, the call at
position 0 == start returns before the scan: no toolkit call is made and the
widget keeps x = 0 instead of the target. -/
theorem updateTimelineProperties_instant_at_zero_counterexample :
    (∀ i, linearEasing i 1 = 1) ∧
    instantAtZeroKeyframe.start = instantAtZeroKeyframe.end_ ∧
    instantAtZeroKeyframe.start = 0 ∧
    (updateTimelineProperties linearEasing (registeredTimeline [instantAtZeroKeyframe])
      blankObj instantAtZeroKeyframe.start).calls = [] ∧
    ¬ instantAtZeroKeyframe.TargetsWritten
      (updateTimelineProperties linearEasing (registeredTimeline [instantAtZeroKeyframe])
        blankObj instantAtZeroKeyframe.start).obj := by
  have h0 : (updateTimelineProperties linearEasing (registeredTimeline [instantAtZeroKeyframe])
      blankObj instantAtZeroKeyframe.start).obj.styleX = 0 := by
    simp [updateTimelineProperties, captureBase, registeredTimeline, blankObj,
      instantAtZeroKeyframe]
  refine ⟨fun _ => rfl, rfl, rfl, ?_, ?_⟩
  · simp [updateTimelineProperties, captureBase, registeredTimeline, instantAtZeroKeyframe]
  · intro h
    have h100 := h.1 (by decide)
    rw [h0] at h100
    simp [instantAtZeroKeyframe] at h100

/-- C4 (amended). For a keyframe `k` with start == end that is the first keyframe
of the list whose window contains the position, evaluating at position == start
uses local progress 1 (no division) and, whenever that position differs from the
cached last position (which is 0 for a timeline not evaluated before), writes
the target of `k` for every enabled property (opacity scaled to 0..255),
provided every easing function maps 1 to 1. -/
theorem updateTimelineProperties_instant_keyframe (ease : Nat → ℚ → ℚ) (wt : WidgetTimeline)
    (o : LvObj) (pre post : List TimelineKeyframe) (k : TimelineKeyframe)
    (htl : wt.timeline = pre ++ k :: post)
    (hease : ∀ i, ease i 1 = 1)
    (hrange : k.InRange)
    (hse : k.start = k.end_)
    (hpre : ∀ kf ∈ pre, ¬ (kf.start ≤ k.start ∧ k.start ≤ kf.end_))
    (hne : k.start ≠ (captureBase wt o).lastTimelinePosition) :
    localProgress k k.start = 1 ∧
    k.TargetsWritten (updateTimelineProperties ease wt o k.start).obj := by
  have ht : localProgress k k.start = 1 := by simp [localProgress, hse]
  refine ⟨ht, ?_⟩
  rw [updateTimelineProperties_obj ease wt o k.start hne, htl,
    scanKeyframes_append ease k.start pre (k :: post) hpre,
    scanKeyframes_cons_active ease k.start k post _ ⟨le_refl _, le_of_eq hse⟩,
    blendKeyframe_full ease k k.start _ hease ht]
  exact snapKeyframe_targetsWritten k _ o hrange

/-- C4 (witness): the amended statement at the instantaneous keyframe
start == end == 2 on a timeline not evaluated before. -/
theorem updateTimelineProperties_instant_keyframe_witness :
    localProgress instantAtTwoKeyframe instantAtTwoKeyframe.start = 1 ∧
    instantAtTwoKeyframe.TargetsWritten
      (updateTimelineProperties linearEasing (registeredTimeline [instantAtTwoKeyframe])
        blankObj instantAtTwoKeyframe.start).obj :=
  updateTimelineProperties_instant_keyframe linearEasing
    (registeredTimeline [instantAtTwoKeyframe]) blankObj [] [] instantAtTwoKeyframe rfl
    (fun _ => rfl)
    (by simp [TimelineKeyframe.InRange, instantAtTwoKeyframe, blankKeyframe])
    rfl
    (by simp)
    (by simp [captureBase, registeredTimeline, instantAtTwoKeyframe])

/-- C5 (failing input). Two calls in a row at position 1/2 on a registered
timeline: the first call leaves `lastTimelinePosition` at 0 (it is assigned only
when the base is captured), so the second call does not return early and makes
the same eight toolkit calls again (seven style writes and a layout update). -/
theorem updateTimelineProperties_second_call_writes :
    (updateTimelineProperties linearEasing (registeredTimeline [fadeKeyframe])
      blankObj (1 / 2)).widgetTimeline.lastTimelinePosition = 0 ∧
    (updateTimelineProperties linearEasing
      (updateTimelineProperties linearEasing (registeredTimeline [fadeKeyframe])
        blankObj (1 / 2)).widgetTimeline
      (updateTimelineProperties linearEasing (registeredTimeline [fadeKeyframe])
        blankObj (1 / 2)).obj (1 / 2)).calls.length = 8 := by
  have h1 : (updateTimelineProperties linearEasing (registeredTimeline [fadeKeyframe])
      blankObj (1 / 2)).widgetTimeline.lastTimelinePosition = 0 := by
    simp [updateTimelineProperties, captureBase, registeredTimeline]
  refine ⟨h1, ?_⟩
  apply updateTimelineProperties_calls_length
  have h2 : ((1 : ℚ) / 2 ≠ 0) ∧ ((0 : ℚ) ≠ -1) := by constructor <;> norm_num
  simp only [captureBase, h1, h2.2, if_false]
  exact h2.1

theorem blendKeyframe_scalarBlend (ease : Nat → ℚ → ℚ) (k : TimelineKeyframe) (p : ℚ)
    (v : Working) :
    ScalarBlend ease k (localProgress k p) v (blendKeyframe ease k p v) := by
  unfold ScalarBlend blendKeyframe
  refine ⟨?_, ?_, ?_, ?_, ?_⟩ <;> intro h <;> simp only [h, if_true]

theorem blendPosition_bezierLaw (enabled : Nat) (t2 c : ℚ) (cp1 cp2 target : Int) :
    BezierLaw enabled t2 c cp1 cp2 target (blendPosition enabled t2 c cp1 cp2 target) := by
  unfold BezierLaw blendPosition
  refine ⟨?_, ?_, ?_⟩
  · intro h2
    simp only [h2, if_true]
    ring
  · intro h2 h1
    simp only [h2, h1, if_true, Bool.false_eq_true, if_false]
    ring
  · intro h2 h1
    simp only [h2, h1, Bool.false_eq_true, if_false]

theorem blendKeyframe_positionBlend (ease : Nat → ℚ → ℚ) (k : TimelineKeyframe) (p : ℚ)
    (v : Working) :
    PositionBlend ease k (localProgress k p) v (blendKeyframe ease k p v) := by
  unfold PositionBlend blendKeyframe
  refine ⟨?_, ?_⟩ <;> intro h <;> simp only [h, if_true] <;> exact blendPosition_bezierLaw _ _ _ _ _ _

/-! ## Single-precision rounding -/

theorem roundHalfEven_intCast (n : ℤ) : roundHalfEven (n : ℚ) = n := by
  simp [roundHalfEven]

theorem roundHalfEven_of_near (q : ℚ) (n : ℤ) (h : |q - n| < 1 / 2) : roundHalfEven q = n := by
  rw [abs_lt] at h
  obtain ⟨h1, h2⟩ := h
  unfold roundHalfEven
  by_cases hq : (n : ℚ) ≤ q
  · have hf : ⌊q⌋ = n := by
      rw [Int.floor_eq_iff]
      constructor
      · exact hq
      · linarith
    simp only [hf]
    rw [if_pos (by linarith)]
  · have hf : ⌊q⌋ = n - 1 := by
      rw [Int.floor_eq_iff]
      push_cast
      constructor
      · linarith
      · push_neg at hq
        linarith
    simp only [hf]
    push_cast
    rw [if_neg (by linarith), if_pos (by linarith)]
    ring

theorem roundHalfEven_tie (q : ℚ) (n : ℤ) (h : q = n + 1 / 2) :
    roundHalfEven q = if n % 2 = 0 then n else n + 1 := by
  have hf : ⌊q⌋ = n := by
    rw [Int.floor_eq_iff]
    constructor <;> linarith
  unfold roundHalfEven
  simp only [hf]
  rw [if_neg (by linarith), if_neg (by linarith)]

theorem int_log_two_eq (r : ℚ) (L : ℤ) (h1 : 2 ^ L ≤ r) (h2 : r < 2 ^ (L + 1)) :
    Int.log 2 r = L := by
  have hr : 0 < r := lt_of_lt_of_le (zpow_pos (by norm_num) L) h1
  have ha : L ≤ Int.log 2 r :=
    (Int.zpow_le_iff_le_log (R := ℚ) (b := 2) (by norm_num) hr).mp (by exact_mod_cast h1)
  have hb : Int.log 2 r < L + 1 :=
    (Int.lt_zpow_iff_log_lt (R := ℚ) (b := 2) (by norm_num) hr).mp (by exact_mod_cast h2)
  omega

theorem binary32_of_bounds (q : ℚ) (L n : ℤ) (h1 : 2 ^ L ≤ |q|) (h2 : |q| < 2 ^ (L + 1))
    (hn : roundHalfEven (q / 2 ^ (max L (-126) - 23)) = n) :
    binary32 q = n * 2 ^ (max L (-126) - 23) := by
  unfold binary32 binary32Exponent
  rw [int_log_two_eq |q| L h1 h2, hn]

theorem binary32_zero : binary32 0 = 0 := by
  simp [binary32, roundHalfEven]

theorem binary32_of_scaled (m e : ℤ) (hm : |m| < 2 ^ 24) (he : -149 ≤ e) :
    binary32 (m * 2 ^ e) = m * 2 ^ e := by
  by_cases h0 : m = 0
  · subst h0
    simp [binary32_zero]
  · have hpow : (0 : ℚ) < 2 ^ e := zpow_pos (by norm_num) e
    have habs : |(m : ℚ) * 2 ^ e| = |(m : ℚ)| * 2 ^ e := by
      rw [abs_mul, abs_of_pos hpow]
    have hmpos : (0 : ℚ) < |(m : ℚ)| := abs_pos.mpr (by exact_mod_cast h0)
    have hqpos : 0 < |(m : ℚ) * 2 ^ e| := by
      rw [habs]
      exact mul_pos hmpos hpow
    have hmq : |(m : ℚ)| < 2 ^ (24 : ℤ) := by
      have : ((|m| : ℤ) : ℚ) < ((2 ^ 24 : ℤ) : ℚ) := by exact_mod_cast hm
      rw [zpow_ofNat]
      push_cast at this
      exact this
    have hlt : |(m : ℚ) * 2 ^ e| < ((2 : ℕ) : ℚ) ^ (24 + e) := by
      rw [habs, zpow_add₀ (by norm_num)]
      push_cast
      exact mul_lt_mul_of_pos_right hmq hpow
    have hlog : Int.log 2 |(m : ℚ) * 2 ^ e| < 24 + e :=
      (Int.lt_zpow_iff_log_lt (R := ℚ) (b := 2) (by norm_num) hqpos).mp hlt
    have hE : binary32Exponent ((m : ℚ) * 2 ^ e) ≤ e := by
      unfold binary32Exponent
      omega
    unfold binary32
    generalize binary32Exponent ((m : ℚ) * 2 ^ e) = E at hE
    obtain ⟨k, hk⟩ := Int.le.dest hE
    have hE0 : (2 : ℚ) ^ E ≠ 0 := (zpow_pos (by norm_num) E).ne.symm
    have hsplit : (2 : ℚ) ^ e = 2 ^ E * 2 ^ k := by
      rw [← hk, zpow_add₀ (by norm_num), zpow_natCast]
    have hquot : (m : ℚ) * 2 ^ e / 2 ^ E = ((m * 2 ^ k : ℤ) : ℚ) := by
      rw [hsplit, div_eq_iff hE0]
      push_cast
      ring
    rw [hquot, roundHalfEven_intCast, hsplit]
    push_cast
    ring

theorem binary32_intCast (n : ℤ) (h : |n| < 2 ^ 24) : binary32 (n : ℚ) = n := by
  have := binary32_of_scaled n 0 h (by norm_num)
  simpa using this

theorem binary32_dyadic (m : ℤ) (k : ℕ) (hm : |m| < 2 ^ 24) (hk : k ≤ 149) :
    binary32 ((m : ℚ) / 2 ^ k) = (m : ℚ) / 2 ^ k := by
  have := binary32_of_scaled m (-(k : ℤ)) hm (by omega)
  rw [zpow_neg, zpow_natCast] at this
  exact this

theorem binary32_int32_max : int32ToFloat binary32 2147483647 = 2147483648 := by
  unfold int32ToFloat
  rw [binary32_of_bounds _ 30 16777216 (by norm_num [abs_of_pos]) (by norm_num [abs_of_pos])
    (roundHalfEven_of_near _ _ (by norm_num [abs_lt]))]
  norm_num

/-! ## The single-precision evaluator -/

theorem scanKeyframesFloat_cons_active (fl : ℚ → ℚ) (ease : Nat → ℚ → ℚ) (p : ℚ)
    (k : TimelineKeyframe) (post : List TimelineKeyframe) (v : Working)
    (hk : k.start ≤ p ∧ p ≤ k.end_) :
    scanKeyframesFloat fl ease p (k :: post) v = blendKeyframeFloat fl ease k p v := by
  have h1 : ¬ p < k.start := not_lt.mpr hk.1
  simp [scanKeyframesFloat, h1, hk.1, hk.2]

theorem scanKeyframesFloat_append (fl : ℚ → ℚ) (ease : Nat → ℚ → ℚ) (p : ℚ)
    (pre rest : List TimelineKeyframe)
    (hpre : ∀ kf ∈ pre, ¬ (kf.start ≤ p ∧ p ≤ kf.end_)) (v : Working) :
    scanKeyframesFloat fl ease p (pre ++ rest) v =
      scanKeyframesFloat fl ease p rest (scanKeyframesFloat fl ease p pre v) := by
  induction pre generalizing v with
  | nil => simp [scanKeyframesFloat]
  | cons kf pre ih =>
    have hkf : ¬ (kf.start ≤ p ∧ p ≤ kf.end_) := hpre kf (List.mem_cons_self _ _)
    have hrest : ∀ kf2 ∈ pre, ¬ (kf2.start ≤ p ∧ p ≤ kf2.end_) :=
      fun kf2 h2 => hpre kf2 (List.mem_cons_of_mem _ h2)
    by_cases hlt : p < kf.start
    · simp [scanKeyframesFloat, hlt, ih hrest]
    · have hnw : ¬ (p ≥ kf.start ∧ p ≤ kf.end_) := hkf
      simp only [List.cons_append, scanKeyframesFloat, hlt, hnw, if_false]
      exact ih hrest _

/-- Before the active keyframe nothing is rounded: the keyframes whose window
does not contain the position are skipped or snapped. -/
theorem scanKeyframesFloat_inactive (fl : ℚ → ℚ) (ease : Nat → ℚ → ℚ) (p : ℚ)
    (pre : List TimelineKeyframe)
    (hpre : ∀ kf ∈ pre, ¬ (kf.start ≤ p ∧ p ≤ kf.end_)) (v : Working) :
    scanKeyframesFloat fl ease p pre v = scanKeyframes ease p pre v := by
  induction pre generalizing v with
  | nil => simp [scanKeyframesFloat, scanKeyframes]
  | cons kf pre ih =>
    have hkf : ¬ (kf.start ≤ p ∧ p ≤ kf.end_) := hpre kf (List.mem_cons_self _ _)
    have hrest : ∀ kf2 ∈ pre, ¬ (kf2.start ≤ p ∧ p ≤ kf2.end_) :=
      fun kf2 h2 => hpre kf2 (List.mem_cons_of_mem _ h2)
    by_cases hlt : p < kf.start
    · simp [scanKeyframesFloat, scanKeyframes, hlt, ih hrest]
    · have hnw : ¬ (p ≥ kf.start ∧ p ≤ kf.end_) := hkf
      simp only [scanKeyframesFloat, scanKeyframes, hlt, hnw, if_false]
      exact ih hrest _

theorem localProgressFloat_exact (k : TimelineKeyframe) (p : ℚ) :
    localProgressFloat (fun q => q) k p = localProgress k p := by
  simp [localProgressFloat, localProgress, fdiv, fsub]

theorem blendPositionFloat_exact (enabled : Nat) (t2 p1 : ℚ) (cp1 cp2 target : Int) :
    blendPositionFloat (fun q => q) enabled t2 p1 cp1 cp2 target =
      blendPosition enabled t2 p1 cp1 cp2 target := by
  simp only [blendPositionFloat, blendPosition, fadd, fsub, fmul, int32ToFloat]

theorem blendKeyframeFloat_exact (ease : Nat → ℚ → ℚ) (k : TimelineKeyframe) (p : ℚ)
    (v : Working) :
    blendKeyframeFloat (fun q => q) ease k p v = blendKeyframe ease k p v := by
  simp only [blendKeyframeFloat, blendKeyframe, localProgressFloat_exact,
    blendPositionFloat_exact, fadd, fsub, fmul]

theorem scanKeyframesFloat_exact (ease : Nat → ℚ → ℚ) (p : ℚ) (kfs : List TimelineKeyframe)
    (v : Working) :
    scanKeyframesFloat (fun q => q) ease p kfs v = scanKeyframes ease p kfs v := by
  induction kfs generalizing v with
  | nil => simp [scanKeyframesFloat, scanKeyframes]
  | cons k rest ih =>
    simp only [scanKeyframesFloat, scanKeyframes, ih, blendKeyframeFloat_exact]

theorem captureBaseFloat_exact (wt : WidgetTimeline) (o : LvObj) :
    captureBaseFloat (fun q => q) wt o = captureBase wt o := by
  simp only [captureBaseFloat, captureBase, fdiv, int32ToFloat]

theorem styleWritesFloat_exact (v : Working) : styleWritesFloat (fun q => q) v = styleWrites v := by
  simp only [styleWritesFloat, styleWrites, fmul]

/-- With a rounding that changes nothing, the single-precision evaluator is the
exact one. -/
theorem updateTimelinePropertiesFloat_exact (ease : Nat → ℚ → ℚ) (wt : WidgetTimeline)
    (o : LvObj) (p : ℚ) :
    updateTimelinePropertiesFloat (fun q => q) ease wt o p =
      updateTimelineProperties ease wt o p := by
  simp only [updateTimelinePropertiesFloat, updateTimelineProperties, captureBaseFloat_exact,
    scanKeyframesFloat_exact, styleWritesFloat_exact]

theorem blendKeyframeFloat_scalarBlendFloat (fl : ℚ → ℚ) (ease : Nat → ℚ → ℚ)
    (k : TimelineKeyframe) (p : ℚ) (v : Working) :
    ScalarBlendFloat fl ease k (localProgressFloat fl k p) v (blendKeyframeFloat fl ease k p v) := by
  unfold ScalarBlendFloat blendKeyframeFloat fadd fmul fsub
  refine ⟨?_, ?_, ?_, ?_, ?_⟩ <;> intro h <;> simp only [h, if_true]

theorem blendPositionFloat_bezierLawFloat (fl : ℚ → ℚ) (enabled : Nat) (t2 c : ℚ)
    (cp1 cp2 target : Int) :
    BezierLawFloat fl enabled t2 c cp1 cp2 target
      (blendPositionFloat fl enabled t2 c cp1 cp2 target) := by
  unfold BezierLawFloat blendPositionFloat fadd fmul fsub int32ToFloat
  refine ⟨?_, ?_, ?_⟩
  · intro h2
    simp only [h2, if_true]
  · intro h2 h1
    simp only [h2, h1, if_true, Bool.false_eq_true, if_false]
  · intro h2 h1
    simp only [h2, h1, Bool.false_eq_true, if_false]

theorem blendKeyframeFloat_positionBlendFloat (fl : ℚ → ℚ) (ease : Nat → ℚ → ℚ)
    (k : TimelineKeyframe) (p : ℚ) (v : Working) :
    PositionBlendFloat fl ease k (localProgressFloat fl k p) v
      (blendKeyframeFloat fl ease k p v) := by
  unfold PositionBlendFloat blendKeyframeFloat
  refine ⟨?_, ?_⟩ <;> intro h <;> simp only [h, if_true] <;>
    exact blendPositionFloat_bezierLawFloat _ _ _ _ _ _ _

/-- With a rounding that changes nothing, the float scalar law is the law in
real arithmetic. -/
theorem scalarBlendFloat_exact (ease : Nat → ℚ → ℚ) (k : TimelineKeyframe) (p : ℚ)
    (v r : Working)
    (h : ScalarBlendFloat (fun q => q) ease k (localProgressFloat (fun q => q) k p) v r) :
    ScalarBlend ease k (localProgress k p) v r := by
  rw [localProgressFloat_exact] at h
  exact h

/-- With a rounding that changes nothing, the float Bezier law is the Bezier
polynomial in real arithmetic. -/
theorem bezierLawFloat_exact (enabled : Nat) (t2 c : ℚ) (cp1 cp2 target : Int) (r : ℚ)
    (h : BezierLawFloat (fun q => q) enabled t2 c cp1 cp2 target r) :
    BezierLaw enabled t2 c cp1 cp2 target r := by
  obtain ⟨h3, h2, h1⟩ := h
  refine ⟨?_, ?_, ?_⟩
  · intro hc2
    rw [h3 hc2]
    ring
  · intro hc2 hc1
    rw [h2 hc2 hc1]
    ring
  · intro hc2 hc1
    rw [h1 hc2 hc1]

theorem positionBlendFloat_exact (ease : Nat → ℚ → ℚ) (k : TimelineKeyframe) (p : ℚ)
    (v r : Working)
    (h : PositionBlendFloat (fun q => q) ease k (localProgressFloat (fun q => q) k p) v r) :
    PositionBlend ease k (localProgress k p) v r := by
  rw [localProgressFloat_exact] at h
  exact ⟨fun hx => bezierLawFloat_exact _ _ _ _ _ _ _ (h.1 hx),
    fun hy => bezierLawFloat_exact _ _ _ _ _ _ _ (h.2 hy)⟩

theorem captureBaseFloat_timeline (fl : ℚ → ℚ) (wt : WidgetTimeline) (o : LvObj) :
    (captureBaseFloat fl wt o).timeline = wt.timeline := by
  unfold captureBaseFloat
  split <;> rfl

theorem updateTimelinePropertiesFloat_written (fl : ℚ → ℚ) (ease : Nat → ℚ → ℚ)
    (wt : WidgetTimeline) (o : LvObj) (p : ℚ)
    (hne : p ≠ (captureBaseFloat fl wt o).lastTimelinePosition) :
    (updateTimelinePropertiesFloat fl ease wt o p).obj.styleX =
      toInt16 (roundf
        (scanKeyframesFloat fl ease p wt.timeline (baseValues (captureBaseFloat fl wt o))).x) ∧
    (updateTimelinePropertiesFloat fl ease wt o p).obj.styleWidth =
      toInt16 (roundf
        (scanKeyframesFloat fl ease p wt.timeline (baseValues (captureBaseFloat fl wt o))).w) := by
  unfold updateTimelinePropertiesFloat
  simp only [hne, if_false, captureBaseFloat_timeline]
  simp [styleWritesFloat, lv_obj_set_local_style_prop]

theorem updateTimelinePropertiesFloat_styleY (fl : ℚ → ℚ) (ease : Nat → ℚ → ℚ)
    (wt : WidgetTimeline) (o : LvObj) (p : ℚ)
    (hne : p ≠ (captureBaseFloat fl wt o).lastTimelinePosition) :
    (updateTimelinePropertiesFloat fl ease wt o p).obj.styleY =
      toInt16 (roundf
        (scanKeyframesFloat fl ease p wt.timeline (baseValues (captureBaseFloat fl wt o))).y) := by
  unfold updateTimelinePropertiesFloat
  simp only [hne, if_false, captureBaseFloat_timeline]
  simp [styleWritesFloat, lv_obj_set_local_style_prop]

/-- The control point 2147483647 is rounded to 2^31 when it is converted to
`float`: at position 1/2 the quadratic Bezier from 0 to 100 is the float 2^30,
written as y = 0, where exact arithmetic gives 1073741848.5, written as 25. -/
theorem updateTimelinePropertiesFloat_control_point_rounded :
    (updateTimelinePropertiesFloat binary32 linearEasing
      (registeredTimeline [controlPointKeyframe]) blankObj (1 / 2)).obj.styleY = 0 ∧
    (updateTimelineProperties linearEasing
      (registeredTimeline [controlPointKeyframe]) blankObj (1 / 2)).obj.styleY = 25 := by
  have hy : hasProperty controlPointKeyframe.enabledProperties WIDGET_TIMELINE_PROPERTY_Y
      = true := by decide
  have h2 : hasProperty controlPointKeyframe.enabledProperties WIDGET_TIMELINE_PROPERTY_CP2
      = false := by decide
  have h1 : hasProperty controlPointKeyframe.enabledProperties WIDGET_TIMELINE_PROPERTY_CP1
      = true := by decide
  have f1 : binary32 1 = 1 := by
    simpa using binary32_intCast 1 (by norm_num)
  have f25 : binary32 25 = 25 := by
    simpa using binary32_intCast 25 (by norm_num)
  have fhalf : binary32 (1 / 2) = 1 / 2 := by
    simpa using binary32_dyadic 1 1 (by norm_num) (by norm_num)
  have fhalf2 : binary32 (2⁻¹) = 2⁻¹ := by
    simpa using binary32_dyadic 1 1 (by norm_num) (by norm_num)
  have fq : binary32 (1 / 4) = 1 / 4 := by
    have := binary32_dyadic 1 2 (by norm_num) (by norm_num)
    norm_num at this
    exact this
  have fq2 : binary32 (4⁻¹) = 4⁻¹ := by
    rw [inv_eq_one_div]
    exact fq
  have fmax : binary32 2147483647 = 2147483648 := by
    rw [binary32_of_bounds _ 30 16777216 (by norm_num [abs_of_pos]) (by norm_num [abs_of_pos])
      (roundHalfEven_of_near _ _ (by norm_num [abs_lt]))]
    norm_num
  have fbig : binary32 1073741824 = 1073741824 := by
    have := binary32_of_scaled 1 30 (by norm_num) (by norm_num)
    norm_num at this
    exact this
  have fsum : binary32 1073741849 = 1073741824 := by
    rw [binary32_of_bounds _ 30 8388608 (by norm_num [abs_of_pos]) (by norm_num [abs_of_pos])
      (roundHalfEven_of_near _ _ (by norm_num [abs_lt]))]
    norm_num
  have hr : roundf (1073741824 : ℚ) = 1073741824 := by
    exact_mod_cast roundf_intCast 1073741824
  have hr2 : roundf ((2147483697 : ℚ) / 2) = 1073741849 := by
    unfold roundf
    rw [if_pos (by norm_num), Int.floor_eq_iff]
    constructor <;> norm_num
  constructor
  · rw [updateTimelinePropertiesFloat_styleY binary32 linearEasing _ blankObj (1 / 2)
      (by norm_num [captureBaseFloat, registeredTimeline])]
    have hb : (baseValues (captureBaseFloat binary32
        (registeredTimeline [controlPointKeyframe]) blankObj)).y = 0 := by
      norm_num [baseValues, captureBaseFloat, registeredTimeline, lv_obj_get_style_prop,
        blankObj, toInt16]
    have ht : localProgressFloat binary32 controlPointKeyframe (1 / 2) = 1 / 2 := by
      norm_num [localProgressFloat, controlPointKeyframe, blankKeyframe, fdiv, fsub, fhalf,
        fhalf2, f1]
    have hv : (scanKeyframesFloat binary32 linearEasing (1 / 2) [controlPointKeyframe]
        (baseValues (captureBaseFloat binary32
          (registeredTimeline [controlPointKeyframe]) blankObj))).y = 1073741824 := by
      rw [scanKeyframesFloat_cons_active binary32 linearEasing (1 / 2) controlPointKeyframe _ _
          (by norm_num [controlPointKeyframe]),
        ((blendKeyframeFloat_positionBlendFloat binary32 linearEasing controlPointKeyframe
          (1 / 2) _).2 hy).2.1 h2 h1, hb, ht]
      norm_num [controlPointKeyframe, blankKeyframe, linearEasing, fhalf, fhalf2, fq, fq2, f1,
        f25, fmax, fbig, fsum, binary32_zero]
    simp only [registeredTimeline] at hv ⊢
    rw [hv, hr]
    norm_num [toInt16]
  · rw [updateTimelineProperties_obj linearEasing _ blankObj (1 / 2)
      (by norm_num [captureBase, registeredTimeline])]
    have hb : (baseValues (captureBase
        (registeredTimeline [controlPointKeyframe]) blankObj)).y = 0 := by
      norm_num [baseValues, captureBase, registeredTimeline, lv_obj_get_style_prop,
        blankObj, toInt16]
    have hv : (scanKeyframes linearEasing (1 / 2) [controlPointKeyframe]
        (baseValues (captureBase
          (registeredTimeline [controlPointKeyframe]) blankObj))).y = 2147483697 / 2 := by
      rw [scanKeyframes_cons_active linearEasing (1 / 2) controlPointKeyframe _ _
          (by norm_num [controlPointKeyframe]),
        ((blendKeyframe_positionBlend linearEasing controlPointKeyframe
          (1 / 2) _).2 hy).2.1 h2 h1, hb]
      norm_num [localProgress, controlPointKeyframe, blankKeyframe, linearEasing]
    simp only [registeredTimeline] at hv ⊢
    rw [hv, hr2]
    norm_num [toInt16]

/-! ## Claims on the blend at the active keyframe -/

theorem wide_scenario_value :
    (baseValues (captureBaseFloat binary32 (registeredTimeline [wideKeyframe]) blankObj)).w = 0 ∧
    localProgressFloat binary32 wideKeyframe 7 = 9786709 / 16777216 ∧
    (scanKeyframesFloat binary32 linearEasing 7 [wideKeyframe]
      (baseValues (captureBaseFloat binary32 (registeredTimeline [wideKeyframe]) blankObj))).w
      = 16515071 / 524288 := by
  have hb : (baseValues
      (captureBaseFloat binary32 (registeredTimeline [wideKeyframe]) blankObj)).w = 0 := by
    norm_num [baseValues, captureBaseFloat, registeredTimeline, lv_obj_get_style_prop, blankObj,
      toInt16]
  have h7 : binary32 7 = 7 := by
    simpa using binary32_intCast 7 (by norm_num)
  have h12 : binary32 12 = 12 := by
    simpa using binary32_intCast 12 (by norm_num)
  have h54 : binary32 54 = 54 := by
    simpa using binary32_intCast 54 (by norm_num)
  have hq : binary32 (7 / 12) = 9786709 / 16777216 := by
    rw [binary32_of_bounds (7 / 12) (-1) 9786709 (by norm_num [abs_of_pos])
      (by norm_num [abs_of_pos]) (roundHalfEven_of_near _ _ (by norm_num [abs_lt]))]
    norm_num
  have hm : binary32 (264241143 / 8388608) = 16515071 / 524288 := by
    rw [binary32_of_bounds _ 4 16515071 (by norm_num [abs_of_pos])
      (by norm_num [abs_of_pos]) (roundHalfEven_of_near _ _ (by norm_num [abs_lt]))]
    norm_num
  have hx : binary32 (16515071 / 524288) = 16515071 / 524288 := by
    have := binary32_dyadic 16515071 19 (by norm_num) (by norm_num)
    norm_num at this
    exact this
  have ht : localProgressFloat binary32 wideKeyframe 7 = 9786709 / 16777216 := by
    norm_num [localProgressFloat, wideKeyframe, blankKeyframe, fdiv, fsub, h7, h12, hq]
  have hw : hasProperty wideKeyframe.enabledProperties WIDGET_TIMELINE_PROPERTY_WIDTH
      = true := by decide
  refine ⟨hb, ht, ?_⟩
  rw [scanKeyframesFloat_cons_active binary32 linearEasing 7 wideKeyframe [] _
      (by norm_num [wideKeyframe]),
    (blendKeyframeFloat_scalarBlendFloat binary32 linearEasing wideKeyframe 7 _).1 hw, hb, ht]
  norm_num [wideKeyframe, blankKeyframe, linearEasing, h54, hm, hx]

/-- C6 (counterexample). A keyframe over [0,12] widening to 54 with linear
easing, on a widget of width 0, at position 7.  The local progress is the float
nearest to 7/12, and the working width `fl (0 + fl (t * fl (54 - 0)))` is
16515071/524288 = 31.499998..., which is written as width 31.  The real number
`v + e(t) * (g - v)` is 63/2 at `t = 7/12`, which would be written as 32, and
it is not the working width at the float `t` either. -/
theorem scanKeyframesFloat_scalar_blend_counterexample :
    (wideKeyframe.start ≤ 7 ∧ 7 ≤ wideKeyframe.end_) ∧
    (scanKeyframesFloat binary32 linearEasing 7 [wideKeyframe]
      (baseValues (captureBaseFloat binary32 (registeredTimeline [wideKeyframe]) blankObj))).w
      = 16515071 / 524288 ∧
    ¬ ScalarBlend linearEasing wideKeyframe (localProgress wideKeyframe 7)
      (baseValues (captureBaseFloat binary32 (registeredTimeline [wideKeyframe]) blankObj))
      (scanKeyframesFloat binary32 linearEasing 7 [wideKeyframe]
        (baseValues (captureBaseFloat binary32 (registeredTimeline [wideKeyframe]) blankObj))) ∧
    ¬ ScalarBlend linearEasing wideKeyframe (localProgressFloat binary32 wideKeyframe 7)
      (baseValues (captureBaseFloat binary32 (registeredTimeline [wideKeyframe]) blankObj))
      (scanKeyframesFloat binary32 linearEasing 7 [wideKeyframe]
        (baseValues (captureBaseFloat binary32 (registeredTimeline [wideKeyframe]) blankObj))) ∧
    (updateTimelinePropertiesFloat binary32 linearEasing (registeredTimeline [wideKeyframe])
      blankObj 7).obj.styleWidth = 31 ∧
    toInt16 (roundf
      ((0 : ℚ) + linearEasing wideKeyframe.widthEasingFunc (localProgress wideKeyframe 7) *
        (wideKeyframe.width - 0))) = 32 := by
  obtain ⟨hb, ht, hv⟩ := wide_scenario_value
  have hw : hasProperty wideKeyframe.enabledProperties WIDGET_TIMELINE_PROPERTY_WIDTH
      = true := by decide
  have hr : roundf ((16515071 : ℚ) / 524288) = 31 := by
    unfold roundf
    rw [if_pos (by norm_num), Int.floor_eq_iff]
    constructor <;> norm_num
  have hr2 : roundf ((63 : ℚ) / 2) = 32 := by
    unfold roundf
    rw [if_pos (by norm_num), Int.floor_eq_iff]
    constructor <;> norm_num
  refine ⟨by norm_num [wideKeyframe], hv, ?_, ?_, ?_, ?_⟩
  · intro h
    have h1 := h.1 hw
    rw [hv, hb] at h1
    norm_num [localProgress, wideKeyframe, blankKeyframe, linearEasing] at h1
  · intro h
    have h1 := h.1 hw
    rw [hv, hb, ht] at h1
    norm_num [wideKeyframe, blankKeyframe, linearEasing] at h1
  · rw [(updateTimelinePropertiesFloat_written binary32 linearEasing _ blankObj 7
      (by norm_num [captureBaseFloat, registeredTimeline])).2]
    simp only [registeredTimeline]
    have hv2 := hv
    simp only [registeredTimeline] at hv2
    rw [hv2, hr]
    decide
  · have he : (0 : ℚ) + linearEasing wideKeyframe.widthEasingFunc (localProgress wideKeyframe 7) *
        (wideKeyframe.width - 0) = 63 / 2 := by
      norm_num [localProgress, wideKeyframe, blankKeyframe, linearEasing]
    rw [he, hr2]
    decide

/-- C6 (amended). When keyframe `k` is active (the first keyframe of the list
whose window contains the position), each enabled scalar property (width,
height, opacity, scale, rotate) with incoming working value `v` and target `g`
becomes `v + e(t) * (g - v)` evaluated in float arithmetic, that is
`fl (v + fl (e(t) * fl (g - v)))` for the float rounding `fl`, where `e` is that
property's own easing function and `t` is the float local progress
`fl (fl (position - start) / fl (end - start))` (1 when start == end).  This
holds for every rounding `fl`; for the rounding that changes nothing it is the
real number `v + e(t) * (g - v)`.  In the scenario of a single keyframe [0,1]
with only OPACITY enabled, target 1, base opacity 0 and linear easing, no
operation rounds in binary32 and the working opacity is 1/2 at position 1/2, 1
at position 1 and 1 at position 3/2. -/
theorem scanKeyframesFloat_scalar_blend (fl : ℚ → ℚ) (ease : Nat → ℚ → ℚ) (p : ℚ)
    (pre post : List TimelineKeyframe) (k : TimelineKeyframe) (base : Working)
    (hk : k.start ≤ p ∧ p ≤ k.end_)
    (hfirst : ∀ kf ∈ pre, ¬ (kf.start ≤ p ∧ p ≤ kf.end_)) :
    ScalarBlendFloat fl ease k (localProgressFloat fl k p)
      (scanKeyframesFloat fl ease p pre base)
      (scanKeyframesFloat fl ease p (pre ++ k :: post) base) ∧
    localProgressFloat fl k p =
      (if k.start = k.end_ then 1 else fl (fl (p - k.start) / fl (k.end_ - k.start))) ∧
    ScalarBlend ease k (localProgress k p)
      (scanKeyframesFloat (fun q => q) ease p pre base)
      (scanKeyframesFloat (fun q => q) ease p (pre ++ k :: post) base) ∧
    (baseValues (captureBaseFloat binary32 (registeredTimeline [fadeKeyframe]) blankObj)).opacity
      = 0 ∧
    (scanKeyframesFloat binary32 linearEasing (1 / 2) [fadeKeyframe]
      (baseValues (captureBaseFloat binary32 (registeredTimeline [fadeKeyframe]) blankObj))).opacity
      = 1 / 2 ∧
    (scanKeyframesFloat binary32 linearEasing 1 [fadeKeyframe]
      (baseValues (captureBaseFloat binary32 (registeredTimeline [fadeKeyframe]) blankObj))).opacity
      = 1 ∧
    (scanKeyframesFloat binary32 linearEasing (3 / 2) [fadeKeyframe]
      (baseValues (captureBaseFloat binary32 (registeredTimeline [fadeKeyframe]) blankObj))).opacity
      = 1 := by
  have htr : truncf (0 : ℚ) = 0 := by simp [truncf]
  have hb : (baseValues
      (captureBaseFloat binary32 (registeredTimeline [fadeKeyframe]) blankObj)).opacity = 0 := by
    norm_num [baseValues, captureBaseFloat, registeredTimeline, lv_obj_get_style_prop, blankObj,
      toInt16, htr, fdiv, int32ToFloat, binary32_zero]
  have hop : hasProperty fadeKeyframe.enabledProperties WIDGET_TIMELINE_PROPERTY_OPACITY
      = true := by decide
  have h1 : binary32 1 = 1 := by
    simpa using binary32_intCast 1 (by norm_num)
  have hhalf : binary32 (1 / 2) = 1 / 2 := by
    simpa using binary32_dyadic 1 1 (by norm_num) (by norm_num)
  have hhalf2 : binary32 (2⁻¹) = 2⁻¹ := by
    simpa using binary32_dyadic 1 1 (by norm_num) (by norm_num)
  refine ⟨?_, ?_, ?_, hb, ?_, ?_, ?_⟩
  · rw [scanKeyframesFloat_append fl ease p pre (k :: post) hfirst base,
      scanKeyframesFloat_cons_active fl ease p k post _ hk]
    exact blendKeyframeFloat_scalarBlendFloat fl ease k p _
  · rfl
  · rw [scanKeyframesFloat_append (fun q => q) ease p pre (k :: post) hfirst base,
      scanKeyframesFloat_cons_active (fun q => q) ease p k post _ hk]
    exact scalarBlendFloat_exact ease k p _ _
      (blendKeyframeFloat_scalarBlendFloat (fun q => q) ease k p _)
  · rw [scanKeyframesFloat_cons_active binary32 linearEasing (1 / 2) fadeKeyframe [] _
        (by norm_num [fadeKeyframe]),
      (blendKeyframeFloat_scalarBlendFloat binary32 linearEasing fadeKeyframe (1 / 2) _).2.2.1 hop,
      hb]
    norm_num [localProgressFloat, fdiv, fsub, fadeKeyframe, blankKeyframe, linearEasing, h1,
      hhalf, hhalf2]
  · rw [scanKeyframesFloat_cons_active binary32 linearEasing 1 fadeKeyframe [] _
        (by norm_num [fadeKeyframe]),
      (blendKeyframeFloat_scalarBlendFloat binary32 linearEasing fadeKeyframe 1 _).2.2.1 hop,
      hb]
    norm_num [localProgressFloat, fdiv, fsub, fadeKeyframe, blankKeyframe, linearEasing, h1]
  · have h1 : ¬ ((3 : ℚ) / 2 < fadeKeyframe.start) := by norm_num [fadeKeyframe]
    have h2 : ¬ ((3 : ℚ) / 2 ≥ fadeKeyframe.start ∧ (3 : ℚ) / 2 ≤ fadeKeyframe.end_) := by
      norm_num [fadeKeyframe]
    simp only [scanKeyframesFloat, h1, h2, if_false, snapKeyframe, hop, if_true]
    rfl

/-- C6 (witness): the float blend law at the fade keyframe [0,1], position
1/2, in binary32. -/
theorem scanKeyframesFloat_scalar_blend_witness :
    (fadeKeyframe.start ≤ 1 / 2 ∧ 1 / 2 ≤ fadeKeyframe.end_) ∧
    ScalarBlendFloat binary32 linearEasing fadeKeyframe
      (localProgressFloat binary32 fadeKeyframe (1 / 2))
      (scanKeyframesFloat binary32 linearEasing (1 / 2) []
        (baseValues (captureBaseFloat binary32 (registeredTimeline [fadeKeyframe]) blankObj)))
      (scanKeyframesFloat binary32 linearEasing (1 / 2) ([] ++ fadeKeyframe :: [])
        (baseValues (captureBaseFloat binary32 (registeredTimeline [fadeKeyframe]) blankObj))) :=
  ⟨by norm_num [fadeKeyframe],
    (scanKeyframesFloat_scalar_blend binary32 linearEasing (1 / 2) [] [] fadeKeyframe
      (baseValues (captureBaseFloat binary32 (registeredTimeline [fadeKeyframe]) blankObj))
      (by norm_num [fadeKeyframe]) (by simp)).1⟩

theorem bezier_scenario_value :
    (scanKeyframesFloat binary32 linearEasing (1 / 4) [bezierFirstKeyframe, bezierSecondKeyframe]
      (baseValues (captureBaseFloat binary32
        (registeredTimeline [bezierFirstKeyframe, bezierSecondKeyframe]) blankObj))).x = 50 := by
  have hb : (baseValues (captureBaseFloat binary32
      (registeredTimeline [bezierFirstKeyframe, bezierSecondKeyframe]) blankObj)).x = 0 := by
    norm_num [baseValues, captureBaseFloat, registeredTimeline, lv_obj_get_style_prop, blankObj,
      toInt16]
  have hx : hasProperty bezierFirstKeyframe.enabledProperties WIDGET_TIMELINE_PROPERTY_X
      = true := by decide
  have h2 : hasProperty bezierFirstKeyframe.enabledProperties WIDGET_TIMELINE_PROPERTY_CP2
      = false := by decide
  have h1 : hasProperty bezierFirstKeyframe.enabledProperties WIDGET_TIMELINE_PROPERTY_CP1
      = true := by decide
  have f1 : binary32 1 = 1 := by
    simpa using binary32_intCast 1 (by norm_num)
  have f25 : binary32 25 = 25 := by
    simpa using binary32_intCast 25 (by norm_num)
  have f50 : binary32 50 = 50 := by
    simpa using binary32_intCast 50 (by norm_num)
  have fhalf : binary32 (1 / 2) = 1 / 2 := by
    simpa using binary32_dyadic 1 1 (by norm_num) (by norm_num)
  have fhalf2 : binary32 (2⁻¹) = 2⁻¹ := by
    simpa using binary32_dyadic 1 1 (by norm_num) (by norm_num)
  have fq : binary32 (1 / 4) = 1 / 4 := by
    have := binary32_dyadic 1 2 (by norm_num) (by norm_num)
    norm_num at this
    exact this
  have fq2 : binary32 (4⁻¹) = 4⁻¹ := by
    rw [inv_eq_one_div]
    exact fq
  have ht : localProgressFloat binary32 bezierFirstKeyframe (1 / 4) = 1 / 2 := by
    norm_num [localProgressFloat, bezierFirstKeyframe, blankKeyframe, fdiv, fsub, fhalf, fhalf2,
      fq, fq2]
  rw [scanKeyframesFloat_cons_active binary32 linearEasing (1 / 4) bezierFirstKeyframe _ _
      (by norm_num [bezierFirstKeyframe]),
    ((blendKeyframeFloat_positionBlendFloat binary32 linearEasing bezierFirstKeyframe
      (1 / 4) _).1 hx).2.1 h2 h1, hb, ht]
  norm_num [bezierFirstKeyframe, blankKeyframe, linearEasing, fhalf, fhalf2, fq, fq2, f1, f25,
    f50, binary32_zero]

theorem shift_scenario_value :
    (baseValues (captureBaseFloat binary32 (registeredTimeline [shiftKeyframe]) shiftedObj)).x
      = 3 ∧
    localProgressFloat binary32 shiftKeyframe 1 = 13421773 / 134217728 ∧
    (scanKeyframesFloat binary32 linearEasing 1 [shiftKeyframe]
      (baseValues (captureBaseFloat binary32 (registeredTimeline [shiftKeyframe]) shiftedObj))).x
      = 14680063 / 4194304 := by
  have hb : (baseValues
      (captureBaseFloat binary32 (registeredTimeline [shiftKeyframe]) shiftedObj)).x = 3 := by
    norm_num [baseValues, captureBaseFloat, registeredTimeline, lv_obj_get_style_prop,
      shiftedObj, blankObj, toInt16]
  have hx : hasProperty shiftKeyframe.enabledProperties WIDGET_TIMELINE_PROPERTY_X
      = true := by decide
  have h2 : hasProperty shiftKeyframe.enabledProperties WIDGET_TIMELINE_PROPERTY_CP2
      = false := by decide
  have h1 : hasProperty shiftKeyframe.enabledProperties WIDGET_TIMELINE_PROPERTY_CP1
      = false := by decide
  have f1 : binary32 1 = 1 := by
    simpa using binary32_intCast 1 (by norm_num)
  have f10 : binary32 10 = 10 := by
    simpa using binary32_intCast 10 (by norm_num)
  have ft : binary32 (1 / 10) = 13421773 / 134217728 := by
    rw [binary32_of_bounds (1 / 10) (-4) 13421773 (by norm_num [abs_of_pos])
      (by norm_num [abs_of_pos]) (roundHalfEven_of_near _ _ (by norm_num [abs_lt]))]
    norm_num
  have ft2 : binary32 (10⁻¹) = 13421773 / 134217728 := by
    rw [← ft]
    norm_num
  have fu : binary32 (120795955 / 134217728) = 7549747 / 8388608 := by
    rw [binary32_of_bounds _ (-1) 15099494 (by norm_num [abs_of_pos])
      (by norm_num [abs_of_pos]) (roundHalfEven_of_near _ _ (by norm_num [abs_lt]))]
    norm_num
  have fup : binary32 (22649241 / 8388608) = 2831155 / 1048576 := by
    rw [binary32_of_bounds _ 1 11324620 (by norm_num [abs_of_pos])
      (by norm_num [abs_of_pos])
      (by rw [roundHalfEven_tie _ 11324620 (by norm_num)]; decide)]
    norm_num
  have ftp : binary32 (13421773 / 16777216) = 13421773 / 16777216 := by
    have := binary32_dyadic 13421773 24 (by norm_num) (by norm_num)
    norm_num at this
    exact this
  have fs : binary32 (58720253 / 16777216) = 14680063 / 4194304 := by
    rw [binary32_of_bounds _ 1 14680063 (by norm_num [abs_of_pos])
      (by norm_num [abs_of_pos]) (roundHalfEven_of_near _ _ (by norm_num [abs_lt]))]
    norm_num
  have ht : localProgressFloat binary32 shiftKeyframe 1 = 13421773 / 134217728 := by
    norm_num [localProgressFloat, shiftKeyframe, blankKeyframe, fdiv, fsub, f1, f10, ft, ft2]
  refine ⟨hb, ht, ?_⟩
  rw [scanKeyframesFloat_cons_active binary32 linearEasing 1 shiftKeyframe [] _
      (by norm_num [shiftKeyframe]),
    ((blendKeyframeFloat_positionBlendFloat binary32 linearEasing shiftKeyframe 1 _).1 hx).2.2
      h2 h1, hb, ht]
  norm_num [shiftKeyframe, blankKeyframe, linearEasing, fu, fup, ftp, fs]

/-- C7 (counterexample). In the scenario of the claim (keyframes [0,1/2] toward
x = 100 and [1/2,1] toward x = 0, both with cp1x = 50 and CP1 only, base x = 0,
linear easing) the working x at position 1/4 is 50, not 37.5: the quadratic
Bezier at t = 1/2 is (1/4)*0 + 2*(1/4)*50 + (1/4)*100 = 50, and no operation
rounds.  And the blend is a float computation: for a keyframe over [0,10] moving
x from 3 to 8 by the linear blend, at position 1, the eased progress is the float
nearest to 1/10 and the working x `fl (fl (fl (1 - t2) * 3) + fl (t2 * 8))` is
14680063/4194304 = 3.4999997..., written as x = 3, where the real number
`(1 - t2) * 3 + t2 * 8` is 7/2 at `t2 = 1/10`, which would be written as 4, and
is not the working x at the float `t2` either. -/
theorem scanKeyframesFloat_position_blend_counterexample :
    (scanKeyframesFloat binary32 linearEasing (1 / 4) [bezierFirstKeyframe, bezierSecondKeyframe]
      (baseValues (captureBaseFloat binary32
        (registeredTimeline [bezierFirstKeyframe, bezierSecondKeyframe]) blankObj))).x
      ≠ 75 / 2 ∧
    (shiftKeyframe.start ≤ 1 ∧ 1 ≤ shiftKeyframe.end_) ∧
    (scanKeyframesFloat binary32 linearEasing 1 [shiftKeyframe]
      (baseValues (captureBaseFloat binary32 (registeredTimeline [shiftKeyframe]) shiftedObj))).x
      = 14680063 / 4194304 ∧
    ¬ BezierLaw shiftKeyframe.enabledProperties
      (linearEasing shiftKeyframe.xEasingFunc (localProgress shiftKeyframe 1))
      (baseValues (captureBaseFloat binary32 (registeredTimeline [shiftKeyframe]) shiftedObj)).x
      shiftKeyframe.cp1x shiftKeyframe.cp2x shiftKeyframe.x
      (scanKeyframesFloat binary32 linearEasing 1 [shiftKeyframe]
        (baseValues
          (captureBaseFloat binary32 (registeredTimeline [shiftKeyframe]) shiftedObj))).x ∧
    ¬ BezierLaw shiftKeyframe.enabledProperties
      (linearEasing shiftKeyframe.xEasingFunc (localProgressFloat binary32 shiftKeyframe 1))
      (baseValues (captureBaseFloat binary32 (registeredTimeline [shiftKeyframe]) shiftedObj)).x
      shiftKeyframe.cp1x shiftKeyframe.cp2x shiftKeyframe.x
      (scanKeyframesFloat binary32 linearEasing 1 [shiftKeyframe]
        (baseValues
          (captureBaseFloat binary32 (registeredTimeline [shiftKeyframe]) shiftedObj))).x ∧
    (updateTimelinePropertiesFloat binary32 linearEasing (registeredTimeline [shiftKeyframe])
      shiftedObj 1).obj.styleX = 3 ∧
    toInt16 (roundf
      ((1 - linearEasing shiftKeyframe.xEasingFunc (localProgress shiftKeyframe 1)) * 3 +
        linearEasing shiftKeyframe.xEasingFunc (localProgress shiftKeyframe 1) *
          shiftKeyframe.x)) = 4 := by
  obtain ⟨hb, ht, hv⟩ := shift_scenario_value
  have h2 : hasProperty shiftKeyframe.enabledProperties WIDGET_TIMELINE_PROPERTY_CP2
      = false := by decide
  have h1 : hasProperty shiftKeyframe.enabledProperties WIDGET_TIMELINE_PROPERTY_CP1
      = false := by decide
  have hr : roundf ((14680063 : ℚ) / 4194304) = 3 := by
    unfold roundf
    rw [if_pos (by norm_num), Int.floor_eq_iff]
    constructor <;> norm_num
  have hr2 : roundf ((7 : ℚ) / 2) = 4 := by
    unfold roundf
    rw [if_pos (by norm_num), Int.floor_eq_iff]
    constructor <;> norm_num
  refine ⟨?_, by norm_num [shiftKeyframe], hv, ?_, ?_, ?_, ?_⟩
  · rw [bezier_scenario_value]
    norm_num
  · intro h
    have h3 := h.2.2 h2 h1
    rw [hv, hb] at h3
    norm_num [localProgress, shiftKeyframe, blankKeyframe, linearEasing] at h3
  · intro h
    have h3 := h.2.2 h2 h1
    rw [hv, hb, ht] at h3
    norm_num [shiftKeyframe, blankKeyframe, linearEasing] at h3
  · rw [(updateTimelinePropertiesFloat_written binary32 linearEasing _ shiftedObj 1
      (by norm_num [captureBaseFloat, registeredTimeline])).1]
    simp only [registeredTimeline]
    have hv2 := hv
    simp only [registeredTimeline] at hv2
    rw [hv2, hr]
    decide
  · have he : (1 - linearEasing shiftKeyframe.xEasingFunc (localProgress shiftKeyframe 1)) * 3 +
        linearEasing shiftKeyframe.xEasingFunc (localProgress shiftKeyframe 1) *
          shiftKeyframe.x = 7 / 2 := by
      norm_num [localProgress, shiftKeyframe, blankKeyframe, linearEasing]
    rw [he, hr2]
    decide

/-- C7 (amended). When keyframe `k` is active (the first keyframe of the list
whose window contains the position) and enables x (respectively y), with eased
progress `t2` and incoming working value `c`: if the CP2 bit is set the new
value is the cubic Bezier through `c`, cp1, cp2 and the target; else if the CP1
bit is set it is the quadratic Bezier through `c`, cp1 and the target; else it
is `(1 - t2) * c + t2 * target`; each evaluated in float arithmetic as the source
writes it (`BezierLawFloat`: `1 - t2` rounded, every product and sum taken from
left to right and rounded, the `int32_t` control points rounded to float), for
every rounding `fl`.  For the rounding that changes nothing these are the real
polynomials.  In the scenario of keyframes [0,1/2] (target x = 100, cp1x = 50, CP1
only) and [1/2,1] (target x = 0, cp1x = 50, CP1 only) with base x = 0 and linear
easing, no operation rounds in binary32 and the working x at position 1/4 is
50. -/
theorem scanKeyframesFloat_position_blend (fl : ℚ → ℚ) (ease : Nat → ℚ → ℚ) (p : ℚ)
    (pre post : List TimelineKeyframe) (k : TimelineKeyframe) (base : Working)
    (hk : k.start ≤ p ∧ p ≤ k.end_)
    (hfirst : ∀ kf ∈ pre, ¬ (kf.start ≤ p ∧ p ≤ kf.end_)) :
    PositionBlendFloat fl ease k (localProgressFloat fl k p)
      (scanKeyframesFloat fl ease p pre base)
      (scanKeyframesFloat fl ease p (pre ++ k :: post) base) ∧
    PositionBlend ease k (localProgress k p)
      (scanKeyframesFloat (fun q => q) ease p pre base)
      (scanKeyframesFloat (fun q => q) ease p (pre ++ k :: post) base) ∧
    (scanKeyframesFloat binary32 linearEasing (1 / 4) [bezierFirstKeyframe, bezierSecondKeyframe]
      (baseValues (captureBaseFloat binary32
        (registeredTimeline [bezierFirstKeyframe, bezierSecondKeyframe]) blankObj))).x = 50 := by
  refine ⟨?_, ?_, bezier_scenario_value⟩
  · rw [scanKeyframesFloat_append fl ease p pre (k :: post) hfirst base,
      scanKeyframesFloat_cons_active fl ease p k post _ hk]
    exact blendKeyframeFloat_positionBlendFloat fl ease k p _
  · rw [scanKeyframesFloat_append (fun q => q) ease p pre (k :: post) hfirst base,
      scanKeyframesFloat_cons_active (fun q => q) ease p k post _ hk]
    exact positionBlendFloat_exact ease k p _ _
      (blendKeyframeFloat_positionBlendFloat (fun q => q) ease k p _)

/-- C7 (witness): the float position blend law at the first keyframe of the
Bezier scenario, position 1/4, in binary32. -/
theorem scanKeyframesFloat_position_blend_witness :
    (bezierFirstKeyframe.start ≤ 1 / 4 ∧ 1 / 4 ≤ bezierFirstKeyframe.end_) ∧
    PositionBlendFloat binary32 linearEasing bezierFirstKeyframe
      (localProgressFloat binary32 bezierFirstKeyframe (1 / 4))
      (scanKeyframesFloat binary32 linearEasing (1 / 4) []
        (baseValues (captureBaseFloat binary32
          (registeredTimeline [bezierFirstKeyframe, bezierSecondKeyframe]) blankObj)))
      (scanKeyframesFloat binary32 linearEasing (1 / 4)
        ([] ++ bezierFirstKeyframe :: [bezierSecondKeyframe])
        (baseValues (captureBaseFloat binary32
          (registeredTimeline [bezierFirstKeyframe, bezierSecondKeyframe]) blankObj))) :=
  ⟨by norm_num [bezierFirstKeyframe],
    (scanKeyframesFloat_position_blend binary32 linearEasing (1 / 4) [] [bezierSecondKeyframe]
      bezierFirstKeyframe
      (baseValues (captureBaseFloat binary32
        (registeredTimeline [bezierFirstKeyframe, bezierSecondKeyframe]) blankObj))
      (by norm_num [bezierFirstKeyframe]) (by simp)).1⟩

/-- C1 (witness): the overlapping keyframes at position 5; dropping the keyframe
after the active one changes neither the widget nor the toolkit calls. -/
theorem updateTimelineProperties_first_active_wins_witness :
    (overlapFirstKeyframe.start ≤ 5 ∧ 5 ≤ overlapFirstKeyframe.end_) ∧
    (updateTimelineProperties linearEasing
      { registeredTimeline [] with timeline := [] ++ overlapFirstKeyframe :: [overlapFinalKeyframe] }
      blankObj 5).obj =
    (updateTimelineProperties linearEasing
      { registeredTimeline [] with timeline := [] ++ overlapFirstKeyframe :: [] }
      blankObj 5).obj ∧
    (updateTimelineProperties linearEasing
      { registeredTimeline [] with timeline := [] ++ overlapFirstKeyframe :: [overlapFinalKeyframe] }
      blankObj 5).calls =
    (updateTimelineProperties linearEasing
      { registeredTimeline [] with timeline := [] ++ overlapFirstKeyframe :: [] }
      blankObj 5).calls :=
  ⟨by norm_num [overlapFirstKeyframe],
    (updateTimelineProperties_first_active_wins linearEasing (registeredTimeline []) blankObj 5
      [] [overlapFinalKeyframe] [] overlapFirstKeyframe
      (by norm_num [overlapFirstKeyframe]) (by simp)).1,
    (updateTimelineProperties_first_active_wins linearEasing (registeredTimeline []) blankObj 5
      [] [overlapFinalKeyframe] [] overlapFirstKeyframe
      (by norm_num [overlapFirstKeyframe]) (by simp)).2.1⟩

/-! ## Claims on the update-task dispatcher -/

theorem toolkitCall_lvCalls (tk : Toolkit) (st : Runtime) (c : LvCall) :
    (toolkitCall tk st c).lvCalls = st.lvCalls ++ [c] := rfl

theorem doUpdateTasks_split (ev : FlowEvaluator) (tk : Toolkit) (st : Runtime)
    (pre post : List UpdateTask) (t : UpdateTask) (hq : st.updateTasks = pre ++ t :: post) :
    doUpdateTasks ev tk st =
      post.foldl (doUpdateTask ev tk) (doUpdateTask ev tk (pre.foldl (doUpdateTask ev tk) st) t) := by
  unfold doUpdateTasks
  rw [hq, List.foldl_append, List.foldl_cons]

/-- C8 (failing input). An arc that already shows 5, a queued arc-value task and
a flow value of 5: `doUpdateTasks` still calls `lv_arc_set_value(obj, 5)`,
because the arc branch reads the current value with `lv_bar_get_value`, not
`lv_arc_get_value`. -/
theorem doUpdateTasks_arc_value_not_suppressed :
    constEvaluator.evalIntegerProperty 0 0 0 = arcObj.arcValue ∧
    (singleTaskRuntime arcObj .UPDATE_TASK_TYPE_ARC_VALUE).updateTasks =
      [{ updateTaskType := .UPDATE_TASK_TYPE_ARC_VALUE, obj := 1, page_index := 0,
         component_index := 0, property_index := 0 }] ∧
    (doUpdateTasks constEvaluator quietToolkit
      (singleTaskRuntime arcObj .UPDATE_TASK_TYPE_ARC_VALUE)).lvCalls =
      [LvCall.lv_arc_set_value 1 5] := by
  refine ⟨rfl, rfl, ?_⟩
  simp [doUpdateTasks, singleTaskRuntime, addUpdateTask, doUpdateTask, applyUpdateTask,
    toolkitCall, constEvaluator, arcObj, blankObj]

/-- C9. For an update task of kind `UPDATE_TASK_TYPE_SLIDER_VALUE` anywhere in
the queue, the drain reaches it after the tasks before it, and its iteration
calls `lv_slider_set_value` once, with the evaluated integer, when that integer
differs from the slider's current value, and makes no toolkit call when the two
are equal. -/
theorem doUpdateTasks_slider_value (ev : FlowEvaluator) (tk : Toolkit) (st : Runtime)
    (pre post : List UpdateTask) (t : UpdateTask)
    (hq : st.updateTasks = pre ++ t :: post)
    (hty : t.updateTaskType = .UPDATE_TASK_TYPE_SLIDER_VALUE) :
    doUpdateTasks ev tk st =
      post.foldl (doUpdateTask ev tk)
        (doUpdateTask ev tk (pre.foldl (doUpdateTask ev tk) st) t) ∧
    (ev.evalIntegerProperty t.page_index t.component_index t.property_index =
        ((pre.foldl (doUpdateTask ev tk) st).objs t.obj).sliderValue →
      (doUpdateTask ev tk (pre.foldl (doUpdateTask ev tk) st) t).lvCalls =
        (pre.foldl (doUpdateTask ev tk) st).lvCalls) ∧
    (ev.evalIntegerProperty t.page_index t.component_index t.property_index ≠
        ((pre.foldl (doUpdateTask ev tk) st).objs t.obj).sliderValue →
      (doUpdateTask ev tk (pre.foldl (doUpdateTask ev tk) st) t).lvCalls =
        (pre.foldl (doUpdateTask ev tk) st).lvCalls ++
          [LvCall.lv_slider_set_value t.obj
            (ev.evalIntegerProperty t.page_index t.component_index t.property_index)]) := by
  refine ⟨doUpdateTasks_split ev tk st pre post t hq, ?_, ?_⟩
  · intro heq
    simp [doUpdateTask, applyUpdateTask, hty, heq]
  · intro hne
    simp [doUpdateTask, applyUpdateTask, hty, hne, toolkitCall]

/-- C9 (witness): a slider showing 5 and a flow value of 5; the iteration of the
single queued slider-value task makes no toolkit call. -/
theorem doUpdateTasks_slider_value_witness :
    (singleTaskRuntime sliderObj .UPDATE_TASK_TYPE_SLIDER_VALUE).updateTasks =
      [] ++ { updateTaskType := .UPDATE_TASK_TYPE_SLIDER_VALUE, obj := 1, page_index := 0,
              component_index := 0, property_index := 0 } :: [] ∧
    (doUpdateTasks constEvaluator quietToolkit
      (singleTaskRuntime sliderObj .UPDATE_TASK_TYPE_SLIDER_VALUE)).lvCalls = [] := by
  have h := doUpdateTasks_slider_value constEvaluator quietToolkit
    (singleTaskRuntime sliderObj .UPDATE_TASK_TYPE_SLIDER_VALUE) [] []
    { updateTaskType := .UPDATE_TASK_TYPE_SLIDER_VALUE, obj := 1, page_index := 0,
      component_index := 0, property_index := 0 } rfl rfl
  refine ⟨rfl, ?_⟩
  rw [h.1]
  exact h.2.1 rfl

/-- C10 (failing input). A textarea-text task writes "on" into widget 1, and the
toolkit sends `LV_EVENT_VALUE_CHANGED` from inside `lv_textarea_set_text`.  The
text binding registered on the widget sees the guard and forwards nothing, but
`flow_event_unchecked_callback`, also registered on it, does not read the guard
and calls `flowPropagateValue`.  The same happens for a checked-state task with
`flow_event_checked_callback` under a toolkit that re-fires the event from
every setter. -/
theorem doUpdateTasks_checked_callbacks_not_guarded :
    ((doUpdateTasks constEvaluator textareaToolkit
        (singleTaskRuntime blankObj .UPDATE_TASK_TYPE_TEXTAREA_TEXT)).lvCalls =
        [LvCall.lv_textarea_set_text 1 "on"] ∧
      (doUpdateTasks constEvaluator textareaToolkit
        (singleTaskRuntime blankObj .UPDATE_TASK_TYPE_TEXTAREA_TEXT)).flowCalls =
        [FlowCall.flowPropagateValue 0 0 2]) ∧
    ((doUpdateTasks constEvaluator refiringToolkit
        (singleTaskRuntime blankObj .UPDATE_TASK_TYPE_CHECKED_STATE)).lvCalls =
        [LvCall.lv_obj_add_state 1 .LV_STATE_CHECKED] ∧
      (doUpdateTasks constEvaluator refiringToolkit
        (singleTaskRuntime blankObj .UPDATE_TASK_TYPE_CHECKED_STATE)).flowCalls =
        [FlowCall.flowPropagateValue 0 0 2]) := by
  refine ⟨⟨?_, ?_⟩, ⟨?_, ?_⟩⟩ <;>
  simp [doUpdateTasks, singleTaskRuntime, addUpdateTask, doUpdateTask, applyUpdateTask,
    toolkitCall, constEvaluator, blankObj, deliverValueChanged, refiringToolkit, textareaToolkit,
    LvCall.target, LvCall.apply, FlowEventHandler.run, flow_event_checked_state_changed_callback,
    flow_event_textarea_text_changed_callback, flow_event_unchecked_callback,
    flow_event_checked_callback, flow_event_callback, guardAllows]

/-! ## Claims on the value-changed handlers -/

theorem guardAllows_iff (g : Option UpdateTask) (w : ObjId) :
    guardAllows g w = true ↔ (g = none ∨ ∃ t, g = some t ∧ t.obj ≠ w) := by
  cases g with
  | none => simp [guardAllows]
  | some t => simp [guardAllows]

/-- C11. The guard test passes exactly when the guard is empty or the guarded
task's widget is not the event target.  Each of the nine value-changed handlers,
on `LV_EVENT_VALUE_CHANGED` from widget `e.target`, forwards exactly one
assignment of the widget's current value (text, checked state, arc value, bar
value, bar start value, dropdown selection, roller selection, slider value,
slider left value) to the bound flow property when the guard test passes, and
forwards nothing when it does not or when the event has any other code. -/
theorem value_changed_handlers_forward_iff_guard_allows (g : Option UpdateTask)
    (objs : ObjId → LvObj) (e : lv_event_t) :
    (guardAllows g e.target = true ↔ (g = none ∨ ∃ t, g = some t ∧ t.obj ≠ e.target)) ∧
    flow_event_textarea_text_changed_callback g objs e =
      (if e.code = .LV_EVENT_VALUE_CHANGED ∧ guardAllows g e.target = true then
        [FlowCall.assignStringProperty e.user_data.page_index e.user_data.component_index
          e.user_data.output_or_property_index (objs e.target).textareaText]
      else []) ∧
    flow_event_checked_state_changed_callback g objs e =
      (if e.code = .LV_EVENT_VALUE_CHANGED ∧ guardAllows g e.target = true then
        [FlowCall.assignBooleanProperty e.user_data.page_index e.user_data.component_index
          e.user_data.output_or_property_index (objs e.target).stateChecked]
      else []) ∧
    flow_event_arc_value_changed_callback g objs e =
      (if e.code = .LV_EVENT_VALUE_CHANGED ∧ guardAllows g e.target = true then
        [FlowCall.assignIntegerProperty e.user_data.page_index e.user_data.component_index
          e.user_data.output_or_property_index (objs e.target).arcValue]
      else []) ∧
    flow_event_bar_value_changed_callback g objs e =
      (if e.code = .LV_EVENT_VALUE_CHANGED ∧ guardAllows g e.target = true then
        [FlowCall.assignIntegerProperty e.user_data.page_index e.user_data.component_index
          e.user_data.output_or_property_index (objs e.target).barValue]
      else []) ∧
    flow_event_bar_value_start_changed_callback g objs e =
      (if e.code = .LV_EVENT_VALUE_CHANGED ∧ guardAllows g e.target = true then
        [FlowCall.assignIntegerProperty e.user_data.page_index e.user_data.component_index
          e.user_data.output_or_property_index (objs e.target).barStartValue]
      else []) ∧
    flow_event_dropdown_selected_changed_callback g objs e =
      (if e.code = .LV_EVENT_VALUE_CHANGED ∧ guardAllows g e.target = true then
        [FlowCall.assignIntegerProperty e.user_data.page_index e.user_data.component_index
          e.user_data.output_or_property_index (objs e.target).dropdownSelected]
      else []) ∧
    flow_event_roller_selected_changed_callback g objs e =
      (if e.code = .LV_EVENT_VALUE_CHANGED ∧ guardAllows g e.target = true then
        [FlowCall.assignIntegerProperty e.user_data.page_index e.user_data.component_index
          e.user_data.output_or_property_index (objs e.target).rollerSelected]
      else []) ∧
    flow_event_slider_value_changed_callback g objs e =
      (if e.code = .LV_EVENT_VALUE_CHANGED ∧ guardAllows g e.target = true then
        [FlowCall.assignIntegerProperty e.user_data.page_index e.user_data.component_index
          e.user_data.output_or_property_index (objs e.target).sliderValue]
      else []) ∧
    flow_event_slider_value_left_changed_callback g objs e =
      (if e.code = .LV_EVENT_VALUE_CHANGED ∧ guardAllows g e.target = true then
        [FlowCall.assignIntegerProperty e.user_data.page_index e.user_data.component_index
          e.user_data.output_or_property_index (objs e.target).sliderLeftValue]
      else []) := by
  refine ⟨guardAllows_iff g e.target, ?_, ?_, ?_, ?_, ?_, ?_, ?_, ?_, ?_⟩
  · unfold flow_event_textarea_text_changed_callback
    by_cases hc : e.code = .LV_EVENT_VALUE_CHANGED <;>
      by_cases hg : guardAllows g e.target = true <;> simp [hc, hg]
  · unfold flow_event_checked_state_changed_callback
    by_cases hc : e.code = .LV_EVENT_VALUE_CHANGED <;>
      by_cases hg : guardAllows g e.target = true <;> simp [hc, hg]
  · unfold flow_event_arc_value_changed_callback
    by_cases hc : e.code = .LV_EVENT_VALUE_CHANGED <;>
      by_cases hg : guardAllows g e.target = true <;> simp [hc, hg]
  · unfold flow_event_bar_value_changed_callback
    by_cases hc : e.code = .LV_EVENT_VALUE_CHANGED <;>
      by_cases hg : guardAllows g e.target = true <;> simp [hc, hg]
  · unfold flow_event_bar_value_start_changed_callback
    by_cases hc : e.code = .LV_EVENT_VALUE_CHANGED <;>
      by_cases hg : guardAllows g e.target = true <;> simp [hc, hg]
  · unfold flow_event_dropdown_selected_changed_callback
    by_cases hc : e.code = .LV_EVENT_VALUE_CHANGED <;>
      by_cases hg : guardAllows g e.target = true <;> simp [hc, hg]
  · unfold flow_event_roller_selected_changed_callback
    by_cases hc : e.code = .LV_EVENT_VALUE_CHANGED <;>
      by_cases hg : guardAllows g e.target = true <;> simp [hc, hg]
  · unfold flow_event_slider_value_changed_callback
    by_cases hc : e.code = .LV_EVENT_VALUE_CHANGED <;>
      by_cases hg : guardAllows g e.target = true <;> simp [hc, hg]
  · unfold flow_event_slider_value_left_changed_callback
    by_cases hc : e.code = .LV_EVENT_VALUE_CHANGED <;>
      by_cases hg : guardAllows g e.target = true <;> simp [hc, hg]

/-! ## The dispatcher step by step -/

theorem applyUpdateTask_updateTasks (ev : FlowEvaluator) (tk : Toolkit) (st : Runtime)
    (t : UpdateTask) : (applyUpdateTask ev tk st t).updateTasks = st.updateTasks := by
  obtain ⟨kind, obj, p, c, i⟩ := t
  cases kind <;> simp only [applyUpdateTask] <;> repeat' split
  all_goals rfl

theorem doUpdateTask_updateTasks (ev : FlowEvaluator) (tk : Toolkit) (st : Runtime)
    (t : UpdateTask) : (doUpdateTask ev tk st t).updateTasks = st.updateTasks := by
  unfold doUpdateTask
  simp only [applyUpdateTask_updateTasks]

theorem foldl_doUpdateTask_updateTasks (ev : FlowEvaluator) (tk : Toolkit)
    (ts : List UpdateTask) (st : Runtime) :
    (ts.foldl (doUpdateTask ev tk) st).updateTasks = st.updateTasks := by
  induction ts generalizing st with
  | nil => rfl
  | cons t ts ih => rw [List.foldl_cons, ih, doUpdateTask_updateTasks]

theorem doUpdateTask_lvCalls_eq_iff (ev : FlowEvaluator) (tk : Toolkit) (st : Runtime)
    (t : UpdateTask) :
    (doUpdateTask ev tk st t).lvCalls = st.lvCalls ↔
      t.evaluated ev = t.updateTaskType.comparedProperty (st.objs t.obj) := by
  obtain ⟨kind, obj, p, c, i⟩ := t
  cases kind <;>
    simp only [doUpdateTask, applyUpdateTask, UpdateTask.evaluated,
      UpdateTaskType.comparedProperty, UpdateTaskType.boundProperty] <;>
    repeat' split
  all_goals simp_all [toolkitCall]

theorem doUpdateTask_lvCalls_cases (ev : FlowEvaluator) (tk : Toolkit) (st : Runtime)
    (t : UpdateTask) :
    (doUpdateTask ev tk st t).lvCalls = st.lvCalls ∨
      ∃ c : LvCall, c.target = t.obj ∧ (doUpdateTask ev tk st t).lvCalls = st.lvCalls ++ [c] := by
  obtain ⟨kind, obj, p, c, i⟩ := t
  cases kind <;> simp only [doUpdateTask, applyUpdateTask] <;> repeat' split
  all_goals first
    | exact Or.inl rfl
    | (refine Or.inr ⟨_, ?_, rfl⟩; rfl)

theorem doUpdateTask_boundProperty (ev : FlowEvaluator) (tk : Toolkit) (st : Runtime)
    (t : UpdateTask) (hk : t.updateTaskType ≠ .UPDATE_TASK_TYPE_ARC_VALUE) :
    t.updateTaskType.boundProperty ((doUpdateTask ev tk st t).objs t.obj) = t.evaluated ev := by
  obtain ⟨kind, obj, p, c, i⟩ := t
  cases kind <;>
    simp only [doUpdateTask, applyUpdateTask, UpdateTask.evaluated,
      UpdateTaskType.boundProperty] <;>
    repeat' split
  all_goals simp_all [toolkitCall, LvCall.target, LvCall.apply]

theorem doUpdateTask_boundProperty_frame (ev : FlowEvaluator) (tk : Toolkit) (st : Runtime)
    (t : UpdateTask) (kind : UpdateTaskType) (w : ObjId)
    (h : t.updateTaskType ≠ kind ∨ t.obj ≠ w) :
    kind.boundProperty ((doUpdateTask ev tk st t).objs w) = kind.boundProperty (st.objs w) := by
  obtain ⟨tkind, obj, p, c, i⟩ := t
  by_cases hw : obj = w
  · subst hw
    have hne : tkind ≠ kind := by
      rcases h with h | h
      · exact h
      · exact absurd rfl h
    cases tkind <;> cases kind <;>
      simp only [doUpdateTask, applyUpdateTask, UpdateTaskType.boundProperty] <;>
      repeat' split
    all_goals simp_all [toolkitCall, LvCall.target, LvCall.apply]
  · cases tkind <;>
      simp only [doUpdateTask, applyUpdateTask] <;>
      repeat' split
    all_goals simp [toolkitCall, LvCall.target, Function.update_noteq (Ne.symm hw)]

theorem foldl_doUpdateTask_boundProperty_frame (ev : FlowEvaluator) (tk : Toolkit)
    (kind : UpdateTaskType) (w : ObjId) (ts : List UpdateTask)
    (h : ∀ t ∈ ts, t.updateTaskType ≠ kind ∨ t.obj ≠ w) (st : Runtime) :
    kind.boundProperty ((ts.foldl (doUpdateTask ev tk) st).objs w) =
      kind.boundProperty (st.objs w) := by
  induction ts generalizing st with
  | nil => rfl
  | cons t ts ih =>
    rw [List.foldl_cons, ih (fun t2 h2 => h t2 (List.mem_cons_of_mem _ h2)),
      doUpdateTask_boundProperty_frame ev tk st t kind w (h t (List.mem_cons_self _ _))]

/-! ## Claims on the update-task queue -/

/-- C12 (counterexample). A label task is queued once.  After a first drain the
queue still holds it, and a second drain with no `addUpdateTask` in between
evaluates its property again: the flow text having changed from "on" to "off",
the second drain writes "off". -/
theorem doUpdateTasks_queue_not_emptied :
    (doUpdateTasks constEvaluator quietToolkit
      (singleTaskRuntime blankObj .UPDATE_TASK_TYPE_LABEL_TEXT)).updateTasks ≠ [] ∧
    (doUpdateTasks offEvaluator quietToolkit
      (doUpdateTasks constEvaluator quietToolkit
        (singleTaskRuntime blankObj .UPDATE_TASK_TYPE_LABEL_TEXT))).lvCalls =
      [LvCall.lv_label_set_text 1 "on", LvCall.lv_label_set_text 1 "off"] := by
  constructor
  · have h := foldl_doUpdateTask_updateTasks constEvaluator quietToolkit
      (singleTaskRuntime blankObj .UPDATE_TASK_TYPE_LABEL_TEXT).updateTasks
      (singleTaskRuntime blankObj .UPDATE_TASK_TYPE_LABEL_TEXT)
    unfold doUpdateTasks
    rw [h]
    simp [singleTaskRuntime, addUpdateTask]
  · simp [doUpdateTasks, singleTaskRuntime, addUpdateTask, doUpdateTask, applyUpdateTask,
      toolkitCall, constEvaluator, offEvaluator, blankObj, LvCall.target, LvCall.apply]

/-- C12 (amended). `doUpdateTasks` leaves the queue as it was: every task queued
with `addUpdateTask` stays queued and is applied by every drain, so a second
consecutive drain with no `addUpdateTask` in between applies the same tasks
again, in the same order. -/
theorem doUpdateTasks_keeps_queue (ev ev2 : FlowEvaluator) (tk : Toolkit) (st : Runtime) :
    (doUpdateTasks ev tk st).updateTasks = st.updateTasks ∧
    doUpdateTasks ev2 tk (doUpdateTasks ev tk st) =
      st.updateTasks.foldl (doUpdateTask ev2 tk) (doUpdateTasks ev tk st) := by
  have h : (doUpdateTasks ev tk st).updateTasks = st.updateTasks :=
    foldl_doUpdateTask_updateTasks ev tk st.updateTasks st
  refine ⟨h, ?_⟩
  show List.foldl (doUpdateTask ev2 tk) (doUpdateTasks ev tk st)
      (doUpdateTasks ev tk st).updateTasks = _
  rw [h]

/-- C13 (counterexample). Two dropdown tasks on one widget evaluate to 1 and then
65539: after the drain the selection is 3, not 65539.  Two arc tasks on one
widget evaluate to 5 and then 7, on an arc for which `lv_bar_get_value` reads 7:
the second task writes nothing and the arc keeps the first value 5. -/
theorem doUpdateTasks_last_write_counterexample :
    ((propertyEvaluator (fun i => if i = 0 then 1 else 65539)).evalIntegerProperty 0 0 1 = 65539 ∧
      ((doUpdateTasks (propertyEvaluator (fun i => if i = 0 then 1 else 65539)) quietToolkit
        (twoTaskRuntime blankObj .UPDATE_TASK_TYPE_DROPDOWN_SELECTED)).objs 1).dropdownSelected
        = 3) ∧
    ((propertyEvaluator (fun i => if i = 0 then 5 else 7)).evalIntegerProperty 0 0 1 = 7 ∧
      ((doUpdateTasks (propertyEvaluator (fun i => if i = 0 then 5 else 7)) quietToolkit
        (twoTaskRuntime rotatedArcObj .UPDATE_TASK_TYPE_ARC_VALUE)).objs 1).arcValue = 5) := by
  refine ⟨⟨rfl, ?_⟩, ⟨rfl, ?_⟩⟩
  · simp [doUpdateTasks, twoTaskRuntime, addUpdateTask, doUpdateTask, applyUpdateTask,
      toolkitCall, propertyEvaluator, blankObj, LvCall.target, LvCall.apply, toUInt16]
  · simp [doUpdateTasks, twoTaskRuntime, addUpdateTask, doUpdateTask, applyUpdateTask,
      toolkitCall, propertyEvaluator, blankObj, rotatedArcObj, LvCall.target, LvCall.apply]

/-- C13 (amended). `addUpdateTask` appends to the queue and `doUpdateTasks` applies
the tasks in queue order.  If two tasks of the same kind, other than arc value,
target the same widget and no later task of that kind targets it, then after
the drain the widget's property equals the value evaluated by the later task
(converted to `uint16_t` for the dropdown and roller selections). -/
theorem doUpdateTasks_last_write_wins (ev : FlowEvaluator) (tk : Toolkit) (st : Runtime)
    (pre mid post : List UpdateTask) (t1 t2 : UpdateTask)
    (hq : st.updateTasks = pre ++ t1 :: (mid ++ t2 :: post))
    (_hkind : t1.updateTaskType = t2.updateTaskType)
    (_hobj : t1.obj = t2.obj)
    (hnarc : t2.updateTaskType ≠ .UPDATE_TASK_TYPE_ARC_VALUE)
    (hlast : ∀ t ∈ post, t.updateTaskType ≠ t2.updateTaskType ∨ t.obj ≠ t2.obj) :
    (∀ kind obj p c i, (addUpdateTask st kind obj p c i).updateTasks =
      st.updateTasks ++ [{ updateTaskType := kind, obj := obj, page_index := p,
                           component_index := c, property_index := i }]) ∧
    doUpdateTasks ev tk st =
      post.foldl (doUpdateTask ev tk)
        (doUpdateTask ev tk
          (mid.foldl (doUpdateTask ev tk)
            (doUpdateTask ev tk (pre.foldl (doUpdateTask ev tk) st) t1)) t2) ∧
    t2.updateTaskType.boundProperty ((doUpdateTasks ev tk st).objs t2.obj) = t2.evaluated ev := by
  have hsplit : doUpdateTasks ev tk st =
      post.foldl (doUpdateTask ev tk)
        (doUpdateTask ev tk
          (mid.foldl (doUpdateTask ev tk)
            (doUpdateTask ev tk (pre.foldl (doUpdateTask ev tk) st) t1)) t2) := by
    unfold doUpdateTasks
    rw [hq, List.foldl_append, List.foldl_cons, List.foldl_append, List.foldl_cons]
  refine ⟨fun _ _ _ _ _ => rfl, hsplit, ?_⟩
  rw [hsplit, foldl_doUpdateTask_boundProperty_frame ev tk _ _ post hlast,
    doUpdateTask_boundProperty ev tk _ t2 hnarc]

/-- C13 (witness): two slider-value tasks on widget 1 evaluating to 5 and then 7;
after the drain the slider shows 7. -/
theorem doUpdateTasks_last_write_wins_witness :
    UpdateTaskType.boundProperty .UPDATE_TASK_TYPE_SLIDER_VALUE
      ((doUpdateTasks (propertyEvaluator (fun i => if i = 0 then 5 else 7)) quietToolkit
        (twoTaskRuntime blankObj .UPDATE_TASK_TYPE_SLIDER_VALUE)).objs 1) =
      PropertyValue.integer 7 :=
  (doUpdateTasks_last_write_wins (propertyEvaluator (fun i => if i = 0 then 5 else 7))
    quietToolkit (twoTaskRuntime blankObj .UPDATE_TASK_TYPE_SLIDER_VALUE) [] [] []
    { updateTaskType := .UPDATE_TASK_TYPE_SLIDER_VALUE, obj := 1, page_index := 0,
      component_index := 0, property_index := 0 }
    { updateTaskType := .UPDATE_TASK_TYPE_SLIDER_VALUE, obj := 1, page_index := 0,
      component_index := 0, property_index := 1 }
    rfl rfl rfl (by decide) (by simp)).2.2

theorem evaluated_of_fails (fe : FallibleEvaluator) (t : UpdateTask) (hfail : fe.fails t) :
    t.evaluated fe.entryPoints = fe.onErrorValue t.updateTaskType := by
  obtain ⟨kind, obj, p, c, i⟩ := t
  cases kind <;>
    simp only [FallibleEvaluator.fails, UpdateTask.evaluated] at hfail <;>
    simp [UpdateTask.evaluated, FallibleEvaluator.entryPoints, FallibleEvaluator.onErrorValue,
      hfail]

/-- C14 (counterexample). A slider showing 5 and a slider-value task whose
evaluation fails, the entry point returning 0 on error: the drain calls
`lv_slider_set_value(obj, 0)`, a write to the task's widget. -/
theorem doUpdateTasks_failed_evaluation_writes :
    failingEvaluator.fails
      { updateTaskType := .UPDATE_TASK_TYPE_SLIDER_VALUE, obj := 1, page_index := 0,
        component_index := 0, property_index := 0 } ∧
    (doUpdateTasks failingEvaluator.entryPoints quietToolkit
      (singleTaskRuntime sliderObj .UPDATE_TASK_TYPE_SLIDER_VALUE)).lvCalls =
      [LvCall.lv_slider_set_value 1 0] := by
  constructor
  · simp [FallibleEvaluator.fails, UpdateTask.evaluated, failingEvaluator]
  · simp [doUpdateTasks, singleTaskRuntime, addUpdateTask, doUpdateTask, applyUpdateTask,
      toolkitCall, failingEvaluator, FallibleEvaluator.entryPoints, sliderObj, blankObj]

/-- C14 (amended). `doUpdateTasks` has no error path: when evaluating a task's
bound flow property fails, the task is applied with the value the evaluator
entry point returns on error, like any evaluated value: no toolkit call is made
when that value equals the current value the branch reads, and otherwise one
call is made, on the task's widget.  The drain then continues with the
remaining tasks, applied as usual. -/
theorem doUpdateTasks_failed_evaluation (fe : FallibleEvaluator) (tk : Toolkit) (st : Runtime)
    (pre post : List UpdateTask) (t : UpdateTask)
    (hq : st.updateTasks = pre ++ t :: post)
    (hfail : fe.fails t) :
    doUpdateTasks fe.entryPoints tk st =
      post.foldl (doUpdateTask fe.entryPoints tk)
        (doUpdateTask fe.entryPoints tk (pre.foldl (doUpdateTask fe.entryPoints tk) st) t) ∧
    t.evaluated fe.entryPoints = fe.onErrorValue t.updateTaskType ∧
    ((doUpdateTask fe.entryPoints tk (pre.foldl (doUpdateTask fe.entryPoints tk) st) t).lvCalls =
        (pre.foldl (doUpdateTask fe.entryPoints tk) st).lvCalls ↔
      fe.onErrorValue t.updateTaskType =
        t.updateTaskType.comparedProperty
          ((pre.foldl (doUpdateTask fe.entryPoints tk) st).objs t.obj)) ∧
    ((doUpdateTask fe.entryPoints tk (pre.foldl (doUpdateTask fe.entryPoints tk) st) t).lvCalls =
        (pre.foldl (doUpdateTask fe.entryPoints tk) st).lvCalls ∨
      ∃ c : LvCall, c.target = t.obj ∧
        (doUpdateTask fe.entryPoints tk
          (pre.foldl (doUpdateTask fe.entryPoints tk) st) t).lvCalls =
          (pre.foldl (doUpdateTask fe.entryPoints tk) st).lvCalls ++ [c]) := by
  refine ⟨doUpdateTasks_split _ tk st pre post t hq, evaluated_of_fails fe t hfail, ?_,
    doUpdateTask_lvCalls_cases _ tk _ t⟩
  rw [doUpdateTask_lvCalls_eq_iff, evaluated_of_fails fe t hfail]

/-- C14 (witness): a slider showing 5, a failing slider-value task and the entry
point returning 0 on error; the task is applied with 0. -/
theorem doUpdateTasks_failed_evaluation_witness :
    failingEvaluator.fails
      { updateTaskType := .UPDATE_TASK_TYPE_SLIDER_VALUE, obj := 1, page_index := 0,
        component_index := 0, property_index := 0 } ∧
    UpdateTask.evaluated failingEvaluator.entryPoints
      { updateTaskType := .UPDATE_TASK_TYPE_SLIDER_VALUE, obj := 1, page_index := 0,
        component_index := 0, property_index := 0 } =
      failingEvaluator.onErrorValue .UPDATE_TASK_TYPE_SLIDER_VALUE :=
  ⟨by simp [FallibleEvaluator.fails, UpdateTask.evaluated, failingEvaluator],
    (doUpdateTasks_failed_evaluation failingEvaluator quietToolkit
      (singleTaskRuntime sliderObj .UPDATE_TASK_TYPE_SLIDER_VALUE) [] []
      { updateTaskType := .UPDATE_TASK_TYPE_SLIDER_VALUE, obj := 1, page_index := 0,
        component_index := 0, property_index := 0 }
      rfl (by simp [FallibleEvaluator.fails, UpdateTask.evaluated, failingEvaluator])).2.1⟩

/-! ## Claims on timeline registration -/

theorem pushKeyframe_eq_none (obj : ObjId) (k : TimelineKeyframe) (wts : List WidgetTimeline)
    (h : ∀ wt ∈ wts, wt.obj ≠ obj) : pushKeyframe obj k wts = none := by
  induction wts with
  | nil => rfl
  | cons wt rest ih =>
    have h1 : wt.obj ≠ obj := h wt (List.mem_cons_self _ _)
    simp [pushKeyframe, h1, ih (fun w hw => h w (List.mem_cons_of_mem _ hw))]

theorem pushKeyframe_eq_some (obj : ObjId) (k : TimelineKeyframe)
    (pre post : List WidgetTimeline) (wt : WidgetTimeline)
    (hpre : ∀ w ∈ pre, w.obj ≠ obj) (hwt : wt.obj = obj) :
    pushKeyframe obj k (pre ++ wt :: post) =
      some (pre ++ { wt with timeline := wt.timeline ++ [k] } :: post) := by
  induction pre with
  | nil => simp [pushKeyframe, hwt]
  | cons w pre ih =>
    have h1 : w.obj ≠ obj := hpre w (List.mem_cons_self _ _)
    simp [pushKeyframe, h1, ih (fun w2 hw => hpre w2 (List.mem_cons_of_mem _ hw))]

theorem pushKeyframe_map_obj (obj : ObjId) (k : TimelineKeyframe) (wts l : List WidgetTimeline)
    (h : pushKeyframe obj k wts = some l) : l.map (fun wt => wt.obj) = wts.map (fun wt => wt.obj) := by
  induction wts generalizing l with
  | nil => simp [pushKeyframe] at h
  | cons wt rest ih =>
    by_cases h1 : wt.obj = obj
    · rw [pushKeyframe, if_pos h1] at h
      injection h with h
      subst h
      simp
    · simp only [pushKeyframe, h1, if_false, Option.map_eq_some'] at h
      obtain ⟨r, hr, rfl⟩ := h
      simp [ih r hr]

theorem pushKeyframe_isSome_of_mem (obj : ObjId) (k : TimelineKeyframe)
    (wts : List WidgetTimeline) (wt : WidgetTimeline) (hmem : wt ∈ wts) (hobj : wt.obj = obj) :
    ∃ l, pushKeyframe obj k wts = some l := by
  induction wts with
  | nil => simp at hmem
  | cons w rest ih =>
    by_cases h1 : w.obj = obj
    · exact ⟨{ w with timeline := w.timeline ++ [k] } :: rest, by rw [pushKeyframe, if_pos h1]⟩
    · have hmem2 : wt ∈ rest := by
        rcases List.mem_cons.mp hmem with h | h
        · exact absurd (h ▸ hobj) h1
        · exact h
      obtain ⟨l, hl⟩ := ih hmem2
      exact ⟨w :: l, by simp [pushKeyframe, h1, hl]⟩

/-- C15. When no registered timeline has widget `obj`, `addTimelineKeyframe`
appends one new timeline for `obj` with the given page index, not yet evaluated
(`lastTimelinePosition == -1`) and holding exactly the new keyframe.  Otherwise
it appends the keyframe at the end of the keyframe list of the first timeline
for `obj` and leaves the number of timelines and every other timeline as they
were.  A registry with at most one timeline per widget stays so. -/
theorem addTimelineKeyframe_registers (wts : List WidgetTimeline) (obj : ObjId)
    (page_index : Nat) (k : TimelineKeyframe) :
    ((∀ wt ∈ wts, wt.obj ≠ obj) →
      ∃ nt : WidgetTimeline, addTimelineKeyframe wts obj page_index k = wts ++ [nt] ∧
        nt.obj = obj ∧ nt.pageIndex = page_index ∧ nt.lastTimelinePosition = -1 ∧
        nt.timeline = [k]) ∧
    (∀ (pre post : List WidgetTimeline) (wt : WidgetTimeline),
      wts = pre ++ wt :: post → (∀ w ∈ pre, w.obj ≠ obj) → wt.obj = obj →
      addTimelineKeyframe wts obj page_index k =
        pre ++ { wt with timeline := wt.timeline ++ [k] } :: post) ∧
    ((∃ wt ∈ wts, wt.obj = obj) →
      (addTimelineKeyframe wts obj page_index k).length = wts.length) ∧
    ((wts.map (fun wt => wt.obj)).Nodup →
      ((addTimelineKeyframe wts obj page_index k).map (fun wt => wt.obj)).Nodup) := by
  refine ⟨?_, ?_, ?_, ?_⟩
  · intro hnew
    refine ⟨{ obj := obj, pageIndex := page_index, lastTimelinePosition := -1,
              x := 0, y := 0, width := 0, height := 0, opacity := 0, scale := 0, rotate := 0,
              timeline := [k] }, ?_, rfl, rfl, rfl, rfl⟩
    simp [addTimelineKeyframe, pushKeyframe_eq_none obj k wts hnew]
  · intro pre post wt hq hpre hwt
    subst hq
    simp [addTimelineKeyframe, pushKeyframe_eq_some obj k pre post wt hpre hwt]
  · rintro ⟨wt, hmem, hobj⟩
    obtain ⟨l, hl⟩ := pushKeyframe_isSome_of_mem obj k wts wt hmem hobj
    have hmap := pushKeyframe_map_obj obj k wts l hl
    have hlen : l.length = wts.length := by
      have := congrArg List.length hmap
      simpa using this
    simp [addTimelineKeyframe, hl, hlen]
  · intro hnd
    by_cases hex : ∃ wt ∈ wts, wt.obj = obj
    · obtain ⟨wt, hmem, hobj⟩ := hex
      obtain ⟨l, hl⟩ := pushKeyframe_isSome_of_mem obj k wts wt hmem hobj
      have hmap := pushKeyframe_map_obj obj k wts l hl
      simp only [addTimelineKeyframe, hl]
      rw [hmap]
      exact hnd
    · have hnew : ∀ wt ∈ wts, wt.obj ≠ obj := fun wt hmem hobj => hex ⟨wt, hmem, hobj⟩
      simp only [addTimelineKeyframe, pushKeyframe_eq_none obj k wts hnew, List.map_append,
        List.map_cons, List.map_nil]
      rw [List.nodup_append]
      refine ⟨hnd, List.nodup_singleton _, ?_⟩
      intro a ha hb
      simp only [List.mem_singleton] at hb
      subst hb
      obtain ⟨wt, hmem, hobj⟩ := List.mem_map.mp ha
      exact hnew wt hmem hobj

/-- C15 (witness): registering a second keyframe for widget 1 extends the one
timeline of the registry; registering a keyframe for widget 2 appends a second
timeline. -/
theorem addTimelineKeyframe_registers_witness :
    (addTimelineKeyframe oneTimelineRegistry 1 0 fadeLaterKeyframe).length =
      oneTimelineRegistry.length ∧
    ∃ nt : WidgetTimeline,
      addTimelineKeyframe oneTimelineRegistry 2 3 fadeLaterKeyframe =
        oneTimelineRegistry ++ [nt] ∧
      nt.obj = 2 ∧ nt.pageIndex = 3 ∧ nt.lastTimelinePosition = -1 ∧
      nt.timeline = [fadeLaterKeyframe] :=
  ⟨(addTimelineKeyframe_registers oneTimelineRegistry 1 0 fadeLaterKeyframe).2.2.1
      ⟨_, List.mem_singleton.mpr rfl, rfl⟩,
    (addTimelineKeyframe_registers oneTimelineRegistry 2 3 fadeLaterKeyframe).1
      (by simp [oneTimelineRegistry, addTimelineKeyframe, pushKeyframe])⟩

/-! ## Claims on the animation driver -/

theorem updateTimelineProperties_widgetTimeline (ease : Nat → ℚ → ℚ) (wt : WidgetTimeline)
    (o : LvObj) (p : ℚ) :
    (updateTimelineProperties ease wt o p).widgetTimeline = captureBase wt o := by
  unfold updateTimelineProperties
  by_cases h : p = (captureBase wt o).lastTimelinePosition <;> simp [h]

theorem captureBase_of_captured (wt : WidgetTimeline) (o : LvObj)
    (h : wt.lastTimelinePosition ≠ -1) : captureBase wt o = wt := by
  unfold captureBase
  rw [if_neg h]

theorem captureBase_lastTimelinePosition_ne (wt : WidgetTimeline) (o : LvObj) :
    (captureBase wt o).lastTimelinePosition ≠ -1 := by
  unfold captureBase
  split
  · norm_num
  · assumption

theorem captureBase_pageIndex (wt : WidgetTimeline) (o : LvObj) :
    (captureBase wt o).pageIndex = wt.pageIndex := by
  unfold captureBase; split <;> rfl

theorem captureBase_obj (wt : WidgetTimeline) (o : LvObj) :
    (captureBase wt o).obj = wt.obj := by
  unfold captureBase; split <;> rfl

theorem setTimelinePositionLoop_forall₂ (ease : Nat → ℚ → ℚ) (p : ℚ)
    (wts : List WidgetTimeline) (objs : ObjId → LvObj) (calls : List LvCall) :
    List.Forall₂
      (fun wt wt2 => ∃ o, wt2 = (updateTimelineProperties ease wt o p).widgetTimeline)
      wts (setTimelinePositionLoop ease p wts objs calls).widgetTimelines := by
  induction wts generalizing objs calls with
  | nil => exact List.Forall₂.nil
  | cons wt rest ih =>
    simp only [setTimelinePositionLoop]
    exact List.Forall₂.cons ⟨_, rfl⟩ (ih _ _)

theorem doAnimateLoop_forall₂ (ease : Nat → ℚ → ℚ) (pageIndex : Nat) (p : ℚ)
    (wts : List WidgetTimeline) (objs : ObjId → LvObj) (calls : List LvCall) :
    List.Forall₂
      (fun wt wt2 =>
        (wt.pageIndex = pageIndex →
          ∃ o, wt2 = (updateTimelineProperties ease wt o p).widgetTimeline) ∧
        (wt.pageIndex ≠ pageIndex → wt2 = wt))
      wts (doAnimateLoop ease pageIndex p wts objs calls).widgetTimelines := by
  induction wts generalizing objs calls with
  | nil => exact List.Forall₂.nil
  | cons wt rest ih =>
    simp only [doAnimateLoop]
    split
    · rename_i h
      exact List.Forall₂.cons ⟨fun _ => ⟨_, rfl⟩, fun hne => absurd h hne⟩ (ih _ _)
    · rename_i h
      exact List.Forall₂.cons ⟨fun he => absurd he h, fun _ => rfl⟩ (ih _ _)

theorem doAnimateLoop_objs_lvCalls (ease : Nat → ℚ → ℚ) (pageIndex : Nat) (p : ℚ)
    (wts : List WidgetTimeline) (objs : ObjId → LvObj) (calls : List LvCall) :
    (doAnimateLoop ease pageIndex p wts objs calls).objs =
      (setTimelinePositionLoop ease p
        (wts.filter (fun wt => decide (wt.pageIndex = pageIndex))) objs calls).objs ∧
    (doAnimateLoop ease pageIndex p wts objs calls).lvCalls =
      (setTimelinePositionLoop ease p
        (wts.filter (fun wt => decide (wt.pageIndex = pageIndex))) objs calls).lvCalls := by
  induction wts generalizing objs calls with
  | nil => exact ⟨rfl, rfl⟩
  | cons wt rest ih =>
    by_cases h : wt.pageIndex = pageIndex
    · simp only [doAnimateLoop, h, if_true, List.filter_cons, decide_True, setTimelinePositionLoop]
      exact ih _ _
    · simp only [doAnimateLoop, h, if_false, List.filter_cons, decide_False]
      exact ih _ _

theorem doAnimate_timelines_relation (ease : Nat → ℚ → ℚ) (tp : Nat → ℚ)
    (st : AnimationState) (h : st.currentPageId ≠ -1) :
    List.Forall₂
      (fun wt wt2 =>
        (wt.pageIndex = toUInt32 (st.currentPageId - 1) →
          ∃ o, wt2 = (updateTimelineProperties ease wt o
            (tp (toUInt32 (st.currentPageId - 1)))).widgetTimeline) ∧
        (wt.pageIndex ≠ toUInt32 (st.currentPageId - 1) → wt2 = wt))
      st.widgetTimelines (doAnimate ease tp st).widgetTimelines := by
  simp only [doAnimate, h, ne_eq, not_false_eq_true, if_true]
  exact doAnimateLoop_forall₂ ease _ _ _ _ _

theorem setTimelinePositionLoop_closed (ease : Nat → ℚ → ℚ) (p : ℚ)
    (wts : List WidgetTimeline) (hnd : (wts.map (fun wt => wt.obj)).Nodup)
    (objs0 objs : ObjId → LvObj) (calls : List LvCall)
    (hag : ∀ wt ∈ wts, objs wt.obj = objs0 wt.obj) :
    (setTimelinePositionLoop ease p wts objs calls).widgetTimelines =
      wts.map (fun wt => (updateTimelineProperties ease wt (objs0 wt.obj) p).widgetTimeline) ∧
    (setTimelinePositionLoop ease p wts objs calls).lvCalls =
      calls ++ wts.flatMap (fun wt => (updateTimelineProperties ease wt (objs0 wt.obj) p).calls) ∧
    (∀ wt ∈ wts, (setTimelinePositionLoop ease p wts objs calls).objs wt.obj =
      (updateTimelineProperties ease wt (objs0 wt.obj) p).obj) ∧
    (∀ w, (∀ wt ∈ wts, wt.obj ≠ w) →
      (setTimelinePositionLoop ease p wts objs calls).objs w = objs w) := by
  induction wts generalizing objs calls with
  | nil =>
    refine ⟨rfl, by simp [setTimelinePositionLoop], ?_, fun _ _ => rfl⟩
    intro wt hwt
    simp at hwt
  | cons wt rest ih =>
    have hnd2 : (rest.map (fun wt => wt.obj)).Nodup := (List.nodup_cons.mp hnd).2
    have hfresh : ∀ wt2 ∈ rest, wt2.obj ≠ wt.obj := by
      intro wt2 h2 heq
      exact (List.nodup_cons.mp hnd).1 (List.mem_map.mpr ⟨wt2, h2, heq⟩)
    have hhead : objs wt.obj = objs0 wt.obj := hag wt (List.mem_cons_self _ _)
    have hag2 : ∀ wt2 ∈ rest,
        Function.update objs wt.obj
          (updateTimelineProperties ease wt (objs0 wt.obj) p).obj wt2.obj = objs0 wt2.obj := by
      intro wt2 h2
      rw [Function.update_noteq (hfresh wt2 h2)]
      exact hag wt2 (List.mem_cons_of_mem _ h2)
    obtain ⟨ih1, ih2, ih3, ih4⟩ := ih hnd2 _ (calls ++
      (updateTimelineProperties ease wt (objs0 wt.obj) p).calls) hag2
    simp only [setTimelinePositionLoop, hhead]
    refine ⟨?_, ?_, ?_, ?_⟩
    · simp only [List.map_cons, ih1]
    · simp only [List.flatMap_cons, ih2, List.append_assoc]
    · intro wt2 h2
      rcases List.mem_cons.mp h2 with h | h
      · subst h
        rw [ih4 _ (fun wt3 h3 => hfresh wt3 h3), Function.update_same]
      · exact ih3 wt2 h
    · intro w hw
      rw [ih4 w (fun wt2 h2 => hw wt2 (List.mem_cons_of_mem _ h2)),
        Function.update_noteq (Ne.symm (hw wt (List.mem_cons_self _ _)))]

theorem doAnimateLoop_closed (ease : Nat → ℚ → ℚ) (pageIndex : Nat) (p : ℚ)
    (wts : List WidgetTimeline) (hnd : (wts.map (fun wt => wt.obj)).Nodup)
    (objs0 objs : ObjId → LvObj) (calls : List LvCall)
    (hag : ∀ wt ∈ wts, objs wt.obj = objs0 wt.obj) :
    (doAnimateLoop ease pageIndex p wts objs calls).widgetTimelines =
      wts.map (fun wt =>
        if wt.pageIndex = pageIndex then
          (updateTimelineProperties ease wt (objs0 wt.obj) p).widgetTimeline
        else wt) ∧
    (doAnimateLoop ease pageIndex p wts objs calls).lvCalls =
      calls ++ (wts.filter (fun wt => decide (wt.pageIndex = pageIndex))).flatMap
        (fun wt => (updateTimelineProperties ease wt (objs0 wt.obj) p).calls) ∧
    (∀ wt ∈ wts, wt.pageIndex = pageIndex →
      (doAnimateLoop ease pageIndex p wts objs calls).objs wt.obj =
        (updateTimelineProperties ease wt (objs0 wt.obj) p).obj) ∧
    (∀ w, (∀ wt ∈ wts, wt.pageIndex = pageIndex → wt.obj ≠ w) →
      (doAnimateLoop ease pageIndex p wts objs calls).objs w = objs w) := by
  induction wts generalizing objs calls with
  | nil =>
    refine ⟨rfl, by simp [doAnimateLoop], ?_, fun _ _ => rfl⟩
    intro wt hwt
    simp at hwt
  | cons wt rest ih =>
    have hnd2 : (rest.map (fun wt => wt.obj)).Nodup := (List.nodup_cons.mp hnd).2
    have hfresh : ∀ wt2 ∈ rest, wt2.obj ≠ wt.obj := by
      intro wt2 h2 heq
      exact (List.nodup_cons.mp hnd).1 (List.mem_map.mpr ⟨wt2, h2, heq⟩)
    have hhead : objs wt.obj = objs0 wt.obj := hag wt (List.mem_cons_self _ _)
    by_cases hact : wt.pageIndex = pageIndex
    · have hag2 : ∀ wt2 ∈ rest,
          Function.update objs wt.obj
            (updateTimelineProperties ease wt (objs0 wt.obj) p).obj wt2.obj = objs0 wt2.obj := by
        intro wt2 h2
        rw [Function.update_noteq (hfresh wt2 h2)]
        exact hag wt2 (List.mem_cons_of_mem _ h2)
      obtain ⟨ih1, ih2, ih3, ih4⟩ := ih hnd2 _ (calls ++
        (updateTimelineProperties ease wt (objs0 wt.obj) p).calls) hag2
      simp only [doAnimateLoop, hact, if_true, hhead]
      refine ⟨?_, ?_, ?_, ?_⟩
      · simp only [List.map_cons, ih1, hact, if_true]
      · simp only [List.filter_cons, hact, decide_True, if_true, List.flatMap_cons, ih2,
          List.append_assoc]
      · intro wt2 h2 hp2
        rcases List.mem_cons.mp h2 with h | h
        · subst h
          rw [ih4 _ (fun wt3 h3 _ => hfresh wt3 h3), Function.update_same]
        · exact ih3 wt2 h hp2
      · intro w hw
        rw [ih4 w (fun wt2 h2 hp2 => hw wt2 (List.mem_cons_of_mem _ h2) hp2),
          Function.update_noteq (Ne.symm (hw wt (List.mem_cons_self _ _) hact))]
    · have hag2 : ∀ wt2 ∈ rest, objs wt2.obj = objs0 wt2.obj :=
        fun wt2 h2 => hag wt2 (List.mem_cons_of_mem _ h2)
      obtain ⟨ih1, ih2, ih3, ih4⟩ := ih hnd2 objs calls hag2
      simp only [doAnimateLoop, hact, if_false]
      refine ⟨?_, ?_, ?_, ?_⟩
      · simp only [List.map_cons, ih1, hact, if_false]
      · simp only [List.filter_cons, hact, decide_False, ih2]
        rfl
      · intro wt2 h2 hp2
        rcases List.mem_cons.mp h2 with h | h
        · subst h
          exact absurd hp2 hact
        · exact ih3 wt2 h hp2
      · intro w hw
        exact ih4 w (fun wt2 h2 hp2 => hw wt2 (List.mem_cons_of_mem _ h2) hp2)

/-- C16. `doAnimate` does nothing when no page is active (`currentPageId == -1`).
Otherwise it calls `updateTimelineProperties`, at the timeline position of the
active page, on exactly the registered timelines whose `pageIndex` is the active
page index `currentPageId - 1` (as `unsigned`): those timelines are replaced by
their evaluated state, the others are left as they were, and the widgets and
toolkit calls are those of evaluating the active-page timelines alone, in
order.  `setTimelinePosition(p)` calls `updateTimelineProperties` at `p` on
every registered timeline, whatever its page and whatever `currentPageId`: it
leaves an empty registry as it is, and on a registry `wt :: rest` it evaluates
`wt` at `p` on its widget, stores the written widget, appends the toolkit calls
and goes on with `rest`.  When the registered timelines are for distinct widgets
(as `addTimelineKeyframe` keeps them), the result is in closed form: every
timeline (for `doAnimate`: every timeline of the active page) is replaced by its
evaluation at the position on its widget as it was before the call, that
widget becomes the written one, the toolkit calls are the earlier ones followed
by the calls of each evaluation in registry order, and every other widget and
`currentPageId` are unchanged. -/
theorem doAnimate_evaluates_active_page (ease : Nat → ℚ → ℚ) (timelinePositionOf : Nat → ℚ)
    (st : AnimationState) :
    (st.currentPageId = -1 → doAnimate ease timelinePositionOf st = st) ∧
    (st.currentPageId ≠ -1 →
      List.Forall₂
        (fun wt wt2 =>
          (wt.pageIndex = toUInt32 (st.currentPageId - 1) →
            ∃ o, wt2 = (updateTimelineProperties ease wt o
              (timelinePositionOf (toUInt32 (st.currentPageId - 1)))).widgetTimeline) ∧
          (wt.pageIndex ≠ toUInt32 (st.currentPageId - 1) → wt2 = wt))
        st.widgetTimelines (doAnimate ease timelinePositionOf st).widgetTimelines ∧
      (doAnimate ease timelinePositionOf st).objs =
        (setTimelinePositionLoop ease (timelinePositionOf (toUInt32 (st.currentPageId - 1)))
          (st.widgetTimelines.filter
            (fun wt => decide (wt.pageIndex = toUInt32 (st.currentPageId - 1))))
          st.objs st.lvCalls).objs ∧
      (doAnimate ease timelinePositionOf st).lvCalls =
        (setTimelinePositionLoop ease (timelinePositionOf (toUInt32 (st.currentPageId - 1)))
          (st.widgetTimelines.filter
            (fun wt => decide (wt.pageIndex = toUInt32 (st.currentPageId - 1))))
          st.objs st.lvCalls).lvCalls) ∧
    (∀ p : ℚ,
      List.Forall₂
        (fun wt wt2 => ∃ o, wt2 = (updateTimelineProperties ease wt o p).widgetTimeline)
        st.widgetTimelines (setTimelinePosition ease st p).widgetTimelines ∧
      ∀ c : Int, setTimelinePosition ease { st with currentPageId := c } p =
        { setTimelinePosition ease st p with currentPageId := c }) ∧
    (∀ p : ℚ,
      setTimelinePosition ease { st with widgetTimelines := [] } p =
        { st with widgetTimelines := [] } ∧
      ∀ (wt : WidgetTimeline) (rest : List WidgetTimeline),
        setTimelinePosition ease { st with widgetTimelines := wt :: rest } p =
          { setTimelinePosition ease
              { st with
                widgetTimelines := rest
                objs := Function.update st.objs wt.obj
                  (updateTimelineProperties ease wt (st.objs wt.obj) p).obj
                lvCalls := st.lvCalls ++
                  (updateTimelineProperties ease wt (st.objs wt.obj) p).calls } p with
            widgetTimelines :=
              (updateTimelineProperties ease wt (st.objs wt.obj) p).widgetTimeline ::
                (setTimelinePosition ease
                  { st with
                    widgetTimelines := rest
                    objs := Function.update st.objs wt.obj
                      (updateTimelineProperties ease wt (st.objs wt.obj) p).obj
                    lvCalls := st.lvCalls ++
                      (updateTimelineProperties ease wt (st.objs wt.obj) p).calls }
                  p).widgetTimelines }) ∧
    ((st.widgetTimelines.map (fun wt => wt.obj)).Nodup →
      ∀ p : ℚ,
        (setTimelinePosition ease st p).widgetTimelines =
          st.widgetTimelines.map
            (fun wt => (updateTimelineProperties ease wt (st.objs wt.obj) p).widgetTimeline) ∧
        (setTimelinePosition ease st p).lvCalls =
          st.lvCalls ++ st.widgetTimelines.flatMap
            (fun wt => (updateTimelineProperties ease wt (st.objs wt.obj) p).calls) ∧
        (∀ wt ∈ st.widgetTimelines,
          (setTimelinePosition ease st p).objs wt.obj =
            (updateTimelineProperties ease wt (st.objs wt.obj) p).obj) ∧
        (∀ w, (∀ wt ∈ st.widgetTimelines, wt.obj ≠ w) →
          (setTimelinePosition ease st p).objs w = st.objs w) ∧
        (setTimelinePosition ease st p).currentPageId = st.currentPageId) ∧
    ((st.widgetTimelines.map (fun wt => wt.obj)).Nodup →
      st.currentPageId ≠ -1 →
        (doAnimate ease timelinePositionOf st).widgetTimelines =
          st.widgetTimelines.map
            (fun wt =>
              if wt.pageIndex = toUInt32 (st.currentPageId - 1) then
                (updateTimelineProperties ease wt (st.objs wt.obj)
                  (timelinePositionOf (toUInt32 (st.currentPageId - 1)))).widgetTimeline
              else wt) ∧
        (doAnimate ease timelinePositionOf st).lvCalls =
          st.lvCalls ++
            (st.widgetTimelines.filter
              (fun wt => decide (wt.pageIndex = toUInt32 (st.currentPageId - 1)))).flatMap
              (fun wt => (updateTimelineProperties ease wt (st.objs wt.obj)
                (timelinePositionOf (toUInt32 (st.currentPageId - 1)))).calls) ∧
        (∀ wt ∈ st.widgetTimelines, wt.pageIndex = toUInt32 (st.currentPageId - 1) →
          (doAnimate ease timelinePositionOf st).objs wt.obj =
            (updateTimelineProperties ease wt (st.objs wt.obj)
              (timelinePositionOf (toUInt32 (st.currentPageId - 1)))).obj) ∧
        (∀ w, (∀ wt ∈ st.widgetTimelines,
            wt.pageIndex = toUInt32 (st.currentPageId - 1) → wt.obj ≠ w) →
          (doAnimate ease timelinePositionOf st).objs w = st.objs w) ∧
        (doAnimate ease timelinePositionOf st).currentPageId = st.currentPageId) := by
  refine ⟨?_, ?_, ?_, ?_, ?_, ?_⟩
  · intro h
    simp [doAnimate, h]
  · intro h
    simp only [doAnimate, h, ne_eq, not_false_eq_true, if_true]
    exact ⟨doAnimateLoop_forall₂ ease _ _ _ _ _,
      (doAnimateLoop_objs_lvCalls ease _ _ _ _ _).1,
      (doAnimateLoop_objs_lvCalls ease _ _ _ _ _).2⟩
  · intro p
    exact ⟨setTimelinePositionLoop_forall₂ ease p _ _ _, fun _ => rfl⟩
  · intro p
    exact ⟨rfl, fun _ _ => rfl⟩
  · intro hnd p
    obtain ⟨h1, h2, h3, h4⟩ :=
      setTimelinePositionLoop_closed ease p st.widgetTimelines hnd st.objs st.objs st.lvCalls
        (fun _ _ => rfl)
    exact ⟨h1, h2, h3, h4, rfl⟩
  · intro hnd h
    obtain ⟨h1, h2, h3, h4⟩ :=
      doAnimateLoop_closed ease (toUInt32 (st.currentPageId - 1))
        (timelinePositionOf (toUInt32 (st.currentPageId - 1))) st.widgetTimelines hnd
        st.objs st.objs st.lvCalls (fun _ _ => rfl)
    simp only [doAnimate, h, ne_eq, not_false_eq_true, if_true]
    exact ⟨h1, h2, h3, h4, trivial⟩

/-- C16 (witness): on the one-timeline registry with page 1 active, the toolkit
calls of `doAnimate` are those of evaluating the timelines of page index 0, and
the toolkit calls of `setTimelinePosition` at 1/2 are the earlier calls followed
by the calls of evaluating every registered timeline at 1/2. -/
theorem doAnimate_evaluates_active_page_witness :
    animationStart.currentPageId ≠ -1 ∧
    (animationStart.widgetTimelines.map (fun wt => wt.obj)).Nodup ∧
    (doAnimate linearEasing (fun _ => 1 / 2) animationStart).lvCalls =
      (setTimelinePositionLoop linearEasing
        ((fun _ => (1 / 2 : ℚ)) (toUInt32 (animationStart.currentPageId - 1)))
        (animationStart.widgetTimelines.filter
          (fun wt => decide (wt.pageIndex = toUInt32 (animationStart.currentPageId - 1))))
        animationStart.objs animationStart.lvCalls).lvCalls ∧
    (setTimelinePosition linearEasing animationStart (1 / 2)).lvCalls =
      animationStart.lvCalls ++ animationStart.widgetTimelines.flatMap
        (fun wt =>
          (updateTimelineProperties linearEasing wt (animationStart.objs wt.obj) (1 / 2)).calls) ∧
    (doAnimate linearEasing (fun _ => 1 / 2) animationStart).lvCalls =
      animationStart.lvCalls ++
        (animationStart.widgetTimelines.filter
          (fun wt => decide (wt.pageIndex = toUInt32 (animationStart.currentPageId - 1)))).flatMap
          (fun wt => (updateTimelineProperties linearEasing wt (animationStart.objs wt.obj)
            ((fun _ => (1 / 2 : ℚ)) (toUInt32 (animationStart.currentPageId - 1)))).calls) :=
  ⟨by decide,
    by simp [animationStart, oneTimelineRegistry, addTimelineKeyframe, pushKeyframe],
    ((doAnimate_evaluates_active_page linearEasing (fun _ => 1 / 2) animationStart).2.1
      (by decide)).2.2,
    ((doAnimate_evaluates_active_page linearEasing (fun _ => 1 / 2) animationStart).2.2.2.2.1
      (by simp [animationStart, oneTimelineRegistry, addTimelineKeyframe, pushKeyframe]) (1 / 2)).2.1,
    ((doAnimate_evaluates_active_page linearEasing (fun _ => 1 / 2) animationStart).2.2.2.2.2
      (by simp [animationStart, oneTimelineRegistry, addTimelineKeyframe, pushKeyframe]) (by decide)).2.1⟩

/-! ## Claims on the keyframe scan -/

theorem lastTarget_cons (mask : Nat) (target : TimelineKeyframe → ℚ) (k : TimelineKeyframe)
    (rest : List TimelineKeyframe) (base : ℚ) :
    lastTarget mask target (k :: rest) base =
      lastTarget mask target rest
        (if hasProperty k.enabledProperties mask then target k else base) := by
  unfold lastTarget
  by_cases h : hasProperty k.enabledProperties mask = true
  · simp only [List.filter_cons, h, if_true]
    cases hf : List.filter (fun k => hasProperty k.enabledProperties mask) rest with
    | nil => simp
    | cons a l =>
      have hx : (a :: l).getLast? = some ((a :: l).getLast (List.cons_ne_nil a l)) :=
        List.getLast?_eq_getLast _ _
      simp only [List.getLast?_cons_cons, hx]
  · simp only [List.filter_cons, h, if_false]
    simp

theorem scanKeyframes_cons_elapsed (ease : Nat → ℚ → ℚ) (p : ℚ) (k : TimelineKeyframe)
    (rest : List TimelineKeyframe) (v : Working) (hs : k.start ≤ p) (he : k.end_ < p) :
    scanKeyframes ease p (k :: rest) v = scanKeyframes ease p rest (snapKeyframe k v) := by
  have h1 : ¬ p < k.start := not_lt.mpr hs
  have h2 : ¬ (p ≥ k.start ∧ p ≤ k.end_) := fun h => absurd h.2 (not_le.mpr he)
  simp only [scanKeyframes, h1, h2, if_false]

theorem scanKeyframes_cons_future (ease : Nat → ℚ → ℚ) (p : ℚ) (k : TimelineKeyframe)
    (rest : List TimelineKeyframe) (v : Working) (h : p < k.start) :
    scanKeyframes ease p (k :: rest) v = scanKeyframes ease p rest v := by
  simp only [scanKeyframes, h, if_true]

/-- C17 (counterexample). A keyframe with start 2 and end 1 that moves x to 9, on
a base x of 0, at position 3/2: the position is past the keyframe's end, yet it
is before its start, so the keyframe is passed over and the working x stays 0,
while the last keyframe enabling x has target 9. -/
theorem scanKeyframes_all_elapsed_counterexample :
    (∀ kf ∈ [reversedKeyframe], kf.end_ < 3 / 2) ∧
    (scanKeyframes linearEasing (3 / 2) [reversedKeyframe]
      (baseValues (registeredTimeline []))).x = 0 ∧
    lastTarget WIDGET_TIMELINE_PROPERTY_X (fun k => k.x) [reversedKeyframe]
      (baseValues (registeredTimeline [])).x = 9 ∧
    (scanKeyframes linearEasing (3 / 2) [reversedKeyframe]
      (baseValues (registeredTimeline []))).x ≠
      lastTarget WIDGET_TIMELINE_PROPERTY_X (fun k => k.x) [reversedKeyframe]
        (baseValues (registeredTimeline [])).x := by
  have hskip : (scanKeyframes linearEasing (3 / 2) [reversedKeyframe]
      (baseValues (registeredTimeline []))).x = 0 := by
    rw [scanKeyframes_cons_future _ _ _ _ _ (by norm_num [reversedKeyframe])]
    simp [scanKeyframes, baseValues, registeredTimeline]
  have hx : hasProperty reversedKeyframe.enabledProperties WIDGET_TIMELINE_PROPERTY_X
      = true := by decide
  have hlast : lastTarget WIDGET_TIMELINE_PROPERTY_X (fun k => k.x) [reversedKeyframe]
      (baseValues (registeredTimeline [])).x = 9 := by
    simp only [lastTarget_cons, hx, if_true]
    simp [lastTarget, reversedKeyframe]
  refine ⟨?_, hskip, hlast, ?_⟩
  · intro kf hkf
    simp only [List.mem_singleton] at hkf
    subst hkf
    norm_num [reversedKeyframe]
  · rw [hskip, hlast]
    norm_num

/-- C17 (amended). For keyframes with `start ≤ end` and a position strictly
greater than every keyframe's end, the working value of each property after the
scan is the target of the last keyframe in list order that enables the
property, and the base value when no keyframe enables it; no easing function is
involved. -/
theorem scanKeyframes_all_elapsed (ease : Nat → ℚ → ℚ) (p : ℚ)
    (keyframes : List TimelineKeyframe) (base : Working)
    (hwf : ∀ kf ∈ keyframes, kf.start ≤ kf.end_)
    (hend : ∀ kf ∈ keyframes, kf.end_ < p) :
    scanKeyframes ease p keyframes base =
      { x := lastTarget WIDGET_TIMELINE_PROPERTY_X (fun k => k.x) keyframes base.x
        y := lastTarget WIDGET_TIMELINE_PROPERTY_Y (fun k => k.y) keyframes base.y
        w := lastTarget WIDGET_TIMELINE_PROPERTY_WIDTH (fun k => k.width) keyframes base.w
        h := lastTarget WIDGET_TIMELINE_PROPERTY_HEIGHT (fun k => k.height) keyframes base.h
        opacity :=
          lastTarget WIDGET_TIMELINE_PROPERTY_OPACITY (fun k => k.opacity) keyframes base.opacity
        scale := lastTarget WIDGET_TIMELINE_PROPERTY_SCALE (fun k => k.scale) keyframes base.scale
        rotate :=
          lastTarget WIDGET_TIMELINE_PROPERTY_ROTATE (fun k => k.rotate) keyframes base.rotate } := by
  induction keyframes generalizing base with
  | nil => simp [scanKeyframes, lastTarget]
  | cons k rest ih =>
    have hk := hwf k (List.mem_cons_self _ _)
    have he := hend k (List.mem_cons_self _ _)
    rw [scanKeyframes_cons_elapsed ease p k rest base (le_trans hk (le_of_lt he)) he,
      ih (snapKeyframe k base) (fun kf h => hwf kf (List.mem_cons_of_mem _ h))
        (fun kf h => hend kf (List.mem_cons_of_mem _ h))]
    simp only [lastTarget_cons, snapKeyframe]

/-- C17 (witness): the overlapping keyframes (x→100 over [0,10], then x→7 over
[0,1]) at position 11; the working x is 7, the target of the last keyframe that
enables x, and the working opacity is the base opacity. -/
theorem scanKeyframes_all_elapsed_witness :
    (scanKeyframes linearEasing 11 [overlapFirstKeyframe, overlapFinalKeyframe]
      (baseValues (registeredTimeline []))).x = 7 ∧
    (scanKeyframes linearEasing 11 [overlapFirstKeyframe, overlapFinalKeyframe]
      (baseValues (registeredTimeline []))).opacity =
      (baseValues (registeredTimeline [])).opacity := by
  have h := scanKeyframes_all_elapsed linearEasing 11
    [overlapFirstKeyframe, overlapFinalKeyframe] (baseValues (registeredTimeline []))
    (by intro kf hkf
        simp only [List.mem_cons, List.mem_singleton, List.not_mem_nil, or_false] at hkf
        rcases hkf with rfl | rfl <;> norm_num [overlapFirstKeyframe, overlapFinalKeyframe])
    (by intro kf hkf
        simp only [List.mem_cons, List.mem_singleton, List.not_mem_nil, or_false] at hkf
        rcases hkf with rfl | rfl <;> norm_num [overlapFirstKeyframe, overlapFinalKeyframe])
  have hx1 : hasProperty overlapFirstKeyframe.enabledProperties WIDGET_TIMELINE_PROPERTY_X
      = true := by decide
  have hx2 : hasProperty overlapFinalKeyframe.enabledProperties WIDGET_TIMELINE_PROPERTY_X
      = true := by decide
  have ho1 : hasProperty overlapFirstKeyframe.enabledProperties
      WIDGET_TIMELINE_PROPERTY_OPACITY = false := by decide
  have ho2 : hasProperty overlapFinalKeyframe.enabledProperties
      WIDGET_TIMELINE_PROPERTY_OPACITY = false := by decide
  rw [h]
  constructor
  · simp only [lastTarget_cons, hx1, hx2, if_true]
    simp [lastTarget, overlapFinalKeyframe]
  · simp only [lastTarget_cons, ho1, ho2, Bool.false_eq_true, if_false]
    simp [lastTarget]

theorem scanKeyframes_filter_started (ease : Nat → ℚ → ℚ) (p : ℚ)
    (keyframes : List TimelineKeyframe) (v : Working) :
    scanKeyframes ease p (keyframes.filter (fun k => decide (k.start ≤ p))) v =
      scanKeyframes ease p keyframes v := by
  induction keyframes generalizing v with
  | nil => rfl
  | cons k rest ih =>
    by_cases hlt : p < k.start
    · have hns : ¬ k.start ≤ p := not_le.mpr hlt
      simp only [List.filter_cons, hns, decide_False, scanKeyframes, hlt, if_true]
      exact ih v
    · have hs : k.start ≤ p := not_lt.mp hlt
      simp only [List.filter_cons, hs, decide_True, if_true, scanKeyframes, hlt, if_false]
      split
      · rfl
      · exact ih _

/-- C18. Deleting from a timeline every keyframe whose start is greater than the
position changes neither the working values of the scan nor the widget and the
toolkit calls `updateTimelineProperties` leaves behind.  A keyframe whose start
is greater than the position is passed over and the scan goes on with the rest
of the list: with a keyframe over [5,6] (x→100) followed by one over [0,1]
(x→7), at position 2 the working x is 7. -/
theorem scanKeyframes_skips_future (ease : Nat → ℚ → ℚ) (wt : WidgetTimeline) (o : LvObj)
    (p : ℚ) :
    (∀ v : Working,
      scanKeyframes ease p (wt.timeline.filter (fun k => decide (k.start ≤ p))) v =
        scanKeyframes ease p wt.timeline v) ∧
    (updateTimelineProperties ease
        { wt with timeline := wt.timeline.filter (fun k => decide (k.start ≤ p)) } o p).obj =
      (updateTimelineProperties ease wt o p).obj ∧
    (updateTimelineProperties ease
        { wt with timeline := wt.timeline.filter (fun k => decide (k.start ≤ p)) } o p).calls =
      (updateTimelineProperties ease wt o p).calls ∧
    (∀ (k : TimelineKeyframe) (rest : List TimelineKeyframe) (v : Working), p < k.start →
      scanKeyframes ease p (k :: rest) v = scanKeyframes ease p rest v) ∧
    (scanKeyframes linearEasing 2 [futureKeyframe, pastKeyframe]
      (baseValues (registeredTimeline []))).x = 7 := by
  have hscan := scanKeyframes_filter_started ease p wt.timeline
  refine ⟨hscan, ?_, ?_, fun k rest v h => scanKeyframes_cons_future ease p k rest v h, ?_⟩
  · unfold updateTimelineProperties captureBase
    by_cases h : wt.lastTimelinePosition = -1 <;>
      simp only [h, if_true, if_false, hscan, baseValues] <;> split <;> rfl
  · unfold updateTimelineProperties captureBase
    by_cases h : wt.lastTimelinePosition = -1 <;>
      simp only [h, if_true, if_false, hscan, baseValues] <;> split <;> rfl
  · have hx : hasProperty pastKeyframe.enabledProperties WIDGET_TIMELINE_PROPERTY_X = true := by
      decide
    rw [scanKeyframes_cons_future _ _ _ _ _ (by norm_num [futureKeyframe]),
      scanKeyframes_cons_elapsed _ _ _ _ _ (by norm_num [pastKeyframe])
        (by norm_num [pastKeyframe])]
    simp only [scanKeyframes, snapKeyframe, hx, if_true]
    simp [pastKeyframe]

/-- C18 (witness): at position 2 the keyframe over [5,6] is passed over and the
scan goes on with the keyframe after it. -/
theorem scanKeyframes_skips_future_witness :
    (2 : ℚ) < futureKeyframe.start ∧
    scanKeyframes linearEasing 2 (futureKeyframe :: [pastKeyframe])
        (baseValues (registeredTimeline [])) =
      scanKeyframes linearEasing 2 [pastKeyframe] (baseValues (registeredTimeline [])) :=
  ⟨by norm_num [futureKeyframe],
    (scanKeyframes_skips_future linearEasing (registeredTimeline []) blankObj 2).2.2.2.1
      futureKeyframe [pastKeyframe] (baseValues (registeredTimeline []))
      (by norm_num [futureKeyframe])⟩

/-! ## Claims on the cached base and the cached position -/

theorem related_at_index {α : Type} {R : α → α → Prop} {xs ys : List α}
    (hrel : List.Forall₂ R xs ys) (n : Nat) (x : α) (hx : xs[n]? = some x) :
    ∃ y, R x y ∧ ys[n]? = some y := by
  induction hrel generalizing n with
  | nil => simp at hx
  | @cons x0 y0 xs0 ys0 h0 _ ih =>
    rcases n with _ | m
    · have hhead : x0 = x := by simpa using hx
      subst hhead
      exact ⟨y0, h0, by simp⟩
    · obtain ⟨y, hr, hy⟩ := ih m (by simpa using hx)
      exact ⟨y, hr, by simpa using hy⟩

theorem updateTimelineProperties_captured (ease : Nat → ℚ → ℚ) (wt : WidgetTimeline) (o : LvObj)
    (p : ℚ) (h : wt.lastTimelinePosition ≠ -1) :
    (updateTimelineProperties ease wt o p).widgetTimeline = wt := by
  rw [updateTimelineProperties_widgetTimeline, captureBase_of_captured wt o h]

theorem pushKeyframe_forall₂ (obj : ObjId) (k : TimelineKeyframe) (wts l : List WidgetTimeline)
    (h : pushKeyframe obj k wts = some l) :
    List.Forall₂
      (fun wt wt2 => wt2.obj = wt.obj ∧ wt2.base = wt.base ∧
        wt2.lastTimelinePosition = wt.lastTimelinePosition)
      wts l := by
  induction wts generalizing l with
  | nil => simp [pushKeyframe] at h
  | cons wt rest ih =>
    by_cases h1 : wt.obj = obj
    · rw [pushKeyframe, if_pos h1] at h
      injection h with h
      subst h
      exact List.Forall₂.cons ⟨rfl, rfl, rfl⟩
        (List.forall₂_same.mpr (fun _ _ => ⟨rfl, rfl, rfl⟩))
    · simp only [pushKeyframe, h1, if_false, Option.map_eq_some'] at h
      obtain ⟨r, hr, rfl⟩ := h
      exact List.Forall₂.cons ⟨rfl, rfl, rfl⟩ (ih r hr)

theorem addTimelineKeyframe_getElem? (wts : List WidgetTimeline) (obj : ObjId) (page_index : Nat)
    (k : TimelineKeyframe) (i : Nat) (wt : WidgetTimeline) (hi : wts[i]? = some wt) :
    ∃ wt2, (addTimelineKeyframe wts obj page_index k)[i]? = some wt2 ∧
      wt2.obj = wt.obj ∧ wt2.base = wt.base ∧
      wt2.lastTimelinePosition = wt.lastTimelinePosition := by
  unfold addTimelineKeyframe
  cases hp : pushKeyframe obj k wts with
  | some l =>
    obtain ⟨wt2, hr, h2⟩ := related_at_index (pushKeyframe_forall₂ obj k wts l hp) i wt hi
    exact ⟨wt2, h2, hr⟩
  | none =>
    have hlt : i < wts.length := by
      by_contra hge
      rw [List.getElem?_eq_none (not_lt.mp hge)] at hi
      exact absurd hi (by simp)
    exact ⟨wt, by simp only [List.getElem?_append_left hlt, hi], rfl, rfl, rfl⟩

theorem timelineCall_keeps_base (ease : Nat → ℚ → ℚ) (c : TimelineCall) (st : AnimationState)
    (i : Nat) (wt : WidgetTimeline) (hi : st.widgetTimelines[i]? = some wt)
    (hcap : wt.lastTimelinePosition ≠ -1) :
    ∃ wt2, (c.run ease st).widgetTimelines[i]? = some wt2 ∧
      wt2.obj = wt.obj ∧ wt2.base = wt.base ∧ wt2.lastTimelinePosition ≠ -1 := by
  cases c with
  | doAnimate tp =>
    by_cases hpage : st.currentPageId = -1
    · exact ⟨wt, by simp [TimelineCall.run, doAnimate, hpage, hi], rfl, rfl, hcap⟩
    · obtain ⟨wt2, hr, h2⟩ := related_at_index
        (doAnimate_timelines_relation ease tp st hpage) i wt hi
      refine ⟨wt2, h2, ?_⟩
      by_cases hp : wt.pageIndex = toUInt32 (st.currentPageId - 1)
      · obtain ⟨o, ho⟩ := hr.1 hp
        rw [ho, updateTimelineProperties_captured ease wt o _ hcap]
        exact ⟨rfl, rfl, hcap⟩
      · rw [hr.2 hp]
        exact ⟨rfl, rfl, hcap⟩
  | setTimelinePosition p =>
    obtain ⟨wt2, ⟨o, ho⟩, h2⟩ := related_at_index
      (setTimelinePositionLoop_forall₂ ease p st.widgetTimelines st.objs st.lvCalls) i wt hi
    refine ⟨wt2, h2, ?_⟩
    rw [ho, updateTimelineProperties_captured ease wt o _ hcap]
    exact ⟨rfl, rfl, hcap⟩
  | addTimelineKeyframe obj page_index k =>
    obtain ⟨wt2, h2, h3, h4, h5⟩ :=
      addTimelineKeyframe_getElem? st.widgetTimelines obj page_index k i wt hi
    exact ⟨wt2, h2, h3, h4, by rw [h5]; exact hcap⟩
  | replacePageHook pageId =>
    exact ⟨wt, hi, rfl, rfl, hcap⟩

/-- C19. The first call of `updateTimelineProperties` on a timeline leaves it
marked as captured (`lastTimelinePosition` is no longer -1).  From then on a
call of `updateTimelineProperties` leaves the cached base fields as they are,
and so does any sequence of later `doAnimate`, `setTimelinePosition`,
`addTimelineKeyframe` and page-change calls, at any positions: the timeline
stays at its place in the registry, for the same widget, with the same base
fields, and stays captured. -/
theorem base_captured_once (ease : Nat → ℚ → ℚ) :
    (∀ (wt : WidgetTimeline) (o : LvObj) (p : ℚ),
      (updateTimelineProperties ease wt o p).widgetTimeline.lastTimelinePosition ≠ -1) ∧
    (∀ (wt : WidgetTimeline) (o : LvObj) (p : ℚ), wt.lastTimelinePosition ≠ -1 →
      (updateTimelineProperties ease wt o p).widgetTimeline.base = wt.base) ∧
    (∀ (calls : List TimelineCall) (st : AnimationState) (i : Nat) (wt : WidgetTimeline),
      st.widgetTimelines[i]? = some wt → wt.lastTimelinePosition ≠ -1 →
      ∃ wt2 : WidgetTimeline, (runTimelineCalls ease st calls).widgetTimelines[i]? = some wt2 ∧
        wt2.obj = wt.obj ∧ wt2.base = wt.base ∧ wt2.lastTimelinePosition ≠ -1) := by
  refine ⟨?_, ?_, ?_⟩
  · intro wt o p
    rw [updateTimelineProperties_widgetTimeline]
    exact captureBase_lastTimelinePosition_ne wt o
  · intro wt o p h
    rw [updateTimelineProperties_captured ease wt o p h]
  · intro calls
    induction calls with
    | nil =>
      intro st i wt hi hcap
      exact ⟨wt, hi, rfl, rfl, hcap⟩
    | cons c rest ih =>
      intro st i wt hi hcap
      obtain ⟨wt1, h1, hobj1, hbase1, hcap1⟩ := timelineCall_keeps_base ease c st i wt hi hcap
      obtain ⟨wt2, h2, hobj2, hbase2, hcap2⟩ := ih (c.run ease st) i wt1 h1 hcap1
      exact ⟨wt2, h2, hobj2.trans hobj1, hbase2.trans hbase1, hcap2⟩

/-- C19 (witness): a captured timeline with base x = 10 and opacity 1 keeps its
base through a scrub to 3/4, a keyframe registration for its widget, a page
change and a tick. -/
theorem base_captured_once_witness :
    ∃ wt2 : WidgetTimeline,
      (runTimelineCalls linearEasing capturedState
        [TimelineCall.setTimelinePosition (3 / 4),
         TimelineCall.addTimelineKeyframe 1 0 fadeLaterKeyframe,
         TimelineCall.replacePageHook 1,
         TimelineCall.doAnimate (fun _ => 1 / 2)]).widgetTimelines[0]? = some wt2 ∧
      wt2.obj = capturedTimeline.obj ∧ wt2.base = capturedTimeline.base ∧
      wt2.lastTimelinePosition ≠ -1 :=
  (base_captured_once linearEasing).2.2
    [TimelineCall.setTimelinePosition (3 / 4),
     TimelineCall.addTimelineKeyframe 1 0 fadeLaterKeyframe,
     TimelineCall.replacePageHook 1,
     TimelineCall.doAnimate (fun _ => 1 / 2)]
    capturedState 0 capturedTimeline rfl (by norm_num [capturedTimeline])

/-- C20 (failing input). On a registered timeline holding the instantaneous
keyframe at time 2, `updateTimelineProperties(timeline, 2)` computes and writes
the widget properties (seven style writes and a layout update, x becoming 100),
and afterwards `lastTimelinePosition` is 0, the value assigned when the base was
captured, not 2. -/
theorem updateTimelineProperties_position_not_cached :
    (updateTimelineProperties linearEasing (registeredTimeline [instantAtTwoKeyframe])
      blankObj 2).calls.length = 8 ∧
    (updateTimelineProperties linearEasing (registeredTimeline [instantAtTwoKeyframe])
      blankObj 2).widgetTimeline.lastTimelinePosition = 0 ∧
    (updateTimelineProperties linearEasing (registeredTimeline [instantAtTwoKeyframe])
      blankObj 2).widgetTimeline.lastTimelinePosition ≠ 2 := by
  have h0 : (updateTimelineProperties linearEasing (registeredTimeline [instantAtTwoKeyframe])
      blankObj 2).widgetTimeline.lastTimelinePosition = 0 := by
    rw [updateTimelineProperties_widgetTimeline]
    simp [captureBase, registeredTimeline]
  refine ⟨?_, h0, ?_⟩
  · apply updateTimelineProperties_calls_length
    simp [captureBase, registeredTimeline]
  · rw [h0]
    norm_num

/-! ## Claims on the guard, the selection tasks and the object registry -/

theorem applyUpdateTask_g_updateTask (ev : FlowEvaluator) (tk : Toolkit) (st : Runtime)
    (t : UpdateTask) : (applyUpdateTask ev tk st t).g_updateTask = st.g_updateTask := by
  obtain ⟨kind, obj, p, c, i⟩ := t
  cases kind <;> simp only [applyUpdateTask] <;> repeat' split
  all_goals rfl

theorem applyUpdateTask_flowCalls (ev : FlowEvaluator) (tk : Toolkit) (st : Runtime)
    (t : UpdateTask) :
    (applyUpdateTask ev tk st t).flowCalls = st.flowCalls ∨
      ∃ (c : LvCall) (objs : ObjId → LvObj), c.target = t.obj ∧
        (applyUpdateTask ev tk st t).flowCalls =
          st.flowCalls ++ deliverValueChanged tk st.g_updateTask objs c := by
  obtain ⟨kind, obj, p, c, i⟩ := t
  cases kind <;> simp only [applyUpdateTask] <;> repeat' split
  all_goals first
    | exact Or.inl rfl
    | (refine Or.inr ⟨_, _, ?_, rfl⟩; rfl)

theorem foldl_doUpdateTask_g_updateTask (ev : FlowEvaluator) (tk : Toolkit)
    (ts : List UpdateTask) (st : Runtime) :
    (ts.foldl (doUpdateTask ev tk) st).g_updateTask = if ts = [] then st.g_updateTask else none := by
  induction ts generalizing st with
  | nil => rfl
  | cons t rest ih =>
    rw [List.foldl_cons, ih]
    simp only [List.cons_ne_nil, if_false]
    split <;> rfl

theorem dispatcherCall_keeps_guard_empty (tk : Toolkit) (c : DispatcherCall) (st : Runtime)
    (h : st.g_updateTask = none) : (c.run tk st).g_updateTask = none := by
  cases c with
  | addUpdateTask kind obj p c i => exact h
  | doUpdateTasks ev =>
    simp only [DispatcherCall.run, doUpdateTasks, foldl_doUpdateTask_g_updateTask]
    split
    · exact h
    · rfl

/-- C21. In the iteration for a task `t` of the queue, the task is applied in a
state whose guard is `t`, the guard is still `t` when the branch ends, every
event the toolkit delivers from inside the task's write is handled with the
guard being `t`, and the iteration ends with the guard empty.  After
`doUpdateTasks` returns the guard is empty for every non-empty queue, and it is
as it was (so empty) for the empty queue.  The guard is empty at program start
and after any sequence of `addUpdateTask` and `doUpdateTasks` calls. -/
theorem guard_lifecycle (tk : Toolkit) :
    (∀ (ev : FlowEvaluator) (st : Runtime) (t : UpdateTask),
      doUpdateTask ev tk st t =
        { applyUpdateTask ev tk { st with g_updateTask := some t } t with g_updateTask := none } ∧
      (applyUpdateTask ev tk { st with g_updateTask := some t } t).g_updateTask = some t ∧
      ((doUpdateTask ev tk st t).flowCalls = st.flowCalls ∨
        ∃ (c : LvCall) (objs : ObjId → LvObj), c.target = t.obj ∧
          (doUpdateTask ev tk st t).flowCalls =
            st.flowCalls ++ deliverValueChanged tk (some t) objs c) ∧
      (doUpdateTask ev tk st t).g_updateTask = none) ∧
    (∀ (ev : FlowEvaluator) (st : Runtime),
      (doUpdateTasks ev tk st).g_updateTask =
        if st.updateTasks = [] then st.g_updateTask else none) ∧
    (∀ (objs : ObjId → LvObj) (calls : List DispatcherCall),
      (runDispatcherCalls tk (initialRuntime objs) calls).g_updateTask = none) := by
  refine ⟨?_, ?_, ?_⟩
  · intro ev st t
    refine ⟨rfl, applyUpdateTask_g_updateTask ev tk _ t, ?_, rfl⟩
    exact applyUpdateTask_flowCalls ev tk { st with g_updateTask := some t } t
  · intro ev st
    exact foldl_doUpdateTask_g_updateTask ev tk st.updateTasks st
  · intro objs calls
    have key : ∀ (cs : List DispatcherCall) (st : Runtime), st.g_updateTask = none →
        (runDispatcherCalls tk st cs).g_updateTask = none := by
      intro cs
      induction cs with
      | nil => intro st h; exact h
      | cons c rest ih =>
        intro st h
        exact ih (c.run tk st) (dispatcherCall_keeps_guard_empty tk c st h)
    exact key calls (initialRuntime objs) rfl

/-- C22. For a dropdown-selected (respectively roller-selected) task, the
iteration of `doUpdateTasks` calls `lv_dropdown_set_selected` (respectively
`lv_roller_set_selected`) once, with the evaluated integer reduced modulo 2^16,
when that reduced value differs from the widget's current selection, and makes
no toolkit call when the two are equal; in particular an evaluated value of
65536 + k on a widget whose selection is k < 65536 causes no write. -/
theorem doUpdateTask_selection_modulo (ev : FlowEvaluator) (tk : Toolkit) (st : Runtime)
    (t : UpdateTask)
    (hkind : t.updateTaskType = .UPDATE_TASK_TYPE_DROPDOWN_SELECTED ∨
      t.updateTaskType = .UPDATE_TASK_TYPE_ROLLER_SELECTED) :
    ((toUInt16 (ev.evalIntegerProperty t.page_index t.component_index t.property_index) : Int) =
      ev.evalIntegerProperty t.page_index t.component_index t.property_index % 65536) ∧
    (t.updateTaskType = .UPDATE_TASK_TYPE_DROPDOWN_SELECTED →
      (doUpdateTask ev tk st t).lvCalls =
        if toUInt16 (ev.evalIntegerProperty t.page_index t.component_index t.property_index) ≠
            (st.objs t.obj).dropdownSelected then
          st.lvCalls ++ [LvCall.lv_dropdown_set_selected t.obj
            (toUInt16 (ev.evalIntegerProperty t.page_index t.component_index t.property_index))]
        else st.lvCalls) ∧
    (t.updateTaskType = .UPDATE_TASK_TYPE_ROLLER_SELECTED →
      (doUpdateTask ev tk st t).lvCalls =
        if toUInt16 (ev.evalIntegerProperty t.page_index t.component_index t.property_index) ≠
            (st.objs t.obj).rollerSelected then
          st.lvCalls ++ [LvCall.lv_roller_set_selected t.obj
            (toUInt16 (ev.evalIntegerProperty t.page_index t.component_index t.property_index))]
        else st.lvCalls) ∧
    (∀ k : Nat, k < 65536 →
      ev.evalIntegerProperty t.page_index t.component_index t.property_index = 65536 + k →
      t.updateTaskType.boundProperty (st.objs t.obj) = PropertyValue.integer k →
      (doUpdateTask ev tk st t).lvCalls = st.lvCalls) := by
  refine ⟨?_, ?_, ?_, ?_⟩
  · unfold toUInt16
    exact Int.toNat_of_nonneg (Int.emod_nonneg _ (by norm_num))
  · intro hk
    by_cases h : toUInt16 (ev.evalIntegerProperty t.page_index t.component_index
        t.property_index) = (st.objs t.obj).dropdownSelected
    · simp [doUpdateTask, applyUpdateTask, hk, h]
    · simp [doUpdateTask, applyUpdateTask, hk, h, toolkitCall]
  · intro hk
    by_cases h : toUInt16 (ev.evalIntegerProperty t.page_index t.component_index
        t.property_index) = (st.objs t.obj).rollerSelected
    · simp [doUpdateTask, applyUpdateTask, hk, h]
    · simp [doUpdateTask, applyUpdateTask, hk, h, toolkitCall]
  · intro k hk hev hsel
    have hmod : toUInt16 (65536 + (k : Int)) = k := by
      unfold toUInt16
      omega
    rw [doUpdateTask_lvCalls_eq_iff]
    rcases hkind with hd | hr
    · simp only [hd, UpdateTaskType.boundProperty] at hsel
      simp only [UpdateTask.evaluated, UpdateTaskType.comparedProperty,
        UpdateTaskType.boundProperty, hd, hev, hmod]
      exact hsel.symm
    · simp only [hr, UpdateTaskType.boundProperty] at hsel
      simp only [UpdateTask.evaluated, UpdateTaskType.comparedProperty,
        UpdateTaskType.boundProperty, hr, hev, hmod]
      exact hsel.symm

/-- C22 (witness): a dropdown whose selection is 3 and a flow value of 65539;
the iteration of the dropdown-selected task makes no toolkit call. -/
theorem doUpdateTask_selection_modulo_witness :
    (doUpdateTask (propertyEvaluator (fun _ => 65539)) quietToolkit
      (singleTaskRuntime dropdownObj .UPDATE_TASK_TYPE_DROPDOWN_SELECTED)
      { updateTaskType := .UPDATE_TASK_TYPE_DROPDOWN_SELECTED, obj := 1, page_index := 0,
        component_index := 0, property_index := 0 }).lvCalls =
      (singleTaskRuntime dropdownObj .UPDATE_TASK_TYPE_DROPDOWN_SELECTED).lvCalls :=
  (doUpdateTask_selection_modulo (propertyEvaluator (fun _ => 65539)) quietToolkit
    (singleTaskRuntime dropdownObj .UPDATE_TASK_TYPE_DROPDOWN_SELECTED)
    { updateTaskType := .UPDATE_TASK_TYPE_DROPDOWN_SELECTED, obj := 1, page_index := 0,
      component_index := 0, property_index := 0 }
    (Or.inl rfl)).2.2.2 3 (by decide) rfl rfl

theorem setObjectIndexAll_lookup (registrations : List (ObjId × Int)) (m : IndexToObject)
    (index : Int) :
    getLvglObjectFromIndex (setObjectIndexAll m registrations) index =
      match m index with
      | some first => some first
      | none => (registrations.find? (fun r => decide (r.2 = index))).map Prod.fst := by
  induction registrations generalizing m with
  | nil =>
    simp only [setObjectIndexAll, List.foldl_nil, getLvglObjectFromIndex, List.find?_nil,
      Option.map_none']
    cases m index <;> rfl
  | cons r rest ih =>
    have hstep : setObjectIndexAll m (r :: rest) =
        setObjectIndexAll (setObjectIndex m r.1 r.2) rest := rfl
    rw [hstep, ih]
    by_cases hr : r.2 = index
    · subst hr
      cases hm : m r.2 <;> simp [setObjectIndex, hm]
    · have hne : ¬ index = r.2 := fun h => hr h.symm
      simp only [setObjectIndex, hne, if_false, List.find?_cons, hr, decide_False]

/-- C23. The registry keeps the first registration.  After
`setObjectIndex(obj1, i)` followed by `setObjectIndex(obj2, i)` the lookup of
`i` gives what it gave after the first call, which is `obj1` when `i` had no
entry before.  After any sequence of registrations on the empty registry, the
lookup of an index gives the object of the first registration under that
index, and has no defined result when there is none. -/
theorem indexToObject_keeps_first (m : IndexToObject) (obj1 obj2 : ObjId) (i : Int)
    (registrations : List (ObjId × Int)) :
    getLvglObjectFromIndex (setObjectIndex (setObjectIndex m obj1 i) obj2 i) i =
      getLvglObjectFromIndex (setObjectIndex m obj1 i) i ∧
    getLvglObjectFromIndex
      (setObjectIndex (setObjectIndex emptyIndexToObject obj1 i) obj2 i) i = some obj1 ∧
    getLvglObjectFromIndex (setObjectIndexAll emptyIndexToObject registrations) i =
      (registrations.find? (fun r => decide (r.2 = i))).map Prod.fst ∧
    ((getLvglObjectFromIndex (setObjectIndexAll emptyIndexToObject registrations) i = none) ↔
      ∀ r ∈ registrations, r.2 ≠ i) := by
  have hall := setObjectIndexAll_lookup registrations emptyIndexToObject i
  simp only [emptyIndexToObject] at hall
  refine ⟨?_, ?_, hall, ?_⟩
  · cases hm : m i <;> simp [getLvglObjectFromIndex, setObjectIndex, hm]
  · simp [getLvglObjectFromIndex, setObjectIndex, emptyIndexToObject]
  · have hall2 : getLvglObjectFromIndex (setObjectIndexAll emptyIndexToObject registrations) i =
        (registrations.find? (fun r => decide (r.2 = i))).map Prod.fst := hall
    rw [hall2]
    simp [List.find?_eq_none]

end EezFlow
